import Mathlib

/-!
# CADSTAR PCB archive importer: layer-stack translation, design-size check, outlines

A shallow embedding of `pcbnew/cadstar2kicadpcb_plugin/cadstar_pcb.cpp`
(`CADSTAR_PCB::Load`, `loadBoardStackup`, `loadBoards`, `drawCadstarShape`,
`getDrawSegments`, `getLineThickness`, `getKiCadPoint`, `getPolarAngle`,
`getKiCadCopperLayerID`) and of the field validator of
`eeschema/sch_validators.cpp` (`SCH_FIELD_VALIDATOR`), followed by theorems
about them.

Conventions of the embedding:

* C++ enumerations are inductive types with the source's enumerator names.
* `std::map::operator[]` is a total lookup.
* A pointer to a stackup item is an `Option`: `none` is an invalid pointer
  (uninitialised or null), and using it is reported as `Failure.invalidPointer`.
* The stackup is a list of item values. The walk never touches an item again
  once it is in the stackup: a fresh item is allocated whenever
  `dielectricSublayer == 0`, and `dielectricSublayer` is `0` whenever the
  previous layer was not a dielectric (invariant `Core.idle` below). So values
  and pointers agree; the post-pass updates the stored item in place.
* `int` arithmetic wraps modulo `2^32` (`toInt`), `long long` modulo `2^64`.
* `double` values (the angles of arcs) are kept as the expressions that compute
  them (`ANGLE`); `ANGLE.eval` gives the value of such an expression as a
  rational number, in tenths of a degree, with the values that `ArcTangente`
  returns as a parameter.
* Calls wrapped in `wxASSERT` (`SetLayerType`, `SetLayerName` on the board) and
  the bookkeeping map `mCopperLayers` do not influence any other value of the
  function and are left out.
* Strings (`wxString`) are Lean strings read through their lists of characters;
  the translation `_( ... )` of a message is the message itself.
-/

namespace CADSTAR

/-! ## Machine integers -/

/-- Largest value of the C++ type `int` (32 bit). -/
def INT_MAX : Int := 2147483647

/-- Smallest value of the C++ type `int` (32 bit). -/
def INT_MIN : Int := -2147483648

/-- Reduction of an integer to the two's-complement range of `int`. -/
def toInt (z : Int) : Int := (z + 2147483648) % 4294967296 - 2147483648

/-- Reduction of an integer to the two's-complement range of `long long`. -/
def toLongLong (z : Int) : Int :=
  (z + 9223372036854775808) % 18446744073709551616 - 9223372036854775808

/-- The function `std::abs` on `int`: the magnitude is computed in `int`, so the
magnitude of `INT_MIN`, which `int` cannot hold, wraps back to `INT_MIN`. -/
def std_abs (x : Int) : Int := toInt (if x < 0 then -x else x)

/-- The wxWidgets point: two `int` coordinates. -/
structure wxPoint where
  x : Int
  y : Int
deriving DecidableEq, Repr

/-- Point subtraction `operator-` of `wxPoint`, component-wise in `int`. -/
def wxPoint.sub (a b : wxPoint) : wxPoint := ⟨toInt (a.x - b.x), toInt (a.y - b.y)⟩

/-- Point addition `operator+` of `wxPoint`, component-wise in `int`. -/
def wxPoint.add (a b : wxPoint) : wxPoint := ⟨toInt (a.x + b.x), toInt (a.y + b.y)⟩

/-- Division `operator/` of a `wxPoint` by an `int`: C++ integer division, which
truncates towards zero. -/
def wxPoint.div (a : wxPoint) (n : Int) : wxPoint := ⟨toInt (a.x.tdiv n), toInt (a.y.tdiv n)⟩

/-! ## Enumerations -/

/-- CADSTAR layer types named by the `switch` of `loadBoardStackup`; `UNDEFINED`
stands for any value that reaches the `default:` label. -/
inductive LAYER_TYPE
  | UNDEFINED
  | ALLLAYER
  | ALLELEC
  | ALLDOC
  | NOLAYER
  | ASSCOMPCOPP
  | JUMPERLAYER
  | ELEC
  | POWER
  | NONELEC
  | CONSTRUCTION
  | DOC
deriving DecidableEq, Repr

/-- CADSTAR sub-types of a `NONELEC` layer named by the inner `switch`;
`LAYERSUBTYPE_OTHER` stands for any value that reaches the `default:` label. -/
inductive LAYER_SUBTYPE
  | LAYERSUBTYPE_NONE
  | LAYERSUBTYPE_SILKSCREEN
  | LAYERSUBTYPE_PLACEMENT
  | LAYERSUBTYPE_ASSEMBLY
  | LAYERSUBTYPE_SOLDERRESIST
  | LAYERSUBTYPE_PASTE
  | LAYERSUBTYPE_OTHER
deriving DecidableEq, Repr

/-- KiCad board layers used by the importer. -/
inductive PCB_LAYER_ID
  | UNDEFINED_LAYER
  | F_Cu
  | In1_Cu | In2_Cu | In3_Cu | In4_Cu | In5_Cu | In6_Cu | In7_Cu | In8_Cu | In9_Cu | In10_Cu
  | In11_Cu | In12_Cu | In13_Cu | In14_Cu | In15_Cu | In16_Cu | In17_Cu | In18_Cu | In19_Cu
  | In20_Cu | In21_Cu | In22_Cu | In23_Cu | In24_Cu | In25_Cu | In26_Cu | In27_Cu | In28_Cu
  | In29_Cu | In30_Cu
  | B_Cu
  | F_Paste | B_Paste
  | F_SilkS | B_SilkS
  | F_Mask | B_Mask
  | Cmts_User
  | Edge_Cuts
  | Margin
  | F_CrtYd | B_CrtYd
deriving DecidableEq, Repr

/-- KiCad stackup item types. -/
inductive BOARD_STACKUP_ITEM_TYPE
  | BS_ITEM_TYPE_UNDEFINED
  | BS_ITEM_TYPE_COPPER
  | BS_ITEM_TYPE_DIELECTRIC
  | BS_ITEM_TYPE_SOLDERPASTE
  | BS_ITEM_TYPE_SOLDERMASK
  | BS_ITEM_TYPE_SILKSCREEN
deriving DecidableEq, Repr

/-- KiCad electrical types of a copper layer. -/
inductive LAYER_T
  | LT_UNDEFINED
  | LT_SIGNAL
  | LT_POWER
  | LT_MIXED
  | LT_JUMPER
deriving DecidableEq, Repr

/-! ## Parsed archive -/

/-- Key of the layer table. -/
abbrev LAYER_ID := Int

/-- Key of the material table. -/
abbrev MATERIAL_ID := String

/-- A CADSTAR exponent value; it stands for the number `GetDouble()` returns. -/
structure EVALUE where
  Base : Int
  Exponent : Int
deriving DecidableEq, Repr

/-- A CADSTAR material. -/
structure MATERIAL where
  Name : String
  Permittivity : EVALUE
  LossTangent : EVALUE
deriving DecidableEq, Repr

/-- A CADSTAR layer definition. -/
structure LAYER where
  ID : LAYER_ID
  Name : String
  Type_ : LAYER_TYPE
  SubType : LAYER_SUBTYPE
  MaterialId : MATERIAL_ID
  Thickness : Int
  PhysicalLayer : Int
deriving DecidableEq, Repr

/-- The importer object after `Parse()`: the parts of the archive that `Load`
and `loadBoardStackup` read. `Layers` is `Assignments.Layerdefs.Layers` read
through `operator[]`; `Materials` is the material table as a list of entries and
`defaultMaterial` the value `operator[]` yields for an absent key. -/
structure CADSTAR_PCB where
  KiCadUnitMultiplier : Int
  UNDEFINED_MATERIAL_ID : MATERIAL_ID
  Layers : LAYER_ID → LAYER
  Materials : List (MATERIAL_ID × MATERIAL)
  defaultMaterial : MATERIAL
  LayerStack : List LAYER_ID
  DesignArea : wxPoint × wxPoint

/-- Lookup `cpaMaterials[id]`. -/
def CADSTAR_PCB.cpaMaterials (pcb : CADSTAR_PCB) (id : MATERIAL_ID) : MATERIAL :=
  match pcb.Materials.lookup id with
  | some m => m
  | none => pcb.defaultMaterial

/-- The layers of the stack in stack order: `cpaLayers[*it]` for each `it`. -/
def CADSTAR_PCB.stackLayers (pcb : CADSTAR_PCB) : List LAYER :=
  pcb.LayerStack.map pcb.Layers

/-! ## Target board -/

/-- Modelled from the spec: the per-sub-layer record of a stackup item (class
`DIELECTRIC_PRMS`, declared outside the translated file): thickness, material
name, permittivity and loss tangent. `none` means that the importer has not
written the field, which then keeps the value its constructor gave it. -/
structure DIELECTRIC_PRMS where
  Thickness : Option Int
  Material : Option String
  EpsilonR : Option EVALUE
  LossTangent : Option EVALUE
deriving DecidableEq, Repr

/-- Modelled from the spec: a stackup item (class `BOARD_STACKUP_ITEM`, declared
outside the translated file): type, layer name, board-layer role, dielectric
ordinal, type name and the list of sub-layer records. -/
structure BOARD_STACKUP_ITEM where
  Type_ : BOARD_STACKUP_ITEM_TYPE
  LayerName : String
  BrdLayerId : PCB_LAYER_ID
  DielectricLayerId : Option Nat
  TypeName : String
  DielectricPrms : List DIELECTRIC_PRMS
deriving DecidableEq, Repr

/-- Modelled from the spec: the item `new BOARD_STACKUP_ITEM( aType )` creates:
one sub-layer record, nothing written yet. -/
def BOARD_STACKUP_ITEM.new (t : BOARD_STACKUP_ITEM_TYPE) : BOARD_STACKUP_ITEM :=
  { Type_ := t, LayerName := "", BrdLayerId := .UNDEFINED_LAYER, DielectricLayerId := none,
    TypeName := "", DielectricPrms := [⟨none, none, none, none⟩] }

/-- Modelled from the spec: `AddDielectricPrms( idx )` inserts a fresh sub-layer
record at position `idx`. -/
def BOARD_STACKUP_ITEM.AddDielectricPrms (it : BOARD_STACKUP_ITEM) (idx : Nat) :
    BOARD_STACKUP_ITEM :=
  { it with DielectricPrms := it.DielectricPrms.insertIdx idx ⟨none, none, none, none⟩ }

/-- Modelled from the spec: `SetMaterial( name, idx )`. -/
def BOARD_STACKUP_ITEM.SetMaterial (it : BOARD_STACKUP_ITEM) (name : String) (idx : Nat) :
    BOARD_STACKUP_ITEM :=
  { it with DielectricPrms := it.DielectricPrms.modify (fun p => { p with Material := some name }) idx }

/-- Modelled from the spec: `SetEpsilonR( value, idx )`. -/
def BOARD_STACKUP_ITEM.SetEpsilonR (it : BOARD_STACKUP_ITEM) (v : EVALUE) (idx : Nat) :
    BOARD_STACKUP_ITEM :=
  { it with DielectricPrms := it.DielectricPrms.modify (fun p => { p with EpsilonR := some v }) idx }

/-- Modelled from the spec: `SetLossTangent( value, idx )`. -/
def BOARD_STACKUP_ITEM.SetLossTangent (it : BOARD_STACKUP_ITEM) (v : EVALUE) (idx : Nat) :
    BOARD_STACKUP_ITEM :=
  { it with DielectricPrms := it.DielectricPrms.modify (fun p => { p with LossTangent := some v }) idx }

/-- Modelled from the spec: `SetThickness( value, idx )`. -/
def BOARD_STACKUP_ITEM.SetThickness (it : BOARD_STACKUP_ITEM) (v : Int) (idx : Nat) :
    BOARD_STACKUP_ITEM :=
  { it with DielectricPrms := it.DielectricPrms.modify (fun p => { p with Thickness := some v }) idx }

/-- Modelled from the spec: the target board as the importer writes it. The
stackup is the list of committed items; each of the other fields records the
value last passed to the setter of that name (`SetEnabledLayers`,
`SetVisibleLayers`, `SetCopperLayerCount`). A layer set `LSET( &layerIDs[0],
layerIDs.size() )` is kept as the array it is built from: a layer is in the set
exactly when it occurs in the list. -/
structure BOARD where
  Stackup : List BOARD_STACKUP_ITEM
  EnabledLayers : List PCB_LAYER_ID
  VisibleLayers : List PCB_LAYER_ID
  CopperLayerCount : Nat
deriving DecidableEq, Repr

/-- Type name `KEY_COPPER` of the predefined stackup parameters. -/
def KEY_COPPER : String := "Copper"

/-- Type name `KEY_PREPREG` of the predefined stackup parameters. -/
def KEY_PREPREG : String := "PrePreg"

/-! ## Errors -/

/-- The errors raised with `THROW_IO_ERROR`. `UnexpectedLayer name` carries the
argument of the format `"Unexpected layer '%s' in layer stack."`;
`DesignTooLarge` carries the four arguments of the design-size message. -/
inductive IO_ERROR
  | UnexpectedLayer (name : String)
  | DesignTooLarge (sizeX sizeY maxX maxY : Int)
deriving DecidableEq, Repr

/-- Text of the message of an `UnexpectedLayer` error. -/
def IO_ERROR.unexpectedLayerText (name : String) : String :=
  "Unexpected layer '" ++ name ++ "' in layer stack."

/-- Ways in which a call can fail to return: an `IO_ERROR` exception, or the use
of an invalid (null or uninitialised) item pointer. -/
inductive Failure
  | io (e : IO_ERROR)
  | invalidPointer
deriving DecidableEq, Repr

/-! ## `CADSTAR_PCB::getKiCadCopperLayerID` -/

/-- The function `CADSTAR_PCB::getKiCadCopperLayerID`: the fixed table from
copper ordinal to board layer, `UNDEFINED_LAYER` outside `1..32`. -/
def getKiCadCopperLayerID (aLayerNum : Nat) : PCB_LAYER_ID :=
  match aLayerNum with
  | 1 => .F_Cu
  | 2 => .In1_Cu
  | 3 => .In2_Cu
  | 4 => .In3_Cu
  | 5 => .In4_Cu
  | 6 => .In5_Cu
  | 7 => .In6_Cu
  | 8 => .In7_Cu
  | 9 => .In8_Cu
  | 10 => .In9_Cu
  | 11 => .In10_Cu
  | 12 => .In11_Cu
  | 13 => .In12_Cu
  | 14 => .In13_Cu
  | 15 => .In14_Cu
  | 16 => .In15_Cu
  | 17 => .In16_Cu
  | 18 => .In17_Cu
  | 19 => .In18_Cu
  | 20 => .In19_Cu
  | 21 => .In20_Cu
  | 22 => .In21_Cu
  | 23 => .In22_Cu
  | 24 => .In23_Cu
  | 25 => .In24_Cu
  | 26 => .In25_Cu
  | 27 => .In26_Cu
  | 28 => .In27_Cu
  | 29 => .In28_Cu
  | 30 => .In29_Cu
  | 31 => .In30_Cu
  | 32 => .B_Cu
  | _ => .UNDEFINED_LAYER

/-! ## `CADSTAR_PCB::loadBoardStackup` -/

/-- The local variables of `loadBoardStackup` that live across loop iterations,
together with the board being written (`stackup` of the source is
`board.Stackup`). -/
structure LoopState where
  board : BOARD
  numElecAndPowerLayers : Nat
  noOfKiCadStackupLayers : Int
  lastElectricalLayerIndex : Int
  dielectricSublayer : Nat
  numDielectricLayers : Nat
  prevWasDielectric : Bool
  tempKiCadLayer : Option BOARD_STACKUP_ITEM
  layerIDs : List PCB_LAYER_ID
deriving DecidableEq, Repr

/-- The variables declared at the top of the loop body and set by the `switch`. -/
structure IterLocals where
  kicadLayerType : BOARD_STACKUP_ITEM_TYPE
  copperType : LAYER_T
  kicadLayerID : PCB_LAYER_ID
  layerTypeName : String
deriving DecidableEq, Repr

/-- The three ways of leaving the `switch( curLayer.Type )`. -/
inductive SwitchExit
  | throw_ (e : IO_ERROR)
  | continue_ (s : LoopState)
  | break_ (s : LoopState) (v : IterLocals)
deriving DecidableEq, Repr

/-- Lines 67-89: the state before the first iteration. `stackup.RemoveAll()`
empties the stackup, the four required layers are pushed on `layerIDs` and
written as the enabled layers; `tempKiCadLayer` is not initialised. -/
def loadBoardStackup.init (board : BOARD) : LoopState :=
  let layerIDs : List PCB_LAYER_ID := [.F_CrtYd, .B_CrtYd, .Margin, .Edge_Cuts]
  { board := { board with Stackup := [], EnabledLayers := layerIDs },
    numElecAndPowerLayers := 0,
    noOfKiCadStackupLayers := 0,
    lastElectricalLayerIndex := 0,
    dielectricSublayer := 0,
    numDielectricLayers := 0,
    prevWasDielectric := false,
    tempKiCadLayer := none,
    layerIDs := layerIDs }

/-- Lines 102-108: on a non-construction layer that follows a dielectric, the
pending dielectric item is added to the stackup. -/
def loadBoardStackup.flush (s : LoopState) (curLayer : LAYER) : Option LoopState :=
  if s.prevWasDielectric && curLayer.Type_ != .CONSTRUCTION then
    match s.tempKiCadLayer with
    | none => none
    | some t =>
      some { s with
        board := { s.board with Stackup := s.board.Stackup ++ [t] },
        dielectricSublayer := 0,
        prevWasDielectric := false,
        noOfKiCadStackupLayers := s.noOfKiCadStackupLayers + 1 }
  else some s

/-- Lines 160-198: layer role and type name of a paste, silkscreen or solder
resist layer, chosen by `numElecAndPowerLayers > 0`. -/
def loadBoardStackup.side (s : LoopState) (t : BOARD_STACKUP_ITEM_TYPE)
    (top : PCB_LAYER_ID) (topName : String) (bottom : PCB_LAYER_ID) (bottomName : String) :
    IterLocals :=
  if s.numElecAndPowerLayers > 0 then
    { kicadLayerType := t, copperType := .LT_UNDEFINED, kicadLayerID := top,
      layerTypeName := topName }
  else
    { kicadLayerType := t, copperType := .LT_UNDEFINED, kicadLayerID := bottom,
      layerTypeName := bottomName }

/-- Lines 94-97 and 110-207: the initial values of the per-iteration variables
and the `switch( curLayer.Type )` with its inner `switch( curLayer.SubType )`. -/
def loadBoardStackup.switch_ (s : LoopState) (curLayer : LAYER) : SwitchExit :=
  let copper (t : LAYER_T) : SwitchExit :=
    let n := s.numElecAndPowerLayers + 1
    .break_ { s with numElecAndPowerLayers := n }
      { kicadLayerType := .BS_ITEM_TYPE_COPPER, copperType := t,
        kicadLayerID := getKiCadCopperLayerID n, layerTypeName := KEY_COPPER }
  let unset : IterLocals :=
    { kicadLayerType := .BS_ITEM_TYPE_UNDEFINED, copperType := .LT_UNDEFINED,
      kicadLayerID := .UNDEFINED_LAYER, layerTypeName := "" }
  match curLayer.Type_ with
  | .ALLDOC | .ALLELEC | .ALLLAYER | .ASSCOMPCOPP | .NOLAYER =>
    .throw_ (.UnexpectedLayer curLayer.Name)
  | .JUMPERLAYER => copper .LT_JUMPER
  | .ELEC => copper .LT_SIGNAL
  | .POWER => copper .LT_POWER
  | .CONSTRUCTION =>
    .break_ { s with prevWasDielectric := true }
      { kicadLayerType := .BS_ITEM_TYPE_DIELECTRIC, copperType := .LT_UNDEFINED,
        kicadLayerID := .UNDEFINED_LAYER, layerTypeName := KEY_PREPREG }
  | .DOC => .continue_ s
  | .NONELEC =>
    match curLayer.SubType with
    | .LAYERSUBTYPE_ASSEMBLY | .LAYERSUBTYPE_NONE | .LAYERSUBTYPE_PLACEMENT => .continue_ s
    | .LAYERSUBTYPE_PASTE =>
      .break_ s (loadBoardStackup.side s .BS_ITEM_TYPE_SOLDERPASTE
        .F_Paste "Top Solder Paste" .B_Paste "Bottom Solder Paste")
    | .LAYERSUBTYPE_SILKSCREEN =>
      .break_ s (loadBoardStackup.side s .BS_ITEM_TYPE_SILKSCREEN
        .F_SilkS "Top Silk Screen" .B_SilkS "Bottom Silk Screen")
    | .LAYERSUBTYPE_SOLDERRESIST =>
      .break_ s (loadBoardStackup.side s .BS_ITEM_TYPE_SOLDERMASK
        .F_Mask "Top Solder Mask" .B_Mask "Bottom Solder Mask")
    | .LAYERSUBTYPE_OTHER => .break_ s unset
  | .UNDEFINED => .break_ s unset

/-- Lines 227-239: material name, permittivity and loss tangent are written when
the material id differs from `UNDEFINED_MATERIAL_ID`; the thickness, the product
`curLayer.Thickness * KiCadUnitMultiplier` as an `int`, is always written. -/
def loadBoardStackup.setPrms (pcb : CADSTAR_PCB) (curLayer : LAYER) (sub : Nat)
    (t : BOARD_STACKUP_ITEM) : BOARD_STACKUP_ITEM :=
  let t1 :=
    if curLayer.MaterialId != pcb.UNDEFINED_MATERIAL_ID then
      ((t.SetMaterial (pcb.cpaMaterials curLayer.MaterialId).Name sub).SetEpsilonR
        (pcb.cpaMaterials curLayer.MaterialId).Permittivity sub).SetLossTangent
        (pcb.cpaMaterials curLayer.MaterialId).LossTangent sub
    else t
  t1.SetThickness (toInt (curLayer.Thickness * pcb.KiCadUnitMultiplier)) sub

/-- Lines 209-264: the part of the loop body after the `switch`. -/
def loadBoardStackup.afterSwitch (pcb : CADSTAR_PCB) (s : LoopState) (curLayer : LAYER)
    (v : IterLocals) : Except (Failure × LoopState) LoopState :=
  -- 209-210
  let temp0 : Option BOARD_STACKUP_ITEM :=
    if s.dielectricSublayer = 0 then some (BOARD_STACKUP_ITEM.new v.kicadLayerType)
    else s.tempKiCadLayer
  match temp0 with
  | none => .error (.invalidPointer, s)
  | some t0 =>
    -- 212-213
    let t1 := { t0 with LayerName := curLayer.Name, BrdLayerId := v.kicadLayerID }
    -- 215-225
    let numDielectricLayers :=
      if s.prevWasDielectric && s.dielectricSublayer = 0 then s.numDielectricLayers + 1
      else s.numDielectricLayers
    let t2 :=
      if s.prevWasDielectric then
        if s.dielectricSublayer = 0 then { t1 with DielectricLayerId := some numDielectricLayers }
        else t1.AddDielectricPrms s.dielectricSublayer
      else t1
    -- 227-242
    let t3 := loadBoardStackup.setPrms pcb curLayer s.dielectricSublayer t2
    let t4 := { t3 with TypeName := v.layerTypeName }
    -- 244-252
    let s1 : LoopState :=
      if !s.prevWasDielectric then
        let layerIDs := s.layerIDs ++ [t4.BrdLayerId]
        { s with
          board := { s.board with Stackup := s.board.Stackup ++ [t4], EnabledLayers := layerIDs },
          noOfKiCadStackupLayers := s.noOfKiCadStackupLayers + 1,
          layerIDs := layerIDs,
          numDielectricLayers := numDielectricLayers,
          tempKiCadLayer := some t4 }
      else
        { s with
          dielectricSublayer := s.dielectricSublayer + 1,
          numDielectricLayers := numDielectricLayers,
          tempKiCadLayer := some t4 }
    -- 254-264
    if v.copperType != .LT_UNDEFINED then
      .ok { s1 with lastElectricalLayerIndex := s1.noOfKiCadStackupLayers - 1 }
    else .ok s1

/-- Lines 93-265: one iteration of the loop over the layer stack, for the layer
`curLayer = cpaLayers[*it]`. An error carries the state at the moment it is
raised. -/
def loadBoardStackup.body (pcb : CADSTAR_PCB) (s : LoopState) (curLayer : LAYER) :
    Except (Failure × LoopState) LoopState :=
  match loadBoardStackup.flush s curLayer with
  | none => .error (.invalidPointer, s)
  | some s1 =>
    match loadBoardStackup.switch_ s1 curLayer with
    | .throw_ e => .error (.io e, s1)
    | .continue_ s2 => .ok s2
    | .break_ s2 v => loadBoardStackup.afterSwitch pcb s2 curLayer v

/-- Lines 91-266: the loop over the layer stack. -/
def loadBoardStackup.loop (pcb : CADSTAR_PCB) :
    LoopState → List LAYER → Except (Failure × LoopState) LoopState
  | s, [] => .ok s
  | s, curLayer :: rest =>
    match loadBoardStackup.body pcb s curLayer with
    | .ok s1 => loadBoardStackup.loop pcb s1 rest
    | .error e => .error e

/-- Modelled from the spec: `BOARD_STACKUP::GetStackupLayer( aIndex )` (declared
outside the translated file) yields the item at position `aIndex` of the
stackup, and a null pointer when there is no such position. -/
def GetStackupLayer (stackup : List BOARD_STACKUP_ITEM) (aIndex : Int) :
    Option BOARD_STACKUP_ITEM :=
  if aIndex < 0 then none else stackup[aIndex.toNat]?

/-- The algorithm `std::remove( first, last, value )` over a whole vector whose
result is discarded, as at line 271: the elements different from `value` are
moved to the front in order, the positions behind them keep what they held, and
the vector keeps its length. -/
def std_remove (v : List PCB_LAYER_ID) (value : PCB_LAYER_ID) : List PCB_LAYER_ID :=
  let kept := v.filter (fun x => x != value)
  kept ++ v.drop kept.length

/-- Lines 268-282: the post-pass that gives the item at
`lastElectricalLayerIndex` the role `B_Cu`, and the final writes to the board. -/
def loadBoardStackup.postPass (s : LoopState) : Except (Failure × BOARD) BOARD :=
  match GetStackupLayer s.board.Stackup s.lastElectricalLayerIndex with
  | none => .error (.invalidPointer, s.board)
  | some item =>
    let lastElecBrdId := item.BrdLayerId
    let layerIDs := std_remove s.layerIDs lastElecBrdId ++ [.B_Cu]
    .ok { Stackup := s.board.Stackup.set s.lastElectricalLayerIndex.toNat
            { item with BrdLayerId := .B_Cu },
          EnabledLayers := layerIDs,
          VisibleLayers := layerIDs,
          CopperLayerCount := s.numElecAndPowerLayers }

/-- The function `CADSTAR_PCB::loadBoardStackup`. The result is the board after
a normal return, or the failure together with the board as it is at that
moment. -/
def loadBoardStackup (pcb : CADSTAR_PCB) (board : BOARD) : Except (Failure × BOARD) BOARD :=
  match loadBoardStackup.loop pcb (loadBoardStackup.init board) pcb.stackLayers with
  | .error (f, s) => .error (f, s.board)
  | .ok s => loadBoardStackup.postPass s

/-! ## `CADSTAR_PCB::Load`: design-size check and design centre -/

/-- Lines 39-40: `designSize`. -/
def Load.designSize (pcb : CADSTAR_PCB) : wxPoint :=
  pcb.DesignArea.1.sub pcb.DesignArea.2

/-- Line 41: `designSizeXkicad`. -/
def Load.designSizeXkicad (pcb : CADSTAR_PCB) : Int :=
  toLongLong ((Load.designSize pcb).x * pcb.KiCadUnitMultiplier)

/-- Line 42: `designSizeYkicad`. -/
def Load.designSizeYkicad (pcb : CADSTAR_PCB) : Int :=
  toLongLong ((Load.designSize pcb).y * pcb.KiCadUnitMultiplier)

/-- Lines 43-44: `maxDesignSizekicad`, the sum in `long long` of
`std::numeric_limits<int>::max()` and the `int` value
`std::abs( std::numeric_limits<int>::min() )`. -/
def Load.maxDesignSizekicad : Int := toLongLong (INT_MAX + std_abs INT_MIN)

/-- Lines 46-54: the design-size check of `Load`. -/
def Load.sizeCheck (pcb : CADSTAR_PCB) : Except IO_ERROR Unit :=
  if Load.designSizeXkicad pcb > Load.maxDesignSizekicad
      || Load.designSizeYkicad pcb > Load.maxDesignSizekicad then
    .error (.DesignTooLarge ((Load.designSizeXkicad pcb).tdiv 1000)
      ((Load.designSizeYkicad pcb).tdiv 1000) (Load.maxDesignSizekicad.tdiv 1000)
      (Load.maxDesignSizekicad.tdiv 1000))
  else .ok ()

/-- Lines 56-58: `mDesignCenter`. -/
def Load.mDesignCenter (pcb : CADSTAR_PCB) : wxPoint :=
  (pcb.DesignArea.1.add pcb.DesignArea.2).div 2

/-! ## `CADSTAR_PCB::getKiCadPoint` -/

/-- The function `CADSTAR_PCB::getKiCadPoint`, in `int` arithmetic. -/
def getKiCadPoint (pcb : CADSTAR_PCB) (mDesignCenter aCadstarPoint : wxPoint) : wxPoint :=
  { x := toInt (toInt (aCadstarPoint.x - mDesignCenter.x) * pcb.KiCadUnitMultiplier),
    y := toInt (toInt (-toInt (aCadstarPoint.y - mDesignCenter.y)) * pcb.KiCadUnitMultiplier) }

/-- The expressions of `getKiCadPoint` evaluated in unbounded integers. -/
def getKiCadPointExact (pcb : CADSTAR_PCB) (mDesignCenter aCadstarPoint : wxPoint) : wxPoint :=
  { x := (aCadstarPoint.x - mDesignCenter.x) * pcb.KiCadUnitMultiplier,
    y := -(aCadstarPoint.y - mDesignCenter.y) * pcb.KiCadUnitMultiplier }

/-! ## Board outlines: `getDrawSegments`, `drawCadstarShape`, `loadBoards`, `Load` -/

/-- CADSTAR vertex types. -/
inductive VERTEX_TYPE
  | POINT
  | CLOCKWISE_ARC
  | CLOCKWISE_SEMICIRCLE
  | ANTICLOCKWISE_ARC
  | ANTICLOCKWISE_SEMICIRCLE
deriving DecidableEq, Repr

/-- A CADSTAR vertex. -/
structure VERTEX where
  Type_ : VERTEX_TYPE
  Center : wxPoint
  End : wxPoint
deriving DecidableEq, Repr

/-- CADSTAR shape types named by the `switch` of `drawCadstarShape`. -/
inductive SHAPE_TYPE
  | OPENSHAPE
  | OUTLINE
  | SOLID
  | HATCHED
deriving DecidableEq, Repr

/-- A CADSTAR cutout. -/
structure CUTOUT where
  Vertices : List VERTEX
deriving DecidableEq, Repr

/-- A CADSTAR shape. -/
structure SHAPE where
  Type_ : SHAPE_TYPE
  Vertices : List VERTEX
  Cutouts : List CUTOUT
deriving DecidableEq, Repr

/-- Key of the line-code table. -/
abbrev LINECODE_ID := String

/-- Key of the table of boards. -/
abbrev BOARD_ID := String

/-- A CADSTAR line code; only its width is read. -/
structure LINECODE where
  Width : Int
deriving DecidableEq, Repr

/-- A CADSTAR board record (the type `BOARD` of the archive parser, not the
target board). -/
structure CADSTAR_BOARD where
  Shape : SHAPE
  LineCodeID : LINECODE_ID
deriving DecidableEq, Repr

/-- The parts of the parsed archive that the outline drawing reads: the entries
of `Layout.Boards` in iteration order and the table
`Assignments.Codedefs.LineCodes`. -/
structure LAYOUT where
  Boards : List (BOARD_ID × CADSTAR_BOARD)
  LineCodes : List (LINECODE_ID × LINECODE)
deriving DecidableEq, Repr

/-- KiCad stroke shapes used by the importer. -/
inductive STROKE_T
  | S_SEGMENT
  | S_ARC
deriving DecidableEq, Repr

/-- The `double` values of the arc computation, kept as the expressions that
compute them: `ArcTangente`, `NormalizeAnglePos` and `NormalizeAngleNeg` are the
floating-point helpers of `trigo.h`, and `sub` is the subtraction of two
`double`s. -/
inductive ANGLE
  | ArcTangente (dy dx : Int)
  | NormalizeAnglePos (a : ANGLE)
  | NormalizeAngleNeg (a : ANGLE)
  | sub (a b : ANGLE)
deriving DecidableEq, Repr

/-- Modelled from the spec: a drawn segment (class `DRAWSEGMENT`, declared
outside the translated file). Each field records the value last passed to the
setter of that name (`SetShape`, `SetStart`, `SetEnd`, `SetArcStart`,
`SetCenter`, `SetAngle`, `SetWidth`, `SetLayer`); `none` means that the setter
has not been called. -/
structure DRAWSEGMENT where
  Shape : Option STROKE_T
  Start : Option wxPoint
  End : Option wxPoint
  ArcStart : Option wxPoint
  Center : Option wxPoint
  Angle : Option ANGLE
  Width : Option Int
  Layer : Option PCB_LAYER_ID
deriving DecidableEq, Repr

/-- Modelled from the spec: the segment `new DRAWSEGMENT( mBoard )` creates,
nothing written yet. -/
def DRAWSEGMENT.new : DRAWSEGMENT :=
  { Shape := none, Start := none, End := none, ArcStart := none, Center := none,
    Angle := none, Width := none, Layer := none }

/-- Modelled from the spec: the whole target board `mBoard` as `Load` uses it:
the part `loadBoardStackup` writes (`board`), the value
`GetDesignSettings().GetLineThickness( Edge_Cuts )` that `getLineThickness`
reads, and the list of drawings that `mBoard->Add( ds, ADD_MODE::APPEND )`
appends to. -/
structure TARGET_BOARD where
  board : BOARD
  EdgeCutsLineThickness : Int
  Drawings : List DRAWSEGMENT
deriving DecidableEq, Repr

/-- Modelled from the spec: `NormalizeAnglePos` of `trigo.h` (declared outside
the translated file) normalises an angle, in tenths of a degree, to the positive
range, 0 to 360 degrees with 0 in it and 360 not: the value in `[0, 3600)` that
differs from the angle by a whole number of turns. A finite `double` is a
rational number. -/
def NormalizeAnglePos (Angle : ℚ) : ℚ := Angle - 3600 * ⌊Angle / 3600⌋

/-- Modelled from the spec: `NormalizeAngleNeg` of `trigo.h` (declared outside
the translated file) normalises an angle, in tenths of a degree, to the negative
range, 0 to -360 degrees with 0 in it and -360 not: the value in `(-3600, 0]`
that differs from the angle by a whole number of turns. -/
def NormalizeAngleNeg (Angle : ℚ) : ℚ := Angle + 3600 * ⌊-Angle / 3600⌋

/-- The function `CADSTAR_PCB::getPolarAngle`. -/
def getPolarAngle (aPoint : wxPoint) : ANGLE :=
  .NormalizeAnglePos (.ArcTangente aPoint.y aPoint.x)

/-- Lines 361-406: the segment built for the pair of vertices `prev`, `cur`. -/
def getDrawSegments.segment (pcb : CADSTAR_PCB) (mDesignCenter : wxPoint) (prev cur : VERTEX) :
    DRAWSEGMENT :=
  let ds := DRAWSEGMENT.new
  let startPoint := getKiCadPoint pcb mDesignCenter prev.End
  let endPoint := getKiCadPoint pcb mDesignCenter cur.End
  let centerPoint :=
    if cur.Type_ = .ANTICLOCKWISE_SEMICIRCLE ∨ cur.Type_ = .CLOCKWISE_SEMICIRCLE then
      (startPoint.add endPoint).div 2
    else getKiCadPoint pcb mDesignCenter cur.Center
  let arc (cw : Bool) : DRAWSEGMENT :=
    let arcStartAngle := getPolarAngle (startPoint.sub centerPoint)
    let arcEndAngle := getPolarAngle (endPoint.sub centerPoint)
    let arcAngle := ANGLE.sub arcEndAngle arcStartAngle
    { ds with
      Shape := some .S_ARC, ArcStart := some startPoint, Center := some centerPoint,
      Angle := some (if cw then .NormalizeAnglePos arcAngle else .NormalizeAngleNeg arcAngle) }
  match cur.Type_ with
  | .POINT => { ds with Shape := some .S_SEGMENT, Start := some startPoint, End := some endPoint }
  | .CLOCKWISE_SEMICIRCLE | .CLOCKWISE_ARC => arc true
  | .ANTICLOCKWISE_SEMICIRCLE | .ANTICLOCKWISE_ARC => arc false

/-- Lines 359-407: the loop of `getDrawSegments` from the vertex after `prev`. -/
def getDrawSegments.loop (pcb : CADSTAR_PCB) (mDesignCenter : wxPoint) :
    VERTEX → List VERTEX → List DRAWSEGMENT
  | _, [] => []
  | prev, cur :: rest =>
    getDrawSegments.segment pcb mDesignCenter prev cur
      :: getDrawSegments.loop pcb mDesignCenter cur rest

/-- The function `CADSTAR_PCB::getDrawSegments`. -/
def getDrawSegments (pcb : CADSTAR_PCB) (mDesignCenter : wxPoint)
    (aCadstarVertices : List VERTEX) : List DRAWSEGMENT :=
  match aCadstarVertices with
  | [] => []
  | [_] => []
  | prev :: cur :: rest => getDrawSegments.loop pcb mDesignCenter prev (cur :: rest)

/-- The function `CADSTAR_PCB::drawCadstarVerticesAsSegments`. -/
def drawCadstarVerticesAsSegments (pcb : CADSTAR_PCB) (mDesignCenter : wxPoint)
    (aCadstarVertices : List VERTEX) (aKiCadLayer : PCB_LAYER_ID) (aLineThickness : Int)
    (mBoard : TARGET_BOARD) : TARGET_BOARD :=
  (getDrawSegments pcb mDesignCenter aCadstarVertices).foldl
    (fun b ds =>
      { b with Drawings := b.Drawings
          ++ [{ ds with Width := some aLineThickness, Layer := some aKiCadLayer }] })
    mBoard

/-- The function `CADSTAR_PCB::drawCadstarCutoutsAsSegments`. -/
def drawCadstarCutoutsAsSegments (pcb : CADSTAR_PCB) (mDesignCenter : wxPoint)
    (aCutouts : List CUTOUT) (aKiCadLayer : PCB_LAYER_ID) (aLineThickness : Int)
    (mBoard : TARGET_BOARD) : TARGET_BOARD :=
  aCutouts.foldl
    (fun b cutout =>
      drawCadstarVerticesAsSegments pcb mDesignCenter cutout.Vertices aKiCadLayer
        aLineThickness b)
    mBoard

/-- The function `CADSTAR_PCB::getLineThickness`; the result has the type `int`. -/
def getLineThickness (pcb : CADSTAR_PCB) (lay : LAYOUT) (mBoard : TARGET_BOARD)
    (aCadstarLineCodeID : LINECODE_ID) : Int :=
  match lay.LineCodes.lookup aCadstarLineCodeID with
  | none => mBoard.EdgeCutsLineThickness
  | some lineCode => toInt (lineCode.Width * pcb.KiCadUnitMultiplier)

/-- The function `CADSTAR_PCB::drawCadstarShape`. -/
def drawCadstarShape (pcb : CADSTAR_PCB) (lay : LAYOUT) (mDesignCenter : wxPoint)
    (aCadstarShape : SHAPE) (aKiCadLayer : PCB_LAYER_ID) (aCadstarLinecodeID : LINECODE_ID)
    (mBoard : TARGET_BOARD) : TARGET_BOARD :=
  let lineThickness := getLineThickness pcb lay mBoard aCadstarLinecodeID
  match aCadstarShape.Type_ with
  | .OPENSHAPE | .OUTLINE =>
    drawCadstarCutoutsAsSegments pcb mDesignCenter aCadstarShape.Cutouts aKiCadLayer
      lineThickness
      (drawCadstarVerticesAsSegments pcb mDesignCenter aCadstarShape.Vertices aKiCadLayer
        lineThickness mBoard)
  | .SOLID => mBoard
  | .HATCHED => mBoard

/-- The function `CADSTAR_PCB::loadBoards`. -/
def loadBoards (pcb : CADSTAR_PCB) (lay : LAYOUT) (mDesignCenter : wxPoint)
    (mBoard : TARGET_BOARD) : TARGET_BOARD :=
  lay.Boards.foldl
    (fun b boardPair =>
      drawCadstarShape pcb lay mDesignCenter boardPair.2.Shape .Edge_Cuts
        boardPair.2.LineCodeID b)
    mBoard

/-- The function `CADSTAR_PCB::Load`, from the parsed archive (the state after
`Parse()`). The result is the board after a normal return, or the failure
together with the board as it is at that moment. -/
def Load (pcb : CADSTAR_PCB) (lay : LAYOUT) (aBoard : TARGET_BOARD) :
    Except (Failure × TARGET_BOARD) TARGET_BOARD :=
  match Load.sizeCheck pcb with
  | .error e => .error (.io e, aBoard)
  | .ok _ =>
    let mDesignCenter := Load.mDesignCenter pcb
    match loadBoardStackup pcb aBoard.board with
    | .error (f, b) => .error (f, { aBoard with board := b })
    | .ok b => .ok (loadBoards pcb lay mDesignCenter { aBoard with board := b })

/-! ## `SCH_FIELD_VALIDATOR` of `eeschema/sch_validators.cpp` -/

/-- Field ids. The constants `REFERENCE`, `VALUE`, `FOOTPRINT`, `DATASHEET`,
`SHEETNAME_V`, `SHEETFILENAME_V` and `FIELD_NAME` are declared outside the
translated file; the first six are the `case` labels of one `switch`, hence
pairwise distinct. `OTHER n` stands for any other id. -/
inductive FIELD_ID
  | REFERENCE
  | VALUE
  | FOOTPRINT
  | DATASHEET
  | SHEETNAME_V
  | SHEETFILENAME_V
  | FIELD_NAME
  | OTHER (n : Nat)
deriving DecidableEq, Repr

/-- The style flags of the wxWidgets class `wxTextValidator` that the source
names. -/
inductive wxTextValidatorStyle
  | wxFILTER_EMPTY
  | wxFILTER_EXCLUDE_CHAR_LIST
deriving DecidableEq, Repr

/-- The validator object: the two members of `SCH_FIELD_VALIDATOR`, and the two
members of its wxWidgets base class `wxTextValidator` that the constructor sets,
the style (`SetStyle`) and the excluded characters (`SetCharExcludes`). -/
structure SCH_FIELD_VALIDATOR where
  m_fieldId : FIELD_ID
  m_isLibEditor : Bool
  style : List wxTextValidatorStyle
  charExcludes : String
deriving DecidableEq, Repr

/-- The window a validator is attached to (`m_validatorWindow`): whether it is
enabled, whether it is shown, and the value of its text entry; `none` when
`GetTextEntry()` yields a null pointer. -/
structure wxWindow where
  IsEnabled : Bool
  IsShown : Bool
  textEntry : Option String
deriving DecidableEq, Repr

/-- The constructor `SCH_FIELD_VALIDATOR::SCH_FIELD_VALIDATOR( aIsLibEditor,
aFieldId, aValue )`, lines 39-76. The base class is constructed with the style
`wxFILTER_EXCLUDE_CHAR_LIST`, which `GetStyle()` then returns. -/
def SCH_FIELD_VALIDATOR.new (aIsLibEditor : Bool) (aFieldId : FIELD_ID) : SCH_FIELD_VALIDATOR :=
  let excludes : String := "\r\n\t"
  let excludes :=
    if aFieldId = .REFERENCE then excludes ++ " "
    else if aFieldId = .VALUE ∧ aIsLibEditor = true then excludes ++ " :/\\"
    else if aFieldId = .SHEETFILENAME_V then excludes ++ ":/\\"
    else excludes
  let style : List wxTextValidatorStyle := [.wxFILTER_EXCLUDE_CHAR_LIST]
  let style :=
    if aFieldId = .REFERENCE ∨ aFieldId = .VALUE ∨ aFieldId = .SHEETNAME_V
        ∨ aFieldId = .SHEETFILENAME_V ∨ aFieldId = .FIELD_NAME then
      wxTextValidatorStyle.wxFILTER_EMPTY :: style
    else style
  { m_fieldId := aFieldId, m_isLibEditor := aIsLibEditor, style := style,
    charExcludes := excludes }

/-- The wxWidgets method `wxTextValidator::HasFlag`. -/
def SCH_FIELD_VALIDATOR.HasFlag (v : SCH_FIELD_VALIDATOR) (f : wxTextValidatorStyle) : Bool :=
  v.style.contains f

/-- The wxWidgets method `wxTextValidator::ContainsExcludedCharacters`: whether
some character of `val` is one of the excluded characters. -/
def SCH_FIELD_VALIDATOR.ContainsExcludedCharacters (v : SCH_FIELD_VALIDATOR) (val : String) :
    Bool :=
  val.data.any (fun c => v.charExcludes.data.contains c)

/-- Whether the characters `s` begin with the characters `sub`. -/
def startsWithChars : List Char → List Char → Bool
  | _, [] => true
  | [], _ :: _ => false
  | a :: as, b :: bs => a == b && startsWithChars as bs

/-- The wxWidgets method `wxString::Contains` on lists of characters. -/
def containsChars : List Char → List Char → Bool
  | [], sub => sub.isEmpty
  | a :: as, sub => startsWithChars (a :: as) sub || containsChars as sub

/-- Substitution of the arguments for the successive `%s` of a format. -/
def printfChars : List Char → List String → List Char
  | [], _ => []
  | [c], _ => [c]
  | c :: d :: rest, args =>
    if c = '%' ∧ d = 's' then
      match args with
      | [] => printfChars rest []
      | a :: as => a.data ++ printfChars rest as
    else c :: printfChars (d :: rest) args

/-- The wxWidgets method `wxString::Printf` with string arguments; the
translation `_( ... )` of a format is taken to be the format itself. -/
def Printf (format : String) (args : List String) : String :=
  ⟨printfChars format.data args⟩

/-- Lines 103-132: the format of the error message for characters that are not
allowed. -/
def SCH_FIELD_VALIDATOR.Validate.fieldCharError (v : SCH_FIELD_VALIDATOR) : String :=
  match v.m_fieldId with
  | .REFERENCE => "The reference designator cannot contain %s character(s)."
  | .VALUE => "The value field cannot contain %s character(s)."
  | .FOOTPRINT => "The footprint field cannot contain %s character(s)."
  | .DATASHEET => "The datasheet field cannot contain %s character(s)."
  | .SHEETNAME_V => "The sheet name cannot contain %s character(s)."
  | .SHEETFILENAME_V => "The sheet filename cannot contain %s character(s)."
  | _ => "The field cannot contain %s character(s)."

/-- Lines 148-161: the array `whiteSpace`, the names of the white space
characters found in `val`. -/
def SCH_FIELD_VALIDATOR.Validate.whiteSpace (v : SCH_FIELD_VALIDATOR) (val : String) :
    List String :=
  let spaceIllegal : Bool :=
    v.m_fieldId = .REFERENCE || (v.m_fieldId = .VALUE && v.m_isLibEditor)
      || v.m_fieldId = .SHEETNAME_V || v.m_fieldId = .SHEETFILENAME_V
  (if val.data.contains '\r' then ["carriage return"] else [])
    ++ (if val.data.contains '\n' then ["line feed"] else [])
    ++ (if val.data.contains '\t' then ["tab"] else [])
    ++ (if spaceIllegal && val.data.contains ' ' then ["space"] else [])

/-- Lines 134-182: the message `msg`; or, as an error, the value that the macro
`wxCHECK_MSG( false, true, ... )` of line 175 makes `Validate` return at
once. -/
def SCH_FIELD_VALIDATOR.Validate.msg (v : SCH_FIELD_VALIDATOR) (val : String) :
    Except Bool String :=
  if v.HasFlag .wxFILTER_EMPTY && val.data.isEmpty then
    if v.m_fieldId = .FIELD_NAME then .ok "The name of the field cannot be empty."
    else .ok "The value of the field cannot be empty."
  else if v.HasFlag .wxFILTER_EXCLUDE_CHAR_LIST && v.ContainsExcludedCharacters val then
    match SCH_FIELD_VALIDATOR.Validate.whiteSpace v val with
    | [a] => .ok (Printf (SCH_FIELD_VALIDATOR.Validate.fieldCharError v) [a])
    | [a, b] =>
      .ok (Printf (SCH_FIELD_VALIDATOR.Validate.fieldCharError v) [Printf "%s or %s" [a, b]])
    | [a, b, c] =>
      .ok (Printf (SCH_FIELD_VALIDATOR.Validate.fieldCharError v)
        [Printf "%s, %s, or %s" [a, b, c]])
    | [a, b, c, d] =>
      .ok (Printf (SCH_FIELD_VALIDATOR.Validate.fieldCharError v)
        [Printf "%s, %s, %s, or %s" [a, b, c, d]])
    | _ => .error true
  else if v.m_fieldId = .REFERENCE && containsChars val.data "$\x7b".data then
    .ok "The reference designator cannot contain text variable references"
  else .ok ""

/-- The method `SCH_FIELD_VALIDATOR::Validate`, lines 87-194: the value it
returns. Setting the focus and showing the message box do not influence that
value. -/
def SCH_FIELD_VALIDATOR.Validate (v : SCH_FIELD_VALIDATOR) (m_validatorWindow : wxWindow) :
    Bool :=
  if !m_validatorWindow.IsEnabled || !m_validatorWindow.IsShown then true
  else
    match m_validatorWindow.textEntry with
    | none => false
    | some val =>
      match SCH_FIELD_VALIDATOR.Validate.msg v val with
      | .error rc => rc
      | .ok msg => if !msg.data.isEmpty then false else true

/-! ## Vocabulary of the claims and of the proofs -/

/-- An electrical layer: type JUMPERLAYER, ELEC or POWER. -/
def LAYER.isElec (l : LAYER) : Bool :=
  l.Type_ = .JUMPERLAYER || l.Type_ = .ELEC || l.Type_ = .POWER

/-- An aggregate pseudo-type layer: type ALLDOC, ALLELEC, ALLLAYER, ASSCOMPCOPP or
NOLAYER. -/
def LAYER.isPseudo (l : LAYER) : Bool :=
  l.Type_ = .ALLDOC || l.Type_ = .ALLELEC || l.Type_ = .ALLLAYER || l.Type_ = .ASSCOMPCOPP
    || l.Type_ = .NOLAYER

/-- A construction layer. -/
def LAYER.isConstruction (l : LAYER) : Bool := l.Type_ = .CONSTRUCTION

/-- A stackup item of copper type. -/
def BOARD_STACKUP_ITEM.isCopper (it : BOARD_STACKUP_ITEM) : Bool :=
  it.Type_ = .BS_ITEM_TYPE_COPPER

/-- The sub-layer record lines 227-239 write for layer `l`. -/
def prmsOf (pcb : CADSTAR_PCB) (l : LAYER) : DIELECTRIC_PRMS :=
  if l.MaterialId != pcb.UNDEFINED_MATERIAL_ID then
    ⟨some (toInt (l.Thickness * pcb.KiCadUnitMultiplier)),
      some (pcb.cpaMaterials l.MaterialId).Name,
      some (pcb.cpaMaterials l.MaterialId).Permittivity,
      some (pcb.cpaMaterials l.MaterialId).LossTangent⟩
  else ⟨some (toInt (l.Thickness * pcb.KiCadUnitMultiplier)), none, none, none⟩

/-- The item committed at once for a layer that is not a construction layer. -/
def idleItem (pcb : CADSTAR_PCB) (l : LAYER) (v : IterLocals) : BOARD_STACKUP_ITEM :=
  { Type_ := v.kicadLayerType, LayerName := l.Name, BrdLayerId := v.kicadLayerID,
    DielectricLayerId := none, TypeName := v.layerTypeName, DielectricPrms := [prmsOf pcb l] }

/-- State after the immediate commit of `idleItem`. -/
def idleCommit (pcb : CADSTAR_PCB) (s : LoopState) (l : LAYER) (v : IterLocals) : LoopState :=
  { s with
    board := { s.board with Stackup := s.board.Stackup ++ [idleItem pcb l v],
                            EnabledLayers := s.layerIDs ++ [v.kicadLayerID] },
    noOfKiCadStackupLayers := s.noOfKiCadStackupLayers + 1,
    layerIDs := s.layerIDs ++ [v.kicadLayerID],
    tempKiCadLayer := some (idleItem pcb l v),
    lastElectricalLayerIndex :=
      if v.copperType != .LT_UNDEFINED then s.noOfKiCadStackupLayers + 1 - 1
      else s.lastElectricalLayerIndex }

/-- State after the flush of the pending dielectric item `t` (lines 104-107). -/
def flushed (s : LoopState) (t : BOARD_STACKUP_ITEM) : LoopState :=
  { s with
    board := { s.board with Stackup := s.board.Stackup ++ [t] },
    dielectricSublayer := 0,
    prevWasDielectric := false,
    noOfKiCadStackupLayers := s.noOfKiCadStackupLayers + 1 }

/-- The dielectric item accumulated for a run of construction layers. -/
def dielectricItem (pcb : CADSTAR_PCB) (d : Nat) (name : String) (run : List LAYER) :
    BOARD_STACKUP_ITEM :=
  { Type_ := .BS_ITEM_TYPE_DIELECTRIC, LayerName := name, BrdLayerId := .UNDEFINED_LAYER,
    DielectricLayerId := some d, TypeName := KEY_PREPREG,
    DielectricPrms := run.map (prmsOf pcb) }

/-- The item at index `idx` is the last copper item of the stackup. -/
def LastOK (stackup : List BOARD_STACKUP_ITEM) (idx : Int) : Prop :=
  ∃ pre c post, stackup = pre ++ c :: post ∧ idx = pre.length ∧ c.isCopper = true ∧
    ∀ x ∈ post, x.isCopper = false

/-- Invariant of the loop of `loadBoardStackup` that speaks of the state alone. -/
structure Core (s : LoopState) : Prop where
  idle : s.prevWasDielectric = false → s.dielectricSublayer = 0
  acc : s.prevWasDielectric = true → ∃ t, s.tempKiCadLayer = some t ∧
    t.Type_ = .BS_ITEM_TYPE_DIELECTRIC ∧ t.DielectricPrms.length = s.dielectricSublayer ∧
    s.dielectricSublayer ≠ 0
  noOf : s.noOfKiCadStackupLayers = s.board.Stackup.length
  roles : (s.board.Stackup.filter (·.isCopper)).map (·.BrdLayerId)
    = (List.range' 1 s.numElecAndPowerLayers).map getKiCadCopperLayerID
  last : 0 < s.numElecAndPowerLayers → LastOK s.board.Stackup s.lastElectricalLayerIndex
  enabled : s.board.EnabledLayers = s.layerIDs

/-- The items a flush would add: the pending dielectric item, if any. -/
def pendingItems (s : LoopState) : List BOARD_STACKUP_ITEM :=
  if s.prevWasDielectric then s.tempKiCadLayer.toList else []

/-- What one iteration on layer `l` changes, in terms of the layer. -/
structure StepRel (s : LoopState) (l : LAYER) (s1 : LoopState) : Prop where
  numElec : s1.numElecAndPowerLayers = s.numElecAndPowerLayers + (if l.isElec then 1 else 0)
  names : (s1.board.Stackup.filter (·.isCopper)).map (·.LayerName)
    = (s.board.Stackup.filter (·.isCopper)).map (·.LayerName) ++ (if l.isElec then [l.Name] else [])
  prev : s1.prevWasDielectric = l.isConstruction
  numDiel : s1.numDielectricLayers = s.numDielectricLayers
    + (if l.isConstruction && !s.prevWasDielectric then 1 else 0)
  grows : ∃ t, s1.board.Stackup
      = s.board.Stackup ++ (if l.isConstruction then [] else pendingItems s) ++ t ∧
    t.length ≤ 1 ∧ ∀ x ∈ t, x.Type_ ≠ .BS_ITEM_TYPE_DIELECTRIC
  visible : s1.board.VisibleLayers = s.board.VisibleLayers
  count : s1.board.CopperLayerCount = s.board.CopperLayerCount

/-- Whether the walk is inside a run of construction layers after the layers
`ls`, given whether it was before them. -/
def endsInConstruction : Bool → List LAYER → Bool
  | p, [] => p
  | _, l :: ls => endsInConstruction l.isConstruction ls

/-- Number of maximal runs of construction layers that start inside `ls`, given
whether the layer before `ls` is a construction layer. -/
def runsFrom : Bool → List LAYER → Nat
  | _, [] => 0
  | p, l :: ls => (if l.isConstruction && !p then 1 else 0) + runsFrom l.isConstruction ls

/-- What the loop over the layers `ls` changes, in terms of the layers. -/
structure LoopRel (s : LoopState) (ls : List LAYER) (s1 : LoopState) : Prop where
  numElec : s1.numElecAndPowerLayers = s.numElecAndPowerLayers + (ls.filter (·.isElec)).length
  names : (s1.board.Stackup.filter (·.isCopper)).map (·.LayerName)
    = (s.board.Stackup.filter (·.isCopper)).map (·.LayerName)
      ++ (ls.filter (·.isElec)).map (·.Name)
  prev : s1.prevWasDielectric = endsInConstruction s.prevWasDielectric ls
  numDiel : s1.numDielectricLayers = s.numDielectricLayers + runsFrom s.prevWasDielectric ls
  grows : ∃ t, s1.board.Stackup = s.board.Stackup ++ t
  visible : s1.board.VisibleLayers = s.board.VisibleLayers
  count : s1.board.CopperLayerCount = s.board.CopperLayerCount

/-- Text of the message of an error. -/
def IO_ERROR.message : IO_ERROR → String
  | .UnexpectedLayer name => IO_ERROR.unexpectedLayerText name
  | .DesignTooLarge sizeX sizeY maxX maxY =>
    "The design is too large and cannot be imported into KiCad. \n"
      ++ "Please reduce the maximum design size in CADSTAR by navigating to: \n"
      ++ "Design Tab -> Properties -> Design Options -> Maximum Design Size. \n"
      ++ "Current Design size: " ++ toString sizeX ++ ", " ++ toString sizeY
      ++ " micrometers. \n"
      ++ "Maximum permitted design size: " ++ toString maxX ++ ", " ++ toString maxY
      ++ " micrometers.\n"

/-- Name of the last layer of `r`, or `nm` when `r` is empty. -/
def lastName : String → List LAYER → String
  | nm, [] => nm
  | _, l :: r => lastName l.Name r

/-- The stackup in the state in which the loop ends or is aborted. -/
def stackupAt : Except (Failure × LoopState) LoopState → List BOARD_STACKUP_ITEM
  | .ok s => s.board.Stackup
  | .error (_, s) => s.board.Stackup

/-- Number of maximal runs of consecutive construction layers in `ls`. -/
def constructionRuns (ls : List LAYER) : Nat := runsFrom false ls

/-- The value `z` fits the C++ type `int`. -/
abbrev InInt (z : Int) : Prop := INT_MIN ≤ z ∧ z ≤ INT_MAX

/-- The straight segment `getDrawSegments` builds from `startPoint` to
`endPoint`. -/
def straightSegment (startPoint endPoint : wxPoint) : DRAWSEGMENT :=
  { DRAWSEGMENT.new with
    Shape := some .S_SEGMENT, Start := some startPoint, End := some endPoint }

/-- The segment `ds` after `SetWidth( w )` and `SetLayer( layer )`. -/
def withWidthAndLayer (w : Int) (layer : PCB_LAYER_ID) (ds : DRAWSEGMENT) : DRAWSEGMENT :=
  { ds with Width := some w, Layer := some layer }

/-- The inverse transform of the round-trip claim, in the spec's words: divide
by the unit multiplier, un-flip the sign of Y, add the design centre. -/
def inverseKiCadPoint (m : Int) (c q : wxPoint) : wxPoint :=
  ⟨q.x.tdiv m + c.x, -(q.y.tdiv m) + c.y⟩

/-- No intermediate value of `getKiCadPoint` at the point `p` leaves the range of
`int`. -/
abbrev NoOverflow (pcb : CADSTAR_PCB) (c p : wxPoint) : Prop :=
  InInt (p.x - c.x) ∧ InInt ((p.x - c.x) * pcb.KiCadUnitMultiplier) ∧
    InInt (p.y - c.y) ∧ InInt (-(p.y - c.y)) ∧
    InInt (-(p.y - c.y) * pcb.KiCadUnitMultiplier)

/-- The segments of a shape with cutouts: those built from the shape's own
vertex list, then those built from each cutout's vertex list, in order. -/
def shapeSegments (pcb : CADSTAR_PCB) (c : wxPoint) (shape : SHAPE) : List DRAWSEGMENT :=
  getDrawSegments pcb c shape.Vertices
    ++ (shape.Cutouts.map (fun k => getDrawSegments pcb c k.Vertices)).flatten

/-- A vertex of one of the two semicircle types. -/
def VERTEX.isSemicircle (v : VERTEX) : Bool :=
  v.Type_ = .CLOCKWISE_SEMICIRCLE || v.Type_ = .ANTICLOCKWISE_SEMICIRCLE

/-- A vertex of one of the two arc types that carry a centre. -/
def VERTEX.isArc (v : VERTEX) : Bool :=
  v.Type_ = .CLOCKWISE_ARC || v.Type_ = .ANTICLOCKWISE_ARC

/-- The four layers that are always enabled (lines 85-88). -/
def requiredLayers : List PCB_LAYER_ID := [.F_CrtYd, .B_CrtYd, .Margin, .Edge_Cuts]

/-- The roles the `switch` gives to layers that are not electrical. -/
def nonCopperRoles : List PCB_LAYER_ID :=
  [.F_Paste, .B_Paste, .F_SilkS, .B_SilkS, .F_Mask, .B_Mask, .UNDEFINED_LAYER]

/-- A stackup item that is not of dielectric type. -/
def BOARD_STACKUP_ITEM.isNotDielectric (it : BOARD_STACKUP_ITEM) : Bool :=
  it.Type_ != .BS_ITEM_TYPE_DIELECTRIC

/-- Invariant of the loop of `loadBoardStackup` about `layerIDs`: the vector
holds the required layers followed by the roles of the committed items that are
not dielectrics, and a committed item that is neither copper nor dielectric has
one of the roles of `nonCopperRoles`. -/
structure Ids (s : LoopState) : Prop where
  ids : s.layerIDs = requiredLayers
    ++ (s.board.Stackup.filter (·.isNotDielectric)).map (·.BrdLayerId)
  other : ∀ x ∈ s.board.Stackup, x.isCopper = false → x.isNotDielectric = true →
    x.BrdLayerId ∈ nonCopperRoles

/-! ## Concrete archives -/

/-- A layer with the given name, type and sub-type, without material, of
thickness 5. -/
def Example.layer (name : String) (t : LAYER_TYPE) (st : LAYER_SUBTYPE) : LAYER :=
  { ID := 0, Name := name, Type_ := t, SubType := st, MaterialId := "", Thickness := 5,
    PhysicalLayer := 0 }

/-- An archive with unit multiplier `m` and design area `area` whose layer stack
is the list `ls`: layer number `i` of the list has the id `i`. -/
def Example.archive (m : Int) (ls : List LAYER) (area : wxPoint × wxPoint) : CADSTAR_PCB :=
  { KiCadUnitMultiplier := m,
    UNDEFINED_MATERIAL_ID := "",
    Layers := fun i => ls.getD i.toNat (Example.layer "" .DOC .LAYERSUBTYPE_NONE),
    Materials := [],
    defaultMaterial := ⟨"", ⟨0, 0⟩, ⟨0, 0⟩⟩,
    LayerStack := (List.range ls.length).map Int.ofNat,
    DesignArea := area }

/-- An empty board. -/
def Example.board : BOARD := ⟨[], [], [], 0⟩

/-- Stack: signal, construction, construction, signal, silkscreen, solder resist. -/
def Example.sixLayer : CADSTAR_PCB :=
  Example.archive 10
    [Example.layer "top" .ELEC .LAYERSUBTYPE_NONE,
     Example.layer "prepreg" .CONSTRUCTION .LAYERSUBTYPE_NONE,
     Example.layer "core" .CONSTRUCTION .LAYERSUBTYPE_NONE,
     Example.layer "bottom" .ELEC .LAYERSUBTYPE_NONE,
     Example.layer "silk" .NONELEC .LAYERSUBTYPE_SILKSCREEN,
     Example.layer "mask" .NONELEC .LAYERSUBTYPE_SOLDERRESIST] (⟨0, 0⟩, ⟨0, 0⟩)

/-- The board `loadBoardStackup` leaves for `Example.sixLayer`. -/
def Example.sixLayerBoard : BOARD :=
  match loadBoardStackup Example.sixLayer Example.board with
  | .ok b => b
  | .error (_, b) => b

/-- Stack: signal, construction. -/
def Example.trailing : CADSTAR_PCB :=
  Example.archive 10
    [Example.layer "top" .ELEC .LAYERSUBTYPE_NONE,
     Example.layer "core" .CONSTRUCTION .LAYERSUBTYPE_NONE] (⟨0, 0⟩, ⟨0, 0⟩)

/-- Stack: signal, construction of thickness 300000000, signal; unit multiplier
10. -/
def Example.thickCore : CADSTAR_PCB :=
  Example.archive 10
    [Example.layer "top" .ELEC .LAYERSUBTYPE_NONE,
     { Example.layer "core" .CONSTRUCTION .LAYERSUBTYPE_NONE with Thickness := 300000000 },
     Example.layer "bottom" .ELEC .LAYERSUBTYPE_NONE] (⟨0, 0⟩, ⟨0, 0⟩)

/-- Stack: signal, signal. -/
def Example.twoCopper : CADSTAR_PCB :=
  Example.archive 10
    [Example.layer "top" .ELEC .LAYERSUBTYPE_NONE,
     Example.layer "bottom" .ELEC .LAYERSUBTYPE_NONE] (⟨0, 0⟩, ⟨0, 0⟩)

/-- Stack: 33 signal layers. -/
def Example.many : CADSTAR_PCB :=
  Example.archive 10 (List.replicate 33 (Example.layer "cu" .ELEC .LAYERSUBTYPE_NONE))
    (⟨0, 0⟩, ⟨0, 0⟩)

/-- Stack: 34 signal layers. -/
def Example.many34 : CADSTAR_PCB :=
  Example.archive 10 (List.replicate 34 (Example.layer "cu" .ELEC .LAYERSUBTYPE_NONE))
    (⟨0, 0⟩, ⟨0, 0⟩)

/-- Stack: ALLLAYER, construction, signal. -/
def Example.abortFirst : CADSTAR_PCB :=
  Example.archive 10
    [Example.layer "all" .ALLLAYER .LAYERSUBTYPE_NONE,
     Example.layer "core" .CONSTRUCTION .LAYERSUBTYPE_NONE,
     Example.layer "bottom" .ELEC .LAYERSUBTYPE_NONE] (⟨0, 0⟩, ⟨0, 0⟩)

/-- Stack: construction, ALLLAYER. -/
def Example.abortAfterRun : CADSTAR_PCB :=
  Example.archive 10
    [Example.layer "core" .CONSTRUCTION .LAYERSUBTYPE_NONE,
     Example.layer "all" .ALLLAYER .LAYERSUBTYPE_NONE] (⟨0, 0⟩, ⟨0, 0⟩)

/-- Design area whose X extent times the unit multiplier 5 is `4294967295`, the
distance from `INT_MIN` to `INT_MAX`; the first corner is the upper right one. -/
def Example.maxSize : CADSTAR_PCB :=
  Example.archive 5 [] (⟨858993459, 0⟩, ⟨0, 0⟩)

/-- Design area one unit wider than `Example.maxSize` on the X axis, given with
the lower left corner first. -/
def Example.overSize : CADSTAR_PCB :=
  Example.archive 5 [] (⟨0, 0⟩, ⟨858993460, 1⟩)

/-- Design area of extent zero, unit multiplier 10. -/
def Example.zeroSize : CADSTAR_PCB :=
  Example.archive 10 [] (⟨0, 0⟩, ⟨0, 0⟩)

/-- Design area of six metres by six metres, unit multiplier 10, given with the
lower left corner first. -/
def Example.wide : CADSTAR_PCB :=
  Example.archive 10 [] (⟨-300000000, -300000000⟩, ⟨300000000, 300000000⟩)

/-- A layer like `Example.layer`, with the material id `mat`. -/
def Example.layerOf (name : String) (t : LAYER_TYPE) (st : LAYER_SUBTYPE) (mat : MATERIAL_ID) :
    LAYER :=
  { ID := 0, Name := name, Type_ := t, SubType := st, MaterialId := mat, Thickness := 5,
    PhysicalLayer := 0 }

/-- Stack: signal, a layer whose type is none of those named in the `switch`. -/
def Example.unknownType : CADSTAR_PCB :=
  Example.archive 10
    [Example.layer "top" .ELEC .LAYERSUBTYPE_NONE,
     Example.layer "odd" .UNDEFINED .LAYERSUBTYPE_NONE] (⟨0, 0⟩, ⟨0, 0⟩)

/-- Stack: signal, a non-electrical layer whose sub-type is none of those named
in the inner `switch`. -/
def Example.unknownSubType : CADSTAR_PCB :=
  Example.archive 10
    [Example.layer "top" .ELEC .LAYERSUBTYPE_NONE,
     Example.layer "odd" .NONELEC .LAYERSUBTYPE_OTHER] (⟨0, 0⟩, ⟨0, 0⟩)

/-- Stack: one signal layer whose material id `ghost` is not in the material
table; the table has the one entry `FR4`. -/
def Example.ghostMaterial : CADSTAR_PCB :=
  { KiCadUnitMultiplier := 10,
    UNDEFINED_MATERIAL_ID := "",
    Layers := fun _ => Example.layerOf "top" .ELEC .LAYERSUBTYPE_NONE "ghost",
    Materials := [("FR4", ⟨"FR-4", ⟨45, -1⟩, ⟨2, -2⟩⟩)],
    defaultMaterial := ⟨"", ⟨0, 0⟩, ⟨0, 0⟩⟩,
    LayerStack := [0],
    DesignArea := (⟨0, 0⟩, ⟨0, 0⟩) }

/-- Stack: ALLLAYER, silkscreen. -/
def Example.abortBeforeSilk : CADSTAR_PCB :=
  Example.archive 10
    [Example.layer "all" .ALLLAYER .LAYERSUBTYPE_NONE,
     Example.layer "silk" .NONELEC .LAYERSUBTYPE_SILKSCREEN] (⟨0, 0⟩, ⟨0, 0⟩)

/-- An archive layout without boards and line codes. -/
def Example.layout : LAYOUT := ⟨[], []⟩

/-- An empty target board with a default line thickness. -/
def Example.target : TARGET_BOARD := ⟨Example.board, 100000, []⟩

/-- A vertex of POINT type with the given end point. -/
def Example.point (x y : Int) : VERTEX := ⟨.POINT, ⟨0, 0⟩, ⟨x, y⟩⟩

/-- A vertex of type `t` with the given centre and end point. -/
def Example.arc (t : VERTEX_TYPE) (cx cy x y : Int) : VERTEX := ⟨t, ⟨cx, cy⟩, ⟨x, y⟩⟩

/-- An outline: a triangle with a cutout of two segments. -/
def Example.outline : SHAPE :=
  { Type_ := .OUTLINE,
    Vertices := [Example.point 0 0, Example.point 10 0, Example.point 10 10, Example.point 0 0],
    Cutouts := [⟨[Example.point 2 2, Example.point 4 2, Example.point 2 2]⟩] }

/-- The shape of `Example.outline` as a solid. -/
def Example.solid : SHAPE := { Example.outline with Type_ := .SOLID }

/-- A layout with the line codes `thin`, of width 20, and `huge`, of width
300000000. -/
def Example.lineCodes : LAYOUT := ⟨[], [("thin", ⟨20⟩), ("huge", ⟨300000000⟩)]⟩

/-- A path: a point, a clockwise semicircle whose stated centre is far away, an
anticlockwise arc. -/
def Example.arcs : List VERTEX :=
  [Example.point 0 0, Example.arc .CLOCKWISE_SEMICIRCLE 77 77 10 0,
    Example.arc .ANTICLOCKWISE_ARC 10 5 10 10]

/-- Stack: one silkscreen layer. -/
def Example.silkOnly : CADSTAR_PCB :=
  Example.archive 10 [Example.layer "silk" .NONELEC .LAYERSUBTYPE_SILKSCREEN] (⟨0, 0⟩, ⟨0, 0⟩)

theorem toInt_of_InInt (z : Int) (h : InInt z) : toInt z = z := by
  unfold InInt INT_MIN INT_MAX at h
  unfold toInt
  omega

theorem prmsOf_thickness (pcb : CADSTAR_PCB) (l : LAYER) :
    (prmsOf pcb l).Thickness = some (toInt (l.Thickness * pcb.KiCadUnitMultiplier)) := by
  unfold prmsOf
  split <;> rfl

theorem modify_length_append {α} (f : α → α) (l : List α) (a : α) :
    (l ++ [a]).modify f l.length = l ++ [f a] := by
  induction l with
  | nil => simp [List.modify, List.modifyHead]
  | cons x xs ih => simpa [List.modify] using ih

theorem insertIdx_length {α} (l : List α) (a : α) : l.insertIdx l.length a = l ++ [a] := by
  induction l with
  | nil => simp [List.insertIdx]
  | cons x xs ih => simpa [List.insertIdx] using ih

theorem setPrms_fresh (pcb : CADSTAR_PCB) (l : LAYER) (t : BOARD_STACKUP_ITEM)
    (ht : t.DielectricPrms = [⟨none, none, none, none⟩]) :
    loadBoardStackup.setPrms pcb l 0 t = { t with DielectricPrms := [prmsOf pcb l] } := by
  unfold loadBoardStackup.setPrms prmsOf
  split <;> simp [BOARD_STACKUP_ITEM.SetMaterial, BOARD_STACKUP_ITEM.SetEpsilonR,
    BOARD_STACKUP_ITEM.SetLossTangent, BOARD_STACKUP_ITEM.SetThickness, ht, List.modify, List.modifyHead]

theorem setPrms_add (pcb : CADSTAR_PCB) (l : LAYER) (t : BOARD_STACKUP_ITEM) :
    loadBoardStackup.setPrms pcb l t.DielectricPrms.length
        (t.AddDielectricPrms t.DielectricPrms.length)
      = { t with DielectricPrms := t.DielectricPrms ++ [prmsOf pcb l] } := by
  unfold loadBoardStackup.setPrms prmsOf
  split <;> simp [BOARD_STACKUP_ITEM.SetMaterial, BOARD_STACKUP_ITEM.SetEpsilonR,
    BOARD_STACKUP_ITEM.SetLossTangent, BOARD_STACKUP_ITEM.SetThickness,
    BOARD_STACKUP_ITEM.AddDielectricPrms, insertIdx_length, modify_length_append]

theorem afterSwitch_idle (pcb : CADSTAR_PCB) (s : LoopState) (l : LAYER) (v : IterLocals)
    (hp : s.prevWasDielectric = false) (hs : s.dielectricSublayer = 0) :
    loadBoardStackup.afterSwitch pcb s l v = .ok (idleCommit pcb s l v) := by
  unfold loadBoardStackup.afterSwitch
  simp only [hs, hp, if_true]
  rw [setPrms_fresh _ _ _ rfl]
  simp [idleCommit, idleItem, BOARD_STACKUP_ITEM.new]
  split <;> simp_all

theorem flush_idle (s : LoopState) (l : LAYER) (hp : s.prevWasDielectric = false) :
    loadBoardStackup.flush s l = some s := by
  simp [loadBoardStackup.flush, hp]

theorem flush_construction (s : LoopState) (l : LAYER) (hl : l.Type_ = .CONSTRUCTION) :
    loadBoardStackup.flush s l = some s := by
  simp [loadBoardStackup.flush, hl]

theorem flush_acc (s : LoopState) (l : LAYER) (t : BOARD_STACKUP_ITEM)
    (hp : s.prevWasDielectric = true) (ht : s.tempKiCadLayer = some t)
    (hl : l.Type_ ≠ .CONSTRUCTION) :
    loadBoardStackup.flush s l = some (flushed s t) := by
  simp [loadBoardStackup.flush, hp, ht, hl, flushed]

theorem body_acc_other (pcb : CADSTAR_PCB) (s : LoopState) (l : LAYER) (t : BOARD_STACKUP_ITEM)
    (hp : s.prevWasDielectric = true) (ht : s.tempKiCadLayer = some t)
    (hl : l.Type_ ≠ .CONSTRUCTION) :
    loadBoardStackup.body pcb s l = loadBoardStackup.body pcb (flushed s t) l := by
  unfold loadBoardStackup.body
  rw [flush_acc s l t hp ht hl, flush_idle (flushed s t) l rfl]

theorem body_construction_idle (pcb : CADSTAR_PCB) (s : LoopState) (l : LAYER)
    (hp : s.prevWasDielectric = false) (hs : s.dielectricSublayer = 0)
    (hl : l.Type_ = .CONSTRUCTION) :
    loadBoardStackup.body pcb s l = .ok { s with
      prevWasDielectric := true,
      dielectricSublayer := 1,
      numDielectricLayers := s.numDielectricLayers + 1,
      tempKiCadLayer := some (dielectricItem pcb (s.numDielectricLayers + 1) l.Name [l]) } := by
  unfold loadBoardStackup.body
  rw [flush_idle s l hp]
  simp only [loadBoardStackup.switch_, hl]
  unfold loadBoardStackup.afterSwitch
  simp only [hs, if_true]
  rw [setPrms_fresh _ _ _ rfl]
  simp [dielectricItem, BOARD_STACKUP_ITEM.new, hs]

theorem body_construction_acc (pcb : CADSTAR_PCB) (s : LoopState) (l : LAYER)
    (t : BOARD_STACKUP_ITEM)
    (hp : s.prevWasDielectric = true) (ht : s.tempKiCadLayer = some t)
    (hlen : t.DielectricPrms.length = s.dielectricSublayer) (hs : s.dielectricSublayer ≠ 0)
    (hl : l.Type_ = .CONSTRUCTION) :
    loadBoardStackup.body pcb s l = .ok { s with
      dielectricSublayer := s.dielectricSublayer + 1,
      tempKiCadLayer := some { t with
        LayerName := l.Name, BrdLayerId := .UNDEFINED_LAYER, TypeName := KEY_PREPREG,
        DielectricPrms := t.DielectricPrms ++ [prmsOf pcb l] } } := by
  unfold loadBoardStackup.body
  rw [flush_construction s l hl]
  simp only [loadBoardStackup.switch_, hl]
  unfold loadBoardStackup.afterSwitch
  simp only [hs, if_false, ht, hp]
  have := setPrms_add pcb l { t with LayerName := l.Name, BrdLayerId := .UNDEFINED_LAYER }
  simp only [hlen] at this
  simp [this, hp, hs]

theorem switch_pseudo (s : LoopState) (l : LAYER) (hl : l.isPseudo = true) :
    loadBoardStackup.switch_ s l = .throw_ (.UnexpectedLayer l.Name) := by
  unfold LAYER.isPseudo at hl
  unfold loadBoardStackup.switch_
  cases h : l.Type_ <;> simp_all

theorem switch_elec (s : LoopState) (l : LAYER) (hl : l.isElec = true) :
    ∃ ct, ct ≠ LAYER_T.LT_UNDEFINED ∧
      loadBoardStackup.switch_ s l =
        .break_ { s with numElecAndPowerLayers := s.numElecAndPowerLayers + 1 }
          { kicadLayerType := .BS_ITEM_TYPE_COPPER, copperType := ct,
            kicadLayerID := getKiCadCopperLayerID (s.numElecAndPowerLayers + 1),
            layerTypeName := KEY_COPPER } := by
  unfold LAYER.isElec at hl
  unfold loadBoardStackup.switch_
  cases h : l.Type_ <;> simp_all

theorem switch_other (s : LoopState) (l : LAYER) (he : l.isElec = false)
    (hp : l.isPseudo = false) (hc : l.Type_ ≠ .CONSTRUCTION) :
    loadBoardStackup.switch_ s l = .continue_ s ∨
      ∃ v, loadBoardStackup.switch_ s l = .break_ s v ∧ v.copperType = .LT_UNDEFINED ∧
        v.kicadLayerType ≠ .BS_ITEM_TYPE_COPPER ∧
        v.kicadLayerType ≠ .BS_ITEM_TYPE_DIELECTRIC := by
  unfold LAYER.isElec at he
  unfold LAYER.isPseudo at hp
  unfold loadBoardStackup.switch_
  cases h : l.Type_ <;> simp_all
  cases h2 : l.SubType <;> simp [loadBoardStackup.side] <;> split <;> simp

theorem LastOK_snoc_other {st : List BOARD_STACKUP_ITEM} {i : Int} {x : BOARD_STACKUP_ITEM}
    (h : LastOK st i) (hx : x.isCopper = false) : LastOK (st ++ [x]) i := by
  obtain ⟨pre, c, post, h1, h2, h3, h4⟩ := h
  refine ⟨pre, c, post ++ [x], by simp [h1], h2, h3, ?_⟩
  intro y hy
  rcases List.mem_append.mp hy with h | h
  · exact h4 y h
  · simp at h; subst h; exact hx

theorem LastOK_snoc_copper (st : List BOARD_STACKUP_ITEM) {c : BOARD_STACKUP_ITEM}
    (hc : c.isCopper = true) : LastOK (st ++ [c]) st.length :=
  ⟨st, c, [], rfl, rfl, hc, by simp⟩

theorem Core_init (board : BOARD) : Core (loadBoardStackup.init board) := by
  constructor <;> simp [loadBoardStackup.init]

theorem Core_flushed {s : LoopState} {t : BOARD_STACKUP_ITEM} (h : Core s)
    (hp : s.prevWasDielectric = true) (ht : s.tempKiCadLayer = some t) : Core (flushed s t) := by
  obtain ⟨t1, h1, h2, -, -⟩ := h.acc hp
  rw [ht] at h1; cases h1
  have hnc : t.isCopper = false := by simp [BOARD_STACKUP_ITEM.isCopper, h2]
  constructor
  · intro _; rfl
  · intro h0; simp [flushed] at h0
  · simp [flushed, h.noOf]
  · simpa [flushed, List.filter_append, hnc] using h.roles
  · intro hn
    exact LastOK_snoc_other (h.last hn) hnc
  · exact h.enabled

theorem isCopper_idleItem (pcb : CADSTAR_PCB) (l : LAYER) (v : IterLocals) :
    (idleItem pcb l v).isCopper = decide (v.kicadLayerType = .BS_ITEM_TYPE_COPPER) := rfl

theorem Core_idleCommit_copper (pcb : CADSTAR_PCB) (s : LoopState) (l : LAYER) (ct : LAYER_T)
    (h : Core s) (hp : s.prevWasDielectric = false) (hct : ct ≠ .LT_UNDEFINED) :
    Core (idleCommit pcb { s with numElecAndPowerLayers := s.numElecAndPowerLayers + 1 } l
      { kicadLayerType := .BS_ITEM_TYPE_COPPER, copperType := ct,
        kicadLayerID := getKiCadCopperLayerID (s.numElecAndPowerLayers + 1),
        layerTypeName := KEY_COPPER }) := by
  constructor
  · intro _; simpa [idleCommit] using h.idle hp
  · intro h0; simp [idleCommit, hp] at h0
  · simp [idleCommit, h.noOf]
  · simp [idleCommit, List.filter_append, idleItem, BOARD_STACKUP_ITEM.isCopper, h.roles,
      List.range'_concat, Nat.add_comm 1 s.numElecAndPowerLayers]
    simpa [BOARD_STACKUP_ITEM.isCopper] using h.roles
  · intro _
    have := @LastOK_snoc_copper s.board.Stackup (idleItem pcb l
      { kicadLayerType := .BS_ITEM_TYPE_COPPER, copperType := ct,
        kicadLayerID := getKiCadCopperLayerID (s.numElecAndPowerLayers + 1),
        layerTypeName := KEY_COPPER }) rfl
    simpa [idleCommit, hct, h.noOf] using this
  · simp [idleCommit]

theorem Core_idleCommit_other (pcb : CADSTAR_PCB) (s : LoopState) (l : LAYER) (v : IterLocals)
    (h : Core s) (hp : s.prevWasDielectric = false) (hct : v.copperType = .LT_UNDEFINED)
    (hv : v.kicadLayerType ≠ .BS_ITEM_TYPE_COPPER) : Core (idleCommit pcb s l v) := by
  have hnc : (idleItem pcb l v).isCopper = false := by simp [isCopper_idleItem, hv]
  constructor
  · intro _; simpa [idleCommit] using h.idle hp
  · intro h0; simp [idleCommit, hp] at h0
  · simp [idleCommit, h.noOf]
  · simpa [idleCommit, List.filter_append, hnc] using h.roles
  · intro hn
    have := LastOK_snoc_other (h.last hn) hnc
    simpa [idleCommit, hct] using this
  · simp [idleCommit]

theorem pendingItems_idle {s : LoopState} (hp : s.prevWasDielectric = false) :
    pendingItems s = [] := by
  simp [pendingItems, hp]

theorem idle_step (pcb : CADSTAR_PCB) (s : LoopState) (l : LAYER) (h : Core s)
    (hp : s.prevWasDielectric = false) (hl : l.isPseudo = false) :
    ∃ s1, loadBoardStackup.body pcb s l = .ok s1 ∧ Core s1 ∧ StepRel s l s1 := by
  have hs := h.idle hp
  have hpend := pendingItems_idle hp
  by_cases hc : l.Type_ = .CONSTRUCTION
  · refine ⟨_, body_construction_idle pcb s l hp hs hc, ?_, ?_⟩
    · constructor
      · intro h0; simp at h0
      · intro _
        exact ⟨_, rfl, rfl, by simp [dielectricItem], by simp⟩
      · exact h.noOf
      · exact h.roles
      · exact h.last
      · exact h.enabled
    · refine ⟨?_, ?_, ?_, ?_, ⟨[], ?_, by simp, by simp⟩, rfl, rfl⟩ <;>
        simp [LAYER.isElec, LAYER.isConstruction, hc, hp]
  · by_cases he : l.isElec = true
    · obtain ⟨ct, hct, hsw⟩ := switch_elec s l he
      refine ⟨_, ?_, Core_idleCommit_copper pcb s l ct h hp hct, ?_⟩
      · unfold loadBoardStackup.body
        rw [flush_idle s l hp]
        simp only [hsw]
        exact afterSwitch_idle pcb _ l _ hp hs
      · refine ⟨?_, ?_, ?_, ?_, ⟨[idleItem pcb l
          { kicadLayerType := .BS_ITEM_TYPE_COPPER, copperType := ct,
            kicadLayerID := getKiCadCopperLayerID (s.numElecAndPowerLayers + 1),
            layerTypeName := KEY_COPPER }], ?_, by simp, by simp [idleItem]⟩, rfl, rfl⟩
        · simp [idleCommit, he]
        · simp [idleCommit, he, List.filter_append, idleItem, BOARD_STACKUP_ITEM.isCopper]
        · simp [idleCommit, LAYER.isConstruction, hc, hp]
        · simp [idleCommit, LAYER.isConstruction, hc]
        · simp [idleCommit, LAYER.isConstruction, hc, hpend]
    · have he2 : l.isElec = false := by simpa using he
      rcases switch_other s l he2 hl hc with hsw | ⟨v, hsw, hct, hv, hvd⟩
      · refine ⟨s, ?_, h, ?_⟩
        · unfold loadBoardStackup.body
          rw [flush_idle s l hp]
          simp only [hsw]
        · refine ⟨?_, ?_, ?_, ?_, ⟨[], ?_, by simp, by simp⟩, rfl, rfl⟩ <;>
            simp [he2, LAYER.isConstruction, hc, hp, hpend]
      · refine ⟨_, ?_, Core_idleCommit_other pcb s l v h hp hct hv, ?_⟩
        · unfold loadBoardStackup.body
          rw [flush_idle s l hp]
          simp only [hsw]
          exact afterSwitch_idle pcb _ l _ hp hs
        · have hnc : (idleItem pcb l v).isCopper = false := by simp [isCopper_idleItem, hv]
          refine ⟨?_, ?_, ?_, ?_,
            ⟨[idleItem pcb l v], ?_, by simp, by simpa [idleItem] using hvd⟩, rfl, rfl⟩
          · simp [idleCommit, he2]
          · simp [idleCommit, he2, List.filter_append, hnc]
          · simp [idleCommit, LAYER.isConstruction, hc, hp]
          · simp [idleCommit, LAYER.isConstruction, hc]
          · simp [idleCommit, LAYER.isConstruction, hc, hpend]

theorem step_ok (pcb : CADSTAR_PCB) (s : LoopState) (l : LAYER) (h : Core s)
    (hl : l.isPseudo = false) :
    ∃ s1, loadBoardStackup.body pcb s l = .ok s1 ∧ Core s1 ∧ StepRel s l s1 := by
  cases hp : s.prevWasDielectric with
  | false => exact idle_step pcb s l h hp hl
  | true =>
    obtain ⟨t, ht, htype, hlen, hsub⟩ := h.acc hp
    by_cases hc : l.Type_ = .CONSTRUCTION
    · refine ⟨_, body_construction_acc pcb s l t hp ht hlen hsub hc, ?_, ?_⟩
      · constructor
        · intro h0; simp [hp] at h0
        · intro _
          exact ⟨_, rfl, htype, by simp [hlen], by simp⟩
        · exact h.noOf
        · exact h.roles
        · exact h.last
        · exact h.enabled
      · refine ⟨?_, ?_, ?_, ?_, ⟨[], ?_, by simp, by simp⟩, rfl, rfl⟩ <;>
          simp [LAYER.isElec, LAYER.isConstruction, hc, hp]
    · obtain ⟨s1, hb, hcore, hrel⟩ :=
        idle_step pcb (flushed s t) l (Core_flushed h hp ht) rfl hl
      have hnc : t.isCopper = false := by simp [BOARD_STACKUP_ITEM.isCopper, htype]
      refine ⟨s1, by rw [body_acc_other pcb s l t hp ht hc]; exact hb, hcore, ?_⟩
      constructor
      · simpa [flushed] using hrel.numElec
      · simpa [flushed, List.filter_append, hnc] using hrel.names
      · exact hrel.prev
      · simpa [flushed, LAYER.isConstruction, hc] using hrel.numDiel
      · obtain ⟨u, hu, hu1, hu2⟩ := hrel.grows
        refine ⟨u, ?_, hu1, hu2⟩
        have hpf : pendingItems (flushed s t) = [] := pendingItems_idle rfl
        rw [hu, hpf]
        simp [flushed, LAYER.isConstruction, hc, pendingItems, hp, ht]
      · simpa [flushed] using hrel.visible
      · simpa [flushed] using hrel.count

theorem loop_ok (pcb : CADSTAR_PCB) (ls : List LAYER) :
    ∀ s, Core s → (∀ l ∈ ls, l.isPseudo = false) →
      ∃ s1, loadBoardStackup.loop pcb s ls = .ok s1 ∧ Core s1 ∧ LoopRel s ls s1 := by
  induction ls with
  | nil =>
    intro s h _
    exact ⟨s, rfl, h, by constructor <;> simp [endsInConstruction, runsFrom]⟩
  | cons l ls ih =>
    intro s h hall
    obtain ⟨s1, hb, hc1, hr1⟩ := step_ok pcb s l h (hall l (List.mem_cons_self _ _))
    obtain ⟨s2, hl2, hc2, hr2⟩ := ih s1 hc1 (fun x hx => hall x (List.mem_cons_of_mem _ hx))
    refine ⟨s2, by simp [loadBoardStackup.loop, hb, hl2], hc2, ?_⟩
    constructor
    · rw [hr2.numElec, hr1.numElec]
      by_cases he : l.isElec = true <;> simp [List.filter_cons, he]; omega
    · rw [hr2.names, hr1.names]
      by_cases he : l.isElec = true <;> simp [List.filter_cons, he]
    · rw [hr2.prev, hr1.prev]; rfl
    · rw [hr2.numDiel, hr1.numDiel, hr1.prev]; simp [runsFrom]; omega
    · obtain ⟨t1, ht1, -, -⟩ := hr1.grows
      obtain ⟨t2, ht2⟩ := hr2.grows
      exact ⟨_, by rw [ht2, ht1, List.append_assoc, List.append_assoc]⟩
    · rw [hr2.visible, hr1.visible]
    · rw [hr2.count, hr1.count]

theorem loop_append (pcb : CADSTAR_PCB) (a b : List LAYER) :
    ∀ s, loadBoardStackup.loop pcb s (a ++ b) =
      match loadBoardStackup.loop pcb s a with
      | .ok s1 => loadBoardStackup.loop pcb s1 b
      | .error e => .error e := by
  induction a with
  | nil => intro s; rfl
  | cons l ls ih =>
    intro s
    simp only [List.cons_append, loadBoardStackup.loop]
    cases hb : loadBoardStackup.body pcb s l with
    | error e => rfl
    | ok s1 => exact ih s1

theorem loop_append_ok (pcb : CADSTAR_PCB) (a b : List LAYER) (s s1 : LoopState)
    (h : loadBoardStackup.loop pcb s a = .ok s1) :
    loadBoardStackup.loop pcb s (a ++ b) = loadBoardStackup.loop pcb s1 b := by
  rw [loop_append, h]

theorem isPseudo_not_construction {l : LAYER} (h : l.isPseudo = true) :
    l.Type_ ≠ .CONSTRUCTION := by
  unfold LAYER.isPseudo at h
  intro hc
  simp [hc] at h

theorem body_pseudo (pcb : CADSTAR_PCB) (s : LoopState) (l : LAYER) (h : Core s)
    (hl : l.isPseudo = true) :
    ∃ sa, loadBoardStackup.body pcb s l = .error (.io (.UnexpectedLayer l.Name), sa) ∧
      sa.board = { s.board with Stackup := s.board.Stackup ++ pendingItems s } := by
  have hc := isPseudo_not_construction hl
  cases hp : s.prevWasDielectric with
  | false =>
    refine ⟨s, ?_, by simp [pendingItems, hp]⟩
    unfold loadBoardStackup.body
    rw [flush_idle s l hp]
    simp only [switch_pseudo _ l hl]
  | true =>
    obtain ⟨t, ht, -, -, -⟩ := h.acc hp
    refine ⟨flushed s t, ?_, by simp [pendingItems, hp, ht, flushed]⟩
    unfold loadBoardStackup.body
    rw [flush_acc s l t hp ht hc]
    simp only [switch_pseudo _ l hl]

theorem GetStackupLayer_mid (pre post : List BOARD_STACKUP_ITEM) (c : BOARD_STACKUP_ITEM) :
    GetStackupLayer (pre ++ c :: post) (pre.length : Int) = some c := by
  have h : (pre ++ c :: post)[pre.length]? = some c := by
    rw [List.getElem?_append_right (Nat.le_refl _)]
    simp
  simpa [GetStackupLayer] using h

theorem set_mid {α} (pre post : List α) (c d : α) :
    (pre ++ c :: post).set pre.length d = pre ++ d :: post := by
  induction pre with
  | nil => rfl
  | cons x xs ih => simp [ih]

theorem filter_eq_nil_of_all_false {α} (p : α → Bool) (l : List α) (h : ∀ x ∈ l, p x = false) :
    l.filter p = [] := by
  induction l with
  | nil => rfl
  | cons x xs ih =>
    have hx := h x (List.mem_cons_self _ _)
    simp [List.filter_cons, hx]
    exact fun a ha => h a (List.mem_cons_of_mem _ ha)

/-- The post-pass on a state that has seen an electrical layer. -/
theorem postPass_ok (s : LoopState) (h : Core s) (hn : 0 < s.numElecAndPowerLayers) :
    ∃ pre c post, s.board.Stackup = pre ++ c :: post ∧ c.isCopper = true ∧
      (∀ x ∈ post, x.isCopper = false) ∧
      loadBoardStackup.postPass s = .ok
        { Stackup := pre ++ { c with BrdLayerId := .B_Cu } :: post,
          EnabledLayers := std_remove s.layerIDs c.BrdLayerId ++ [.B_Cu],
          VisibleLayers := std_remove s.layerIDs c.BrdLayerId ++ [.B_Cu],
          CopperLayerCount := s.numElecAndPowerLayers } := by
  obtain ⟨pre, c, post, h1, h2, h3, h4⟩ := h.last hn
  refine ⟨pre, c, post, h1, h3, h4, ?_⟩
  unfold loadBoardStackup.postPass
  rw [h1, h2, GetStackupLayer_mid]
  simp [set_mid]

/-- The copper items of the stackup after the post-pass: the roles of the table
for all but the last, and `B_Cu` for the last. -/
theorem copper_after_postPass (pre post : List BOARD_STACKUP_ITEM) (c : BOARD_STACKUP_ITEM)
    (n : Nat) (hc : c.isCopper = true) (hpost : ∀ x ∈ post, x.isCopper = false)
    (hroles : ((pre ++ c :: post).filter (·.isCopper)).map (·.BrdLayerId)
      = (List.range' 1 n).map getKiCadCopperLayerID) :
    ((pre ++ { c with BrdLayerId := .B_Cu } :: post).filter (·.isCopper)).map (·.BrdLayerId)
      = (List.range' 1 (n - 1)).map getKiCadCopperLayerID ++ [.B_Cu] ∧
    ((pre ++ { c with BrdLayerId := .B_Cu } :: post).filter (·.isCopper)).map (·.LayerName)
      = ((pre ++ c :: post).filter (·.isCopper)).map (·.LayerName) := by
  have hc2 : ({ c with BrdLayerId := PCB_LAYER_ID.B_Cu } : BOARD_STACKUP_ITEM).isCopper = true := hc
  have hp := filter_eq_nil_of_all_false (·.isCopper) post hpost
  simp only [List.filter_append, List.filter_cons, hc, hc2, hp, if_true, List.map_append,
    List.map_cons, List.map_nil] at hroles ⊢
  refine ⟨?_, trivial⟩
  have hlen := congrArg List.length hroles
  simp at hlen
  obtain ⟨m, rfl⟩ : ∃ m, n = m + 1 := ⟨n - 1, by omega⟩
  rw [List.range'_concat, List.map_append] at hroles
  simp only [List.map_cons, List.map_nil] at hroles
  have := List.append_inj_left' hroles (by simp)
  simp [this]

/-- Summary of a successful run of `loadBoardStackup` on a stack with an
electrical layer and no pseudo-type layer. -/
theorem loadBoardStackup_ok (pcb : CADSTAR_PCB) (board : BOARD)
    (hps : ∀ l ∈ pcb.stackLayers, l.isPseudo = false)
    (hN : 0 < (pcb.stackLayers.filter (·.isElec)).length) :
    ∃ b, loadBoardStackup pcb board = .ok b ∧
      (b.Stackup.filter (·.isCopper)).map (·.BrdLayerId)
        = (List.range' 1 ((pcb.stackLayers.filter (·.isElec)).length - 1)).map
            getKiCadCopperLayerID ++ [.B_Cu] ∧
      (b.Stackup.filter (·.isCopper)).map (·.LayerName)
        = (pcb.stackLayers.filter (·.isElec)).map (·.Name) ∧
      b.CopperLayerCount = (pcb.stackLayers.filter (·.isElec)).length := by
  obtain ⟨s1, hl, hc, hr⟩ := loop_ok pcb pcb.stackLayers _ (Core_init board) hps
  have hne : s1.numElecAndPowerLayers = (pcb.stackLayers.filter (·.isElec)).length := by
    simpa [loadBoardStackup.init] using hr.numElec
  obtain ⟨pre, c, post, hst, hcc, hpost, hpp⟩ := postPass_ok s1 hc (by omega)
  have hroles := hc.roles
  rw [hst, hne] at hroles
  obtain ⟨h1, h2⟩ := copper_after_postPass pre post c _ hcc hpost hroles
  refine ⟨_, by simp only [loadBoardStackup, hl]; exact hpp, h1, ?_, hne⟩
  rw [h2, ← hst]
  simpa [loadBoardStackup.init] using hr.names

/-- Claim C1: For every layer stack with `N ≥ 1` electrical layers (JUMPERLAYER,
ELEC, POWER), no aggregate pseudo-type layer and a last layer that is not a
CONSTRUCTION layer, `loadBoardStackup` returns normally with a stackup that has
exactly `N` copper items, the last of which has the role `B_Cu`. -/
theorem C1_copper_items_last_is_B_Cu (pcb : CADSTAR_PCB) (board : BOARD) (N : Nat)
    (hN : (pcb.stackLayers.filter (·.isElec)).length = N) (h1 : 1 ≤ N)
    (hps : ∀ l ∈ pcb.stackLayers, l.isPseudo = false)
    (_hlast : pcb.stackLayers.getLast?.map (·.Type_) ≠ some .CONSTRUCTION) :
    ∃ b, loadBoardStackup pcb board = .ok b ∧
      (b.Stackup.filter (·.isCopper)).length = N ∧
      (b.Stackup.filter (·.isCopper)).getLast?.map (·.BrdLayerId) = some .B_Cu := by
  obtain ⟨b, hb, hroles, -, -⟩ := loadBoardStackup_ok pcb board hps (by omega)
  refine ⟨b, hb, ?_, ?_⟩
  · have := congrArg List.length hroles
    simp at this
    omega
  · have h2 : ((b.Stackup.filter (·.isCopper)).map (·.BrdLayerId)).getLast? = some .B_Cu := by
      rw [hroles]; simp
    simpa [List.getLast?_map] using h2

theorem split_first_pseudo (ls : List LAYER) (h : ∃ l ∈ ls, l.isPseudo = true) :
    ∃ pre l rest, ls = pre ++ l :: rest ∧ (∀ x ∈ pre, x.isPseudo = false) ∧
      l.isPseudo = true := by
  induction ls with
  | nil => simp at h
  | cons a as ih =>
    by_cases ha : a.isPseudo = true
    · exact ⟨[], a, as, rfl, by simp, ha⟩
    · have ha2 : a.isPseudo = false := by simpa using ha
      have h2 : ∃ l ∈ as, l.isPseudo = true := by
        obtain ⟨l, hl, hp⟩ := h
        rcases List.mem_cons.mp hl with rfl | hl
        · simp [ha2] at hp
        · exact ⟨l, hl, hp⟩
      obtain ⟨pre, l, rest, h3, h4, h5⟩ := ih h2
      refine ⟨a :: pre, l, rest, by simp [h3], ?_, h5⟩
      intro x hx
      rcases List.mem_cons.mp hx with rfl | hx
      · exact ha2
      · exact h4 x hx

/-- The loop on a stack whose first pseudo-type layer is `l`: it walks the
layers before `l` and raises the error on entering `l`, after the flush. -/
theorem loop_abort (pcb : CADSTAR_PCB) (s : LoopState) (pre rest : List LAYER) (l : LAYER)
    (h : Core s) (hpre : ∀ x ∈ pre, x.isPseudo = false) (hl : l.isPseudo = true) :
    ∃ s0 sa, loadBoardStackup.loop pcb s pre = .ok s0 ∧ Core s0 ∧ LoopRel s pre s0 ∧
      loadBoardStackup.loop pcb s (pre ++ l :: rest)
        = .error (.io (.UnexpectedLayer l.Name), sa) ∧
      sa.board = { s0.board with Stackup := s0.board.Stackup ++ pendingItems s0 } := by
  obtain ⟨s0, h0, hc0, hr0⟩ := loop_ok pcb pre s h hpre
  obtain ⟨sa, hb, hsa⟩ := body_pseudo pcb s0 l hc0 hl
  refine ⟨s0, sa, h0, hc0, hr0, ?_, hsa⟩
  rw [loop_append, h0]
  simp [loadBoardStackup.loop, hb]

/-- Claim C7: If the layer stack contains a layer of type ALLDOC, ALLELEC,
ALLLAYER, ASSCOMPCOPP or NOLAYER, `loadBoardStackup` does not return normally:
it raises the IO error "Unexpected layer" whose message contains the name of the
first such layer in stack order. -/
theorem C7_pseudo_type_raises_io_error (pcb : CADSTAR_PCB) (board : BOARD)
    (h : ∃ l ∈ pcb.stackLayers, l.isPseudo = true) :
    ∃ pre l rest b, pcb.stackLayers = pre ++ l :: rest ∧
      (∀ x ∈ pre, x.isPseudo = false) ∧ l.isPseudo = true ∧
      loadBoardStackup pcb board = .error (.io (.UnexpectedLayer l.Name), b) ∧
      (IO_ERROR.UnexpectedLayer l.Name).message
        = "Unexpected layer '" ++ l.Name ++ "' in layer stack." := by
  obtain ⟨pre, l, rest, hsplit, hpre, hl⟩ := split_first_pseudo pcb.stackLayers h
  obtain ⟨s0, sa, -, -, -, hloop, -⟩ :=
    loop_abort pcb (loadBoardStackup.init board) pre rest l (Core_init board) hpre hl
  refine ⟨pre, l, rest, sa.board, hsplit, hpre, hl, ?_, rfl⟩
  simp only [loadBoardStackup, hsplit, hloop]

theorem ok_no_pseudo (pcb : CADSTAR_PCB) (board b : BOARD)
    (h : loadBoardStackup pcb board = .ok b) : ∀ l ∈ pcb.stackLayers, l.isPseudo = false := by
  intro l hl
  by_contra hp
  have hp2 : l.isPseudo = true := by simpa using hp
  obtain ⟨pre, l1, rest, hsplit, hpre, hl1⟩ := split_first_pseudo pcb.stackLayers ⟨l, hl, hp2⟩
  obtain ⟨s0, sa, -, -, -, hloop, -⟩ :=
    loop_abort pcb (loadBoardStackup.init board) pre rest l1 (Core_init board) hpre hl1
  simp [loadBoardStackup, hsplit, hloop] at h

theorem table_nodup : ∀ n, n ≤ 32 →
    ((List.range' 1 (n - 1)).map getKiCadCopperLayerID ++ [PCB_LAYER_ID.B_Cu]).Nodup := by
  decide

theorem endsInConstruction_eq (ls : List LAYER) : ∀ p,
    endsInConstruction p ls = (ls.getLast?.map (·.isConstruction)).getD p := by
  induction ls with
  | nil => intro p; rfl
  | cons l ls ih =>
    intro p
    rw [endsInConstruction, ih]
    cases ls with
    | nil => rfl
    | cons a as =>
      simp [List.getLast?_cons_cons, List.getLast?_eq_getLast _ (List.cons_ne_nil a as)]

theorem endsInConstruction_false (ls : List LAYER)
    (h : ls.getLast?.map (·.Type_) ≠ some .CONSTRUCTION) : endsInConstruction false ls = false := by
  rw [endsInConstruction_eq]
  cases hl : ls.getLast? with
  | none => rfl
  | some l =>
    simp [hl] at h
    simp [LAYER.isConstruction, h]

theorem run_acc (pcb : CADSTAR_PCB) (r : List LAYER) :
    ∀ (s : LoopState) (d : Nat) (nm : String) (done : List LAYER),
      s.prevWasDielectric = true → s.tempKiCadLayer = some (dielectricItem pcb d nm done) →
      s.dielectricSublayer = done.length → done ≠ [] →
      (∀ x ∈ r, x.Type_ = .CONSTRUCTION) →
      loadBoardStackup.loop pcb s r = .ok { s with
        dielectricSublayer := s.dielectricSublayer + r.length,
        tempKiCadLayer := some (dielectricItem pcb d (lastName nm r) (done ++ r)) } := by
  induction r with
  | nil =>
    intro s d nm done _ ht _ _ _
    simp [loadBoardStackup.loop, lastName, ← ht]
  | cons l r ih =>
    intro s d nm done hp ht hs hne hall
    have hl := hall l (List.mem_cons_self _ _)
    have hsub : s.dielectricSublayer ≠ 0 := by
      rw [hs]; intro h0; exact hne (List.length_eq_zero.mp h0)
    have hb := body_construction_acc pcb s l _ hp ht (by simp [dielectricItem, hs]) hsub hl
    simp only [loadBoardStackup.loop, hb]
    have key := ih
      { s with
        dielectricSublayer := s.dielectricSublayer + 1,
        tempKiCadLayer := some { dielectricItem pcb d nm done with
          LayerName := l.Name, BrdLayerId := .UNDEFINED_LAYER, TypeName := KEY_PREPREG,
          DielectricPrms := (dielectricItem pcb d nm done).DielectricPrms ++ [prmsOf pcb l] } }
      d l.Name (done ++ [l]) hp (by simp [dielectricItem]) (by simp [hs]) (by simp)
      (fun x hx => hall x (List.mem_cons_of_mem _ hx))
    refine key.trans ?_
    simp [lastName, Nat.add_assoc, Nat.add_comm 1]

/-- The loop over a non-empty run of construction layers, started outside a run:
nothing is committed, and the pending item holds one record per layer. -/
theorem run_idle (pcb : CADSTAR_PCB) (s : LoopState) (l : LAYER) (r : List LAYER)
    (hp : s.prevWasDielectric = false) (hs : s.dielectricSublayer = 0)
    (hall : ∀ x ∈ l :: r, x.Type_ = .CONSTRUCTION) :
    loadBoardStackup.loop pcb s (l :: r) = .ok { s with
      prevWasDielectric := true,
      dielectricSublayer := (l :: r).length,
      numDielectricLayers := s.numDielectricLayers + 1,
      tempKiCadLayer := some (dielectricItem pcb (s.numDielectricLayers + 1)
        (lastName l.Name r) (l :: r)) } := by
  have hb := body_construction_idle pcb s l hp hs (hall l (List.mem_cons_self _ _))
  simp only [loadBoardStackup.loop, hb]
  have key := run_acc pcb r
    { s with
      prevWasDielectric := true,
      dielectricSublayer := 1,
      numDielectricLayers := s.numDielectricLayers + 1,
      tempKiCadLayer := some (dielectricItem pcb (s.numDielectricLayers + 1) l.Name [l]) }
    (s.numDielectricLayers + 1) l.Name [l] rfl rfl rfl (by simp)
    (fun x hx => hall x (List.mem_cons_of_mem _ hx))
  refine key.trans ?_
  simp [Nat.add_comm 1]

/-- Whatever the remaining layers are, the loop only appends to the stackup. -/
theorem loop_grows (pcb : CADSTAR_PCB) (s : LoopState) (ls : List LAYER) (h : Core s) :
    ∃ t, stackupAt (loadBoardStackup.loop pcb s ls) = s.board.Stackup ++ t := by
  by_cases hp : ∃ l ∈ ls, l.isPseudo = true
  · obtain ⟨pre, l, rest, hsplit, hpre, hl⟩ := split_first_pseudo ls hp
    obtain ⟨s0, sa, -, -, hr, hloop, hsa⟩ := loop_abort pcb s pre rest l h hpre hl
    obtain ⟨t, ht⟩ := hr.grows
    refine ⟨t ++ pendingItems s0, ?_⟩
    rw [hsplit, hloop]
    simp [stackupAt, hsa, ht]
  · have hnp : ∀ l ∈ ls, l.isPseudo = false := by
      intro l hl
      by_contra hc
      exact hp ⟨l, hl, by simpa using hc⟩
    obtain ⟨s1, hl1, -, hr⟩ := loop_ok pcb ls s h hnp
    obtain ⟨t, ht⟩ := hr.grows
    exact ⟨t, by rw [hl1]; exact ht⟩

theorem table_undefined (n : Nat) (h : 32 < n) :
    getKiCadCopperLayerID n = .UNDEFINED_LAYER := by
  obtain ⟨m, rfl⟩ : ∃ m, n = m + 33 := ⟨n - 33, by omega⟩
  rfl

theorem roles_index (roles : List PCB_LAYER_ID) (N : Nat)
    (h : roles = (List.range' 1 (N - 1)).map getKiCadCopperLayerID ++ [.B_Cu]) (k : Nat)
    (h1 : 1 ≤ k) (h2 : k < N) : roles[k - 1]? = some (getKiCadCopperLayerID k) := by
  subst h
  have hlt : k - 1 < N - 1 := by omega
  rw [List.getElem?_append_left (by simpa using hlt)]
  rw [List.getElem?_map, List.getElem?_range' _ _ hlt]
  have hk : 1 + (k - 1) = k := by omega
  simp [hk]

/-- Claim C10: After a successful translation of a stack with `N` electrical
layers, `1 ≤ N ≤ 32`, the copper items of the stackup are the electrical layers
in stack order; the `k`-th of them, for `k < N`, has the role
`getKiCadCopperLayerID k` (`F_Cu` for `k = 1`, `In1_Cu` .. `In30_Cu` for
`k = 2 .. 31`), the `N`-th has the role `B_Cu`, and the `N` roles are pairwise
distinct. -/
theorem C10_copper_roles_follow_table (pcb : CADSTAR_PCB) (board b : BOARD) (N : Nat)
    (hN : (pcb.stackLayers.filter (·.isElec)).length = N) (h1 : 1 ≤ N) (h32 : N ≤ 32)
    (hok : loadBoardStackup pcb board = .ok b) :
    (b.Stackup.filter (·.isCopper)).map (·.LayerName)
        = (pcb.stackLayers.filter (·.isElec)).map (·.Name) ∧
      (∀ k, 1 ≤ k → k < N →
        ((b.Stackup.filter (·.isCopper)).map (·.BrdLayerId))[k - 1]?
          = some (getKiCadCopperLayerID k)) ∧
      ((b.Stackup.filter (·.isCopper)).map (·.BrdLayerId))[N - 1]? = some .B_Cu ∧
      ((b.Stackup.filter (·.isCopper)).map (·.BrdLayerId)).Nodup ∧
      (List.range' 1 31).map getKiCadCopperLayerID
        = [.F_Cu, .In1_Cu, .In2_Cu, .In3_Cu, .In4_Cu, .In5_Cu, .In6_Cu, .In7_Cu, .In8_Cu,
           .In9_Cu, .In10_Cu, .In11_Cu, .In12_Cu, .In13_Cu, .In14_Cu, .In15_Cu, .In16_Cu,
           .In17_Cu, .In18_Cu, .In19_Cu, .In20_Cu, .In21_Cu, .In22_Cu, .In23_Cu, .In24_Cu,
           .In25_Cu, .In26_Cu, .In27_Cu, .In28_Cu, .In29_Cu, .In30_Cu] := by
  have hps := ok_no_pseudo pcb board b hok
  obtain ⟨b1, hb1, hroles, hnames, -⟩ := loadBoardStackup_ok pcb board hps (by omega)
  rw [hok] at hb1
  cases hb1
  rw [hN] at hroles
  refine ⟨hnames, fun k hk1 hk2 => roles_index _ N hroles k hk1 hk2, ?_, ?_, by decide⟩
  · rw [hroles, List.getElem?_append_right (by simp)]
    simp
  · rw [hroles]
    exact table_nodup N h32

/-- Copper ordinals above 32 map to `UNDEFINED_LAYER`, and the walk has no test
for them: on a stack with `N > 32` electrical layers and no aggregate
pseudo-type layer the embedded `loadBoardStackup` returns normally, records the
copper-layer count `N`, commits `N` copper items, and the `k`-th copper item,
for `32 < k < N`, keeps the role `UNDEFINED_LAYER`. -/
theorem above_32_layers_are_committed (pcb : CADSTAR_PCB) (board : BOARD) (N : Nat)
    (hN : (pcb.stackLayers.filter (·.isElec)).length = N) (h32 : 32 < N)
    (hps : ∀ l ∈ pcb.stackLayers, l.isPseudo = false) :
    ∃ b, loadBoardStackup pcb board = .ok b ∧ b.CopperLayerCount = N ∧
      (b.Stackup.filter (·.isCopper)).length = N ∧
      (∀ k, 32 < k → k < N →
        ((b.Stackup.filter (·.isCopper)).map (·.BrdLayerId))[k - 1]?
          = some .UNDEFINED_LAYER) ∧
      (∀ n, 32 < n → getKiCadCopperLayerID n = .UNDEFINED_LAYER) := by
  obtain ⟨b, hb, hroles, -, hcount⟩ := loadBoardStackup_ok pcb board hps (by omega)
  rw [hN] at hroles hcount
  refine ⟨b, hb, hcount, ?_, ?_, table_undefined⟩
  · have := congrArg List.length hroles
    simp at this
    omega
  · intro k hk1 hk2
    rw [roles_index _ N hroles k (by omega) hk2, table_undefined k hk1]

theorem endsInConstruction_true (ls : List LAYER)
    (h : ls.getLast?.map (·.Type_) = some .CONSTRUCTION) : endsInConstruction false ls = true := by
  rw [endsInConstruction_eq]
  cases hl : ls.getLast? with
  | none => simp [hl] at h
  | some l =>
    simp [hl] at h
    simp [LAYER.isConstruction, h]

theorem loop_singleton (pcb : CADSTAR_PCB) (s : LoopState) (l : LAYER) :
    loadBoardStackup.loop pcb s [l] = loadBoardStackup.body pcb s l := by
  simp only [loadBoardStackup.loop]
  cases loadBoardStackup.body pcb s l <;> rfl

/-- Entering a layer that is not a construction layer: the pending dielectric
item is committed first, then at most one item that is not a dielectric; and
whatever follows only appends. -/
theorem enter_other (pcb : CADSTAR_PCB) (s : LoopState) (l : LAYER) (rest : List LAYER)
    (h : Core s) (hl : l.Type_ ≠ .CONSTRUCTION) :
    ∃ tail t,
      stackupAt (loadBoardStackup.body pcb s l) = s.board.Stackup ++ pendingItems s ++ tail ∧
      tail.length ≤ 1 ∧ (∀ x ∈ tail, x.Type_ ≠ .BS_ITEM_TYPE_DIELECTRIC) ∧
      stackupAt (loadBoardStackup.loop pcb s (l :: rest))
        = s.board.Stackup ++ pendingItems s ++ t := by
  by_cases hp : l.isPseudo = true
  · obtain ⟨sa, hb, hsa⟩ := body_pseudo pcb s l h hp
    refine ⟨[], [], ?_, by simp, by simp, ?_⟩
    · simp [hb, stackupAt, hsa]
    · simp [loadBoardStackup.loop, hb, stackupAt, hsa]
  · have hp2 : l.isPseudo = false := by simpa using hp
    obtain ⟨s1, hb, hc1, hr⟩ := step_ok pcb s l h hp2
    obtain ⟨tail, ht, ht1, ht2⟩ := hr.grows
    have hnc : l.isConstruction = false := by simp [LAYER.isConstruction, hl]
    simp only [hnc] at ht
    obtain ⟨t, hgrow⟩ := loop_grows pcb s1 rest hc1
    refine ⟨tail, tail ++ t, ?_, ht1, ht2, ?_⟩
    · simpa [hb, stackupAt] using ht
    · simp only [loadBoardStackup.loop, hb]
      rw [hgrow, ht]
      simp

/-- On a successful translation of a stack with an electrical layer, the
post-pass leaves every item that is not of copper type as the walk committed
it. -/
theorem final_keeps_item (pcb : CADSTAR_PCB) (board b : BOARD)
    (hok : loadBoardStackup pcb board = .ok b)
    (hN : 0 < (pcb.stackLayers.filter (·.isElec)).length)
    (S0 t : List BOARD_STACKUP_ITEM) (item : BOARD_STACKUP_ITEM)
    (hst : stackupAt (loadBoardStackup.loop pcb (loadBoardStackup.init board) pcb.stackLayers)
      = S0 ++ item :: t)
    (hit : item.isCopper = false) : b.Stackup[S0.length]? = some item := by
  have hps := ok_no_pseudo pcb board b hok
  obtain ⟨sF, hl, hc, hr⟩ := loop_ok pcb pcb.stackLayers _ (Core_init board) hps
  have hne : sF.numElecAndPowerLayers = (pcb.stackLayers.filter (·.isElec)).length := by
    simpa [loadBoardStackup.init] using hr.numElec
  simp only [loadBoardStackup, hl] at hok
  rw [hl] at hst
  simp only [stackupAt] at hst
  obtain ⟨pre, c, post, hst2, hcc, -, hpp⟩ := postPass_ok sF hc (by omega)
  rw [hpp] at hok
  have hb := Except.ok.inj hok
  subst hb
  have e : (pre ++ c :: post)[S0.length]? = some item := by
    rw [← hst2, hst, List.getElem?_append_right (Nat.le_refl _)]
    simp
  show (pre ++ { c with BrdLayerId := .B_Cu } :: post)[S0.length]? = some item
  by_cases hlen : S0.length = pre.length
  · rw [hlen, List.getElem?_append_right (Nat.le_refl _)] at e
    simp at e
    rw [e] at hcc
    rw [hcc] at hit
    cases hit
  · rw [← set_mid pre post c { c with BrdLayerId := .B_Cu },
      List.getElem?_set_ne (fun h => hlen h.symm)]
    exact e

/-- Claim C3, as the code behaves: In a stack whose layers before the run contain
no aggregate pseudo-type layer, a maximal run of `k ≥ 1` consecutive
CONSTRUCTION layers that is followed by a non-construction layer is committed as
exactly one dielectric item: nothing is added to the stackup while the run is
walked, the item is added on entering the layer after the run (followed by at
most one item, not a dielectric, for that layer itself), and it stays in that
position to the end of the walk. As committed, the item has `k` sub-layer
records, the `i`-th with the thickness `Thickness * KiCadUnitMultiplier` of the
`i`-th layer of the run as an `int` (the product itself when it fits `int`),
the role `UNDEFINED_LAYER`, and the dielectric ordinal one more than the number
of runs before it. When the stack has an electrical
layer and the translation succeeds, the item is in that position of the
resulting stackup, unchanged. -/
theorem C3_run_committed_as_one_dielectric_item (pcb : CADSTAR_PCB) (board : BOARD)
    (pre run rest : List LAYER) (next : LAYER)
    (hstack : pcb.stackLayers = pre ++ run ++ next :: rest)
    (hpre : ∀ x ∈ pre, x.isPseudo = false)
    (hprelast : pre.getLast?.map (·.Type_) ≠ some .CONSTRUCTION)
    (hrun : ∀ x ∈ run, x.Type_ = .CONSTRUCTION) (hk : run ≠ [])
    (hnext : next.Type_ ≠ .CONSTRUCTION) :
    ∃ item tail t,
      stackupAt (loadBoardStackup.loop pcb (loadBoardStackup.init board) (pre ++ run))
        = stackupAt (loadBoardStackup.loop pcb (loadBoardStackup.init board) pre) ∧
      stackupAt (loadBoardStackup.loop pcb (loadBoardStackup.init board) (pre ++ run ++ [next]))
        = stackupAt (loadBoardStackup.loop pcb (loadBoardStackup.init board) pre)
            ++ item :: tail ∧
      tail.length ≤ 1 ∧ (∀ x ∈ tail, x.Type_ ≠ .BS_ITEM_TYPE_DIELECTRIC) ∧
      stackupAt (loadBoardStackup.loop pcb (loadBoardStackup.init board) pcb.stackLayers)
        = stackupAt (loadBoardStackup.loop pcb (loadBoardStackup.init board) pre)
            ++ item :: t ∧
      item.Type_ = .BS_ITEM_TYPE_DIELECTRIC ∧
      item.DielectricPrms.length = run.length ∧
      item.DielectricPrms.map (·.Thickness)
        = run.map (fun l => some (toInt (l.Thickness * pcb.KiCadUnitMultiplier))) ∧
      ((∀ l ∈ run, InInt (l.Thickness * pcb.KiCadUnitMultiplier)) →
        item.DielectricPrms.map (·.Thickness)
          = run.map (fun l => some (l.Thickness * pcb.KiCadUnitMultiplier))) ∧
      item.BrdLayerId = .UNDEFINED_LAYER ∧
      item.DielectricLayerId = some (constructionRuns pre + 1) ∧
      (∀ b, loadBoardStackup pcb board = .ok b →
        0 < (pcb.stackLayers.filter (·.isElec)).length →
        b.Stackup[(stackupAt
          (loadBoardStackup.loop pcb (loadBoardStackup.init board) pre)).length]? = some item) := by
  obtain ⟨s0, h0, hc0, hr0⟩ := loop_ok pcb pre _ (Core_init board) hpre
  have hp0 : s0.prevWasDielectric = false := by
    rw [hr0.prev]; exact endsInConstruction_false pre hprelast
  have hd0 : s0.numDielectricLayers = constructionRuns pre := by
    simpa [loadBoardStackup.init, constructionRuns] using hr0.numDiel
  obtain ⟨l, r, rfl⟩ : ∃ l r, run = l :: r := by
    cases run with
    | nil => exact absurd rfl hk
    | cons l r => exact ⟨l, r, rfl⟩
  have hrunloop := run_idle pcb s0 l r hp0 (hc0.idle hp0) hrun
  have hrunps : ∀ x ∈ l :: r, x.isPseudo = false := by
    intro x hx
    simp [LAYER.isPseudo, hrun x hx]
  obtain ⟨s1, hl1, hc1, -⟩ := loop_ok pcb (l :: r) s0 hc0 hrunps
  rw [hrunloop] at hl1
  have hs1 := Except.ok.inj hl1
  have hpend : pendingItems s1 = [dielectricItem pcb (s0.numDielectricLayers + 1)
      (lastName l.Name r) (l :: r)] := by
    rw [← hs1]; simp [pendingItems]
  have hst1 : s1.board.Stackup = s0.board.Stackup := by rw [← hs1]
  have hpr : loadBoardStackup.loop pcb (loadBoardStackup.init board) (pre ++ l :: r)
      = .ok s1 := by
    rw [loop_append_ok pcb pre (l :: r) _ s0 h0, hrunloop, hs1]
  obtain ⟨tail, t, e1, e2, e3, e4⟩ := enter_other pcb s1 next rest hc1 hnext
  have hfull : stackupAt
      (loadBoardStackup.loop pcb (loadBoardStackup.init board) pcb.stackLayers)
      = stackupAt (loadBoardStackup.loop pcb (loadBoardStackup.init board) pre)
        ++ dielectricItem pcb (s0.numDielectricLayers + 1) (lastName l.Name r) (l :: r)
          :: t := by
    rw [hstack, loop_append_ok pcb (pre ++ l :: r) (next :: rest) _ s1 hpr, h0, e4, hpend,
      hst1]
    simp [stackupAt]
  have hth : ((l :: r).map (prmsOf pcb)).map (·.Thickness)
      = (l :: r).map (fun l => some (toInt (l.Thickness * pcb.KiCadUnitMultiplier))) := by
    rw [List.map_map]
    apply List.map_congr_left
    intro a _
    exact prmsOf_thickness pcb a
  refine ⟨dielectricItem pcb (s0.numDielectricLayers + 1) (lastName l.Name r) (l :: r),
    tail, t, ?_, ?_, e2, e3, hfull, rfl, by simp [dielectricItem], hth, ?_, rfl, ?_,
    fun b hok hN => final_keeps_item pcb board b hok hN _ t _ hfull rfl⟩
  · rw [hpr, h0]; exact hst1
  · rw [loop_append_ok pcb (pre ++ l :: r) [next] _ s1 hpr, h0, loop_singleton, e1, hpend,
      hst1]
    simp [stackupAt]
  · intro hfit
    show ((l :: r).map (prmsOf pcb)).map (·.Thickness) = _
    rw [hth]
    apply List.map_congr_left
    intro a ha
    rw [toInt_of_InInt _ (hfit a ha)]
  · simp [dielectricItem, hd0]

/-- Claim C8, as the code behaves: When the first aggregate pseudo-type layer of
the stack is an ALLLAYER layer `l`, `loadBoardStackup` raises the error naming
`l`. The stackup then holds the items committed before `l` was entered, followed
by the pending dielectric item when the layer right before `l` is a CONSTRUCTION
layer (the flush on entering `l` commits it), and nothing else: no item for `l`
or a later layer. The post-pass is not applied: the enabled layers are those
last written by the walk, and the visible layers and the copper-layer count are
those of the board before the call. -/
theorem C8_abort_state (pcb : CADSTAR_PCB) (board : BOARD) (pre rest : List LAYER) (l : LAYER)
    (hstack : pcb.stackLayers = pre ++ l :: rest)
    (hpre : ∀ x ∈ pre, x.isPseudo = false) (hl : l.Type_ = .ALLLAYER) :
    ∃ s0 b, loadBoardStackup.loop pcb (loadBoardStackup.init board) pre = .ok s0 ∧
      loadBoardStackup pcb board = .error (.io (.UnexpectedLayer l.Name), b) ∧
      (pre.getLast?.map (·.Type_) ≠ some .CONSTRUCTION → b.Stackup = s0.board.Stackup) ∧
      (pre.getLast?.map (·.Type_) = some .CONSTRUCTION →
        ∃ d, s0.tempKiCadLayer = some d ∧ d.Type_ = .BS_ITEM_TYPE_DIELECTRIC ∧
          b.Stackup = s0.board.Stackup ++ [d]) ∧
      b.EnabledLayers = s0.board.EnabledLayers ∧
      b.VisibleLayers = board.VisibleLayers ∧
      b.CopperLayerCount = board.CopperLayerCount := by
  have hlp : l.isPseudo = true := by simp [LAYER.isPseudo, hl]
  obtain ⟨s0, sa, h0, hc0, hr0, hloop, hsa⟩ :=
    loop_abort pcb (loadBoardStackup.init board) pre rest l (Core_init board) hpre hlp
  refine ⟨s0, sa.board, h0, by simp only [loadBoardStackup, hstack, hloop], ?_, ?_, ?_, ?_, ?_⟩
  · intro hne
    have hp0 : s0.prevWasDielectric = false := by
      rw [hr0.prev]; exact endsInConstruction_false pre hne
    simp [hsa, pendingItems, hp0]
  · intro he
    have hp0 : s0.prevWasDielectric = true := by
      rw [hr0.prev]; exact endsInConstruction_true pre he
    obtain ⟨d, hd, hty, -, -⟩ := hc0.acc hp0
    exact ⟨d, hd, hty, by simp [hsa, pendingItems, hp0, hd]⟩
  · simp [hsa]
  · simpa [hsa, loadBoardStackup.init] using hr0.visible
  · simpa [hsa, loadBoardStackup.init] using hr0.count

/-- Claim C1, witness: The six-layer stack has two electrical layers. -/
theorem C1_witness :
    (Example.sixLayer.stackLayers.filter (·.isElec)).length = 2 ∧
    ∃ b, loadBoardStackup Example.sixLayer Example.board = .ok b ∧
      (b.Stackup.filter (·.isCopper)).length = 2 ∧
      (b.Stackup.filter (·.isCopper)).getLast?.map (·.BrdLayerId) = some .B_Cu :=
  ⟨by decide, C1_copper_items_last_is_B_Cu Example.sixLayer Example.board 2 (by decide)
    (by decide) (by decide) (by decide)⟩

/-- Claim C2, the code at the failing input: For the stack signal, construction
`loadBoardStackup` returns normally with a stackup of one item, the copper item:
the dielectric item accumulated for the trailing construction layer is not in
it. -/
theorem C2_trailing_run_is_dropped :
    Example.trailing.stackLayers.map (·.Type_) = [.ELEC, .CONSTRUCTION] ∧
    ∃ b, loadBoardStackup Example.trailing Example.board = .ok b ∧
      b.Stackup.map (·.Type_) = [.BS_ITEM_TYPE_COPPER] :=
  ⟨by decide, _, rfl, by decide⟩

/-- Claim C3, counterexample: In the stack ALLLAYER, construction, signal the
construction layer is a maximal run followed by a non-construction layer, yet the
translation aborts on the first layer with an empty stackup: no dielectric item
is committed for the run. And in the stack signal, construction, signal with a
construction layer of thickness 300000000 and the unit multiplier 10 the
sub-layer record of the dielectric item carries the thickness -1294967296, not
the product 3000000000. -/
theorem C3_counterexample :
    (Example.abortFirst.stackLayers.map (·.Type_) = [.ALLLAYER, .CONSTRUCTION, .ELEC] ∧
      ∃ b, loadBoardStackup Example.abortFirst Example.board
          = .error (.io (.UnexpectedLayer "all"), b) ∧ b.Stackup = []) ∧
    (Example.thickCore.stackLayers.map (fun l => (l.Type_, l.Thickness))
        = [(.ELEC, 5), (.CONSTRUCTION, 300000000), (.ELEC, 5)] ∧
      Example.thickCore.KiCadUnitMultiplier = 10 ∧
      ∃ b, loadBoardStackup Example.thickCore Example.board = .ok b ∧
        b.Stackup.map (fun it => (it.Type_, it.DielectricPrms.map (·.Thickness)))
          = [(.BS_ITEM_TYPE_COPPER, [some 50]),
              (.BS_ITEM_TYPE_DIELECTRIC, [some (-1294967296)]),
              (.BS_ITEM_TYPE_COPPER, [some 50])]) :=
  ⟨⟨by decide, _, rfl, by decide⟩, by decide, by decide, _, rfl, by decide⟩

/-- Claim C3, witness: The run of two construction layers of the six-layer stack. -/
theorem C3_witness :
    ∃ item tail t,
      stackupAt (loadBoardStackup.loop Example.sixLayer (loadBoardStackup.init Example.board)
          ([Example.layer "top" .ELEC .LAYERSUBTYPE_NONE]
            ++ [Example.layer "prepreg" .CONSTRUCTION .LAYERSUBTYPE_NONE,
                Example.layer "core" .CONSTRUCTION .LAYERSUBTYPE_NONE]))
        = stackupAt (loadBoardStackup.loop Example.sixLayer
            (loadBoardStackup.init Example.board)
            [Example.layer "top" .ELEC .LAYERSUBTYPE_NONE]) ∧
      stackupAt (loadBoardStackup.loop Example.sixLayer (loadBoardStackup.init Example.board)
          ([Example.layer "top" .ELEC .LAYERSUBTYPE_NONE]
            ++ [Example.layer "prepreg" .CONSTRUCTION .LAYERSUBTYPE_NONE,
                Example.layer "core" .CONSTRUCTION .LAYERSUBTYPE_NONE]
            ++ [Example.layer "bottom" .ELEC .LAYERSUBTYPE_NONE]))
        = stackupAt (loadBoardStackup.loop Example.sixLayer
            (loadBoardStackup.init Example.board)
            [Example.layer "top" .ELEC .LAYERSUBTYPE_NONE]) ++ item :: tail ∧
      tail.length ≤ 1 ∧ (∀ x ∈ tail, x.Type_ ≠ .BS_ITEM_TYPE_DIELECTRIC) ∧
      stackupAt (loadBoardStackup.loop Example.sixLayer (loadBoardStackup.init Example.board)
          Example.sixLayer.stackLayers)
        = stackupAt (loadBoardStackup.loop Example.sixLayer
            (loadBoardStackup.init Example.board)
            [Example.layer "top" .ELEC .LAYERSUBTYPE_NONE]) ++ item :: t ∧
      item.Type_ = .BS_ITEM_TYPE_DIELECTRIC ∧
      item.DielectricPrms.length = 2 ∧
      item.DielectricPrms.map (·.Thickness) = [some 50, some 50] ∧
      ((∀ l ∈ [Example.layer "prepreg" .CONSTRUCTION .LAYERSUBTYPE_NONE,
            Example.layer "core" .CONSTRUCTION .LAYERSUBTYPE_NONE],
          InInt (l.Thickness * Example.sixLayer.KiCadUnitMultiplier)) →
        item.DielectricPrms.map (·.Thickness) = [some 50, some 50]) ∧
      item.BrdLayerId = .UNDEFINED_LAYER ∧
      item.DielectricLayerId = some 1 ∧
      (∀ b, loadBoardStackup Example.sixLayer Example.board = .ok b →
        0 < (Example.sixLayer.stackLayers.filter (·.isElec)).length →
        b.Stackup[(stackupAt (loadBoardStackup.loop Example.sixLayer
          (loadBoardStackup.init Example.board)
          [Example.layer "top" .ELEC .LAYERSUBTYPE_NONE])).length]? = some item) :=
  C3_run_committed_as_one_dielectric_item Example.sixLayer Example.board
    [Example.layer "top" .ELEC .LAYERSUBTYPE_NONE]
    [Example.layer "prepreg" .CONSTRUCTION .LAYERSUBTYPE_NONE,
     Example.layer "core" .CONSTRUCTION .LAYERSUBTYPE_NONE]
    [Example.layer "silk" .NONELEC .LAYERSUBTYPE_SILKSCREEN,
     Example.layer "mask" .NONELEC .LAYERSUBTYPE_SOLDERRESIST]
    (Example.layer "bottom" .ELEC .LAYERSUBTYPE_NONE)
    (by decide) (by decide) (by decide) (by decide) (by decide) (by decide)

/-- Claim C4, the code at the failing input: For the stack signal, signal the
second layer is first given the role `getKiCadCopperLayerID 2 = In1_Cu`; after
`loadBoardStackup` the enabled and the visible layers written to the board both
contain `B_Cu` and still contain `In1_Cu`. -/
theorem C4_old_role_stays_enabled :
    (Example.twoCopper.stackLayers.filter (·.isElec)).length = 2 ∧
    getKiCadCopperLayerID 2 = .In1_Cu ∧
    ∃ b, loadBoardStackup Example.twoCopper Example.board = .ok b ∧
      PCB_LAYER_ID.In1_Cu ∈ b.EnabledLayers ∧ PCB_LAYER_ID.In1_Cu ∈ b.VisibleLayers ∧
      PCB_LAYER_ID.B_Cu ∈ b.EnabledLayers ∧ PCB_LAYER_ID.B_Cu ∈ b.VisibleLayers :=
  ⟨by decide, by decide, _, rfl, by decide, by decide, by decide, by decide⟩

/-- Claim C5, the code at the failing input: `maxDesignSizekicad` evaluates to
`-1`, not to `INT_MAX - INT_MIN`. A design area whose X extent times the unit
multiplier equals `INT_MAX - INT_MIN` is rejected by the size check, and so is a
design area of extent zero; a design area one unit wider than the maximum, given
with the lower left corner first, passes. -/
theorem C5_size_check_at_the_maximum :
    Load.maxDesignSizekicad = -1 ∧
    Load.designSizeXkicad Example.maxSize = INT_MAX - INT_MIN ∧
    Load.designSizeYkicad Example.maxSize = 0 ∧
    Load.sizeCheck Example.maxSize = .error (.DesignTooLarge 4294967 0 0 0) ∧
    Load.sizeCheck Example.zeroSize = .error (.DesignTooLarge 0 0 0 0) ∧
    Load.designSizeXkicad Example.overSize = -(INT_MAX - INT_MIN + 5) ∧
    Load.sizeCheck Example.overSize = .ok () :=
  ⟨by decide, by decide, by decide, rfl, rfl, by decide, rfl⟩

/-- Claim C6, the code at the failing input: The six metre design area passes the
size check of `Load`; its corner `(300000000, 300000000)` lies inside the area,
and the expressions of `getKiCadPoint` for it, with the design centre `Load`
computes, have the values `3000000000` and `-3000000000`, outside the range of
`int`, so that `getKiCadPoint` returns a different point. -/
theorem C6_in_area_point_overflows :
    Load.sizeCheck Example.wide = .ok () ∧
    Load.mDesignCenter Example.wide = ⟨0, 0⟩ ∧
    (Example.wide.DesignArea.1.x ≤ 300000000 ∧ 300000000 ≤ Example.wide.DesignArea.2.x ∧
      Example.wide.DesignArea.1.y ≤ 300000000 ∧ 300000000 ≤ Example.wide.DesignArea.2.y) ∧
    getKiCadPointExact Example.wide (Load.mDesignCenter Example.wide) ⟨300000000, 300000000⟩
      = ⟨3000000000, -3000000000⟩ ∧
    INT_MAX < 3000000000 ∧ (-3000000000 : Int) < INT_MIN ∧
    getKiCadPoint Example.wide (Load.mDesignCenter Example.wide) ⟨300000000, 300000000⟩
      = ⟨-1294967296, 1294967296⟩ :=
  ⟨rfl, by decide, by decide, by decide, by decide, by decide, by decide⟩

/-- Claim C7, witness: The stack construction, ALLLAYER. -/
theorem C7_witness :
    ∃ pre l rest b, Example.abortAfterRun.stackLayers = pre ++ l :: rest ∧
      (∀ x ∈ pre, x.isPseudo = false) ∧ l.isPseudo = true ∧
      loadBoardStackup Example.abortAfterRun Example.board
        = .error (.io (.UnexpectedLayer l.Name), b) ∧
      (IO_ERROR.UnexpectedLayer l.Name).message
        = "Unexpected layer '" ++ l.Name ++ "' in layer stack." :=
  C7_pseudo_type_raises_io_error Example.abortAfterRun Example.board (by decide)

/-- Claim C8, counterexample: In the stack construction, ALLLAYER nothing is in
the stackup when the ALLLAYER layer is entered (the walk of the layers before it
ends with an empty stackup), yet at the abort the stackup holds one item. -/
theorem C8_counterexample :
    Example.abortAfterRun.stackLayers.map (·.Type_) = [.CONSTRUCTION, .ALLLAYER] ∧
    ∃ s0 b,
      loadBoardStackup.loop Example.abortAfterRun (loadBoardStackup.init Example.board)
        [Example.layer "core" .CONSTRUCTION .LAYERSUBTYPE_NONE] = .ok s0 ∧
      s0.board.Stackup = [] ∧
      loadBoardStackup Example.abortAfterRun Example.board
        = .error (.io (.UnexpectedLayer "all"), b) ∧
      b.Stackup.map (·.Type_) = [.BS_ITEM_TYPE_DIELECTRIC] ∧
      b.Stackup ≠ s0.board.Stackup :=
  ⟨by decide, _, _, rfl, by decide, rfl, by decide, by decide⟩

/-- Claim C8, witness: The stack construction, ALLLAYER. -/
theorem C8_witness :
    ∃ s0 b,
      loadBoardStackup.loop Example.abortAfterRun (loadBoardStackup.init Example.board)
        [Example.layer "core" .CONSTRUCTION .LAYERSUBTYPE_NONE] = .ok s0 ∧
      loadBoardStackup Example.abortAfterRun Example.board
        = .error (.io (.UnexpectedLayer "all"), b) ∧
      (([Example.layer "core" .CONSTRUCTION .LAYERSUBTYPE_NONE].getLast?.map (·.Type_)
          ≠ some .CONSTRUCTION) → b.Stackup = s0.board.Stackup) ∧
      (([Example.layer "core" .CONSTRUCTION .LAYERSUBTYPE_NONE].getLast?.map (·.Type_)
          = some .CONSTRUCTION) →
        ∃ d, s0.tempKiCadLayer = some d ∧ d.Type_ = .BS_ITEM_TYPE_DIELECTRIC ∧
          b.Stackup = s0.board.Stackup ++ [d]) ∧
      b.EnabledLayers = s0.board.EnabledLayers ∧
      b.VisibleLayers = Example.board.VisibleLayers ∧
      b.CopperLayerCount = Example.board.CopperLayerCount :=
  C8_abort_state Example.abortAfterRun Example.board
    [Example.layer "core" .CONSTRUCTION .LAYERSUBTYPE_NONE] []
    (Example.layer "all" .ALLLAYER .LAYERSUBTYPE_NONE) (by decide) (by decide) (by decide)

/-- Claim C9, the code at the failing input: for a stack of 33 signal layers
`loadBoardStackup` raises no error; the ordinal 33 has no copper role
(`getKiCadCopperLayerID 33 = UNDEFINED_LAYER`), the item of the 33rd layer is
committed all the same, `UNDEFINED_LAYER` is among the enabled layers, and after
the post-pass the items of the 32nd and of the 33rd layer both have the role
`B_Cu`. For a stack of 34 signal layers the copper item of the 33rd layer is in
the resulting stackup with the role `UNDEFINED_LAYER`. -/
theorem C9_ordinal_above_32_is_committed :
    ((Example.many.stackLayers.filter (·.isElec)).length = 33 ∧
      getKiCadCopperLayerID 33 = .UNDEFINED_LAYER ∧
      ∃ b, loadBoardStackup Example.many Example.board = .ok b ∧
        b.Stackup.length = 33 ∧
        (b.Stackup.drop 31).map (fun it => (it.Type_, it.BrdLayerId))
          = [(.BS_ITEM_TYPE_COPPER, .B_Cu), (.BS_ITEM_TYPE_COPPER, .B_Cu)] ∧
        PCB_LAYER_ID.UNDEFINED_LAYER ∈ b.EnabledLayers ∧
        b.CopperLayerCount = 33) ∧
    ((Example.many34.stackLayers.filter (·.isElec)).length = 34 ∧
      ∃ b, loadBoardStackup Example.many34 Example.board = .ok b ∧
        (b.Stackup.drop 31).map (fun it => (it.Type_, it.BrdLayerId))
          = [(.BS_ITEM_TYPE_COPPER, .B_Cu), (.BS_ITEM_TYPE_COPPER, .UNDEFINED_LAYER),
              (.BS_ITEM_TYPE_COPPER, .B_Cu)]) :=
  ⟨⟨by decide, by decide, _, rfl, by decide, by decide, by decide, by decide⟩,
    by decide, _, rfl, by decide⟩

/-- Claim C10, witness: The six-layer stack, with two electrical layers. -/
theorem C10_witness :
    (Example.sixLayerBoard.Stackup.filter (·.isCopper)).map (·.LayerName)
        = (Example.sixLayer.stackLayers.filter (·.isElec)).map (·.Name) ∧
      (∀ k, 1 ≤ k → k < 2 →
        ((Example.sixLayerBoard.Stackup.filter (·.isCopper)).map (·.BrdLayerId))[k - 1]?
          = some (getKiCadCopperLayerID k)) ∧
      ((Example.sixLayerBoard.Stackup.filter (·.isCopper)).map (·.BrdLayerId))[2 - 1]?
        = some .B_Cu ∧
      ((Example.sixLayerBoard.Stackup.filter (·.isCopper)).map (·.BrdLayerId)).Nodup ∧
      (List.range' 1 31).map getKiCadCopperLayerID
        = [.F_Cu, .In1_Cu, .In2_Cu, .In3_Cu, .In4_Cu, .In5_Cu, .In6_Cu, .In7_Cu, .In8_Cu,
           .In9_Cu, .In10_Cu, .In11_Cu, .In12_Cu, .In13_Cu, .In14_Cu, .In15_Cu, .In16_Cu,
           .In17_Cu, .In18_Cu, .In19_Cu, .In20_Cu, .In21_Cu, .In22_Cu, .In23_Cu, .In24_Cu,
           .In25_Cu, .In26_Cu, .In27_Cu, .In28_Cu, .In29_Cu, .In30_Cu] :=
  C10_copper_roles_follow_table Example.sixLayer Example.board Example.sixLayerBoard 2
    (by decide) (by decide) (by decide) rfl

theorem foldl_append_drawings (f : DRAWSEGMENT → DRAWSEGMENT) (segs : List DRAWSEGMENT) :
    ∀ b : TARGET_BOARD,
      segs.foldl (fun b ds => { b with Drawings := b.Drawings ++ [f ds] }) b
        = { b with Drawings := b.Drawings ++ segs.map f } := by
  induction segs with
  | nil => intro b; simp
  | cons x xs ih => intro b; simp [ih]

theorem drawVertices_eq (pcb : CADSTAR_PCB) (c : wxPoint) (vs : List VERTEX)
    (layer : PCB_LAYER_ID) (w : Int) (b : TARGET_BOARD) :
    drawCadstarVerticesAsSegments pcb c vs layer w b
      = ⟨b.board, b.EdgeCutsLineThickness,
          b.Drawings ++ (getDrawSegments pcb c vs).map (withWidthAndLayer w layer)⟩ := by
  unfold drawCadstarVerticesAsSegments
  exact foldl_append_drawings (withWidthAndLayer w layer) _ b

/-- Claim C18: For every vertex list with fewer than two vertices
`getDrawSegments` returns the empty list (it has no failure path), and
`drawCadstarVerticesAsSegments` leaves the board as it is. -/
theorem C18_fewer_than_two_vertices (pcb : CADSTAR_PCB) (c : wxPoint) (vs : List VERTEX)
    (layer : PCB_LAYER_ID) (w : Int) (b : TARGET_BOARD) (h : vs.length < 2) :
    getDrawSegments pcb c vs = [] ∧ drawCadstarVerticesAsSegments pcb c vs layer w b = b := by
  have h1 : getDrawSegments pcb c vs = [] := by
    cases vs with
    | nil => rfl
    | cons a t =>
      cases t with
      | nil => rfl
      | cons a2 t2 => simp at h; omega
  refine ⟨h1, ?_⟩
  rw [drawVertices_eq, h1]
  simp

theorem loop_points (pcb : CADSTAR_PCB) (c : wxPoint) (rest : List VERTEX) :
    ∀ prev : VERTEX, (∀ v ∈ rest, v.Type_ = .POINT) →
      getDrawSegments.loop pcb c prev rest
        = (List.zip (prev :: rest) rest).map
            (fun p => straightSegment (getKiCadPoint pcb c p.1.End) (getKiCadPoint pcb c p.2.End)) := by
  induction rest with
  | nil => intro prev _; rfl
  | cons cur rest ih =>
    intro prev h
    have hc := h cur (List.mem_cons_self _ _)
    simp only [getDrawSegments.loop, List.zip_cons_cons, List.map_cons]
    rw [ih cur (fun v hv => h v (List.mem_cons_of_mem _ hv))]
    simp [getDrawSegments.segment, hc, straightSegment]

/-- Claim C19: For every vertex list `v0 :: rest` of `n ≥ 2` vertices in which
every vertex after the first is of POINT type, `getDrawSegments` returns exactly
`n - 1` segments, in order: the `i`-th is the straight segment from
`getKiCadPoint` of the end of vertex `i - 1` to `getKiCadPoint` of the end of
vertex `i`, so each segment starts where the previous one ends. -/
theorem C19_points_give_chained_segments (pcb : CADSTAR_PCB) (c : wxPoint) (v0 : VERTEX)
    (rest : List VERTEX) (hn : 2 ≤ (v0 :: rest).length)
    (hp : ∀ v ∈ rest, v.Type_ = .POINT) :
    getDrawSegments pcb c (v0 :: rest)
        = (List.zip (v0 :: rest) rest).map
            (fun p => straightSegment (getKiCadPoint pcb c p.1.End)
              (getKiCadPoint pcb c p.2.End)) ∧
      (getDrawSegments pcb c (v0 :: rest)).length = (v0 :: rest).length - 1 ∧
      (∀ i, 1 ≤ i → i < (v0 :: rest).length →
        ∃ a b, (v0 :: rest)[i - 1]? = some a ∧ (v0 :: rest)[i]? = some b ∧
          (getDrawSegments pcb c (v0 :: rest))[i - 1]?
            = some (straightSegment (getKiCadPoint pcb c a.End) (getKiCadPoint pcb c b.End))) := by
  have h1 : getDrawSegments pcb c (v0 :: rest)
      = (List.zip (v0 :: rest) rest).map
          (fun p => straightSegment (getKiCadPoint pcb c p.1.End)
            (getKiCadPoint pcb c p.2.End)) := by
    cases rest with
    | nil => simp at hn
    | cons cur rest =>
      show getDrawSegments.loop pcb c v0 (cur :: rest) = _
      exact loop_points pcb c (cur :: rest) v0 hp
  refine ⟨h1, ?_, ?_⟩
  · rw [h1]; simp
  · intro i hi1 hi2
    obtain ⟨j, rfl⟩ : ∃ j, i = j + 1 := ⟨i - 1, by omega⟩
    simp only [List.length_cons] at hi2
    have hj : j < rest.length := by omega
    have hj2 : j < (v0 :: rest).length := by simp; omega
    refine ⟨(v0 :: rest)[j], rest[j], ?_, ?_, ?_⟩
    · simp [List.getElem?_eq_getElem hj2]
    · simp [List.getElem?_eq_getElem hj]
    · rw [h1]
      simp [List.getElem?_map, List.getElem?_zip_eq_some, List.getElem?_eq_getElem hj2,
        List.getElem?_eq_getElem hj]
      exact ⟨_, _, ⟨rfl, rfl⟩, rfl⟩

/-- Claim C20: For every point `p`, design centre `c` and unit multiplier, when
no intermediate value leaves the range of `int`, `getKiCadPoint` returns
`((p.x - c.x) * m, -(p.y - c.y) * m)`: the offset is subtracted before scaling
and only the Y axis has its sign flipped. -/
theorem C20_getKiCadPoint_formula (pcb : CADSTAR_PCB) (c p : wxPoint)
    (hx1 : InInt (p.x - c.x)) (hx2 : InInt ((p.x - c.x) * pcb.KiCadUnitMultiplier))
    (hy1 : InInt (p.y - c.y)) (hy2 : InInt (-(p.y - c.y)))
    (hy3 : InInt (-(p.y - c.y) * pcb.KiCadUnitMultiplier)) :
    getKiCadPoint pcb c p
      = ⟨(p.x - c.x) * pcb.KiCadUnitMultiplier, -(p.y - c.y) * pcb.KiCadUnitMultiplier⟩ := by
  unfold getKiCadPoint
  rw [toInt_of_InInt _ hx1, toInt_of_InInt _ hx2, toInt_of_InInt _ hy1, toInt_of_InInt _ hy2,
    toInt_of_InInt _ hy3]

/-- Claim C17: If the design-size check of `Load` fails, `Load` raises the
size-limit IO error of the check and neither `loadBoardStackup` nor `loadBoards`
has run: the board at that moment is the board `Load` was given, with its
stackup, enabled and visible layers, copper-layer count and drawings
unchanged. -/
theorem C17_size_error_leaves_board (pcb : CADSTAR_PCB) (lay : LAYOUT) (aBoard : TARGET_BOARD)
    (e : IO_ERROR) (h : Load.sizeCheck pcb = .error e) :
    Load pcb lay aBoard = .error (.io e, aBoard) ∧
      ∃ x y mx my, e = .DesignTooLarge x y mx my := by
  refine ⟨by simp only [Load, h], ?_⟩
  unfold Load.sizeCheck at h
  split at h
  · exact ⟨_, _, _, _, (Except.error.inj h).symm⟩
  · cases h

theorem postPass_count (s : LoopState) (b : BOARD) (h : loadBoardStackup.postPass s = .ok b) :
    b.CopperLayerCount = s.numElecAndPowerLayers := by
  unfold loadBoardStackup.postPass at h
  split at h
  · cases h
  · rw [← Except.ok.inj h]

/-- Claim C14: After every successful translation the copper-layer count
recorded on the board equals the number of layers of the stack whose type is
JUMPERLAYER, ELEC or POWER. -/
theorem C14_copper_layer_count (pcb : CADSTAR_PCB) (board b : BOARD)
    (hok : loadBoardStackup pcb board = .ok b) :
    b.CopperLayerCount = (pcb.stackLayers.filter (·.isElec)).length := by
  have hps := ok_no_pseudo pcb board b hok
  obtain ⟨sF, hl, -, hr⟩ := loop_ok pcb pcb.stackLayers _ (Core_init board) hps
  simp only [loadBoardStackup, hl] at hok
  rw [postPass_count sF b hok, hr.numElec]
  simp [loadBoardStackup.init]

theorem pendingItems_props (s : LoopState) (h : Core s) :
    (pendingItems s).length ≤ 1 ∧ ∀ x ∈ pendingItems s, x.Type_ = .BS_ITEM_TYPE_DIELECTRIC := by
  cases hp : s.prevWasDielectric with
  | false => simp [pendingItems, hp]
  | true =>
    obtain ⟨t, ht, hty, -, -⟩ := h.acc hp
    simp [pendingItems, hp, ht, hty]

theorem side_flushed (s : LoopState) (t : BOARD_STACKUP_ITEM) (T : BOARD_STACKUP_ITEM_TYPE)
    (top : PCB_LAYER_ID) (topName : String) (bottom : PCB_LAYER_ID) (bottomName : String) :
    loadBoardStackup.side (flushed s t) T top topName bottom bottomName
      = loadBoardStackup.side s T top topName bottom bottomName := rfl

/-- One iteration on a layer for which the `switch` leaves the state alone and
sets the variables by `side`: the pending dielectric item is flushed and the
item of the layer is committed. -/
theorem body_side (pcb : CADSTAR_PCB) (s : LoopState) (l : LAYER) (h : Core s)
    (hc : l.Type_ ≠ .CONSTRUCTION)
    (T : BOARD_STACKUP_ITEM_TYPE) (top : PCB_LAYER_ID) (topName : String)
    (bottom : PCB_LAYER_ID) (bottomName : String)
    (hsw : ∀ s1, loadBoardStackup.switch_ s1 l
      = .break_ s1 (loadBoardStackup.side s1 T top topName bottom bottomName)) :
    ∃ s1, loadBoardStackup.body pcb s l = .ok s1 ∧
      s1.board.Stackup = s.board.Stackup ++ pendingItems s
        ++ [idleItem pcb l (loadBoardStackup.side s T top topName bottom bottomName)] := by
  cases hp : s.prevWasDielectric with
  | false =>
    refine ⟨idleCommit pcb s l (loadBoardStackup.side s T top topName bottom bottomName), ?_, ?_⟩
    · unfold loadBoardStackup.body
      rw [flush_idle s l hp]
      simp only [hsw]
      exact afterSwitch_idle pcb s l _ hp (h.idle hp)
    · simp [idleCommit, pendingItems, hp]
  | true =>
    obtain ⟨t, ht, -, -, -⟩ := h.acc hp
    refine ⟨idleCommit pcb (flushed s t) l
      (loadBoardStackup.side (flushed s t) T top topName bottom bottomName), ?_, ?_⟩
    · rw [body_acc_other pcb s l t hp ht hc]
      unfold loadBoardStackup.body
      rw [flush_idle (flushed s t) l rfl]
      simp only [hsw]
      exact afterSwitch_idle pcb (flushed s t) l _ rfl rfl
    · rw [side_flushed]
      simp [idleCommit, pendingItems, hp, ht, flushed]

/-- A layer whose item is chosen by `side`, reached by the walk: what is
committed for it, and where it stays. -/
theorem side_commit (pcb : CADSTAR_PCB) (board : BOARD) (pre rest : List LAYER) (l : LAYER)
    (hstack : pcb.stackLayers = pre ++ l :: rest)
    (hpre : ∀ x ∈ pre, x.isPseudo = false)
    (hc : l.Type_ ≠ .CONSTRUCTION) (hps : l.isPseudo = false)
    (T : BOARD_STACKUP_ITEM_TYPE) (top : PCB_LAYER_ID) (topName : String)
    (bottom : PCB_LAYER_ID) (bottomName : String)
    (hsw : ∀ s1, loadBoardStackup.switch_ s1 l
      = .break_ s1 (loadBoardStackup.side s1 T top topName bottom bottomName))
    (hT : T ≠ .BS_ITEM_TYPE_COPPER) :
    ∃ pend item t,
      stackupAt (loadBoardStackup.loop pcb (loadBoardStackup.init board) (pre ++ [l]))
        = stackupAt (loadBoardStackup.loop pcb (loadBoardStackup.init board) pre)
            ++ pend ++ [item] ∧
      pend.length ≤ 1 ∧ (∀ x ∈ pend, x.Type_ = .BS_ITEM_TYPE_DIELECTRIC) ∧
      stackupAt (loadBoardStackup.loop pcb (loadBoardStackup.init board) pcb.stackLayers)
        = stackupAt (loadBoardStackup.loop pcb (loadBoardStackup.init board) pre)
            ++ pend ++ item :: t ∧
      item.Type_ = T ∧
      item.BrdLayerId = (if 0 < (pre.filter (·.isElec)).length then top else bottom) ∧
      (∀ b, loadBoardStackup pcb board = .ok b →
        0 < (pcb.stackLayers.filter (·.isElec)).length →
        b.Stackup[(stackupAt (loadBoardStackup.loop pcb (loadBoardStackup.init board) pre)
          ++ pend).length]? = some item) := by
  obtain ⟨s0, h0, hc0, hr0⟩ := loop_ok pcb pre _ (Core_init board) hpre
  have hne : s0.numElecAndPowerLayers = (pre.filter (·.isElec)).length := by
    simpa [loadBoardStackup.init] using hr0.numElec
  obtain ⟨s1, hb, hst⟩ := body_side pcb s0 l hc0 hc T top topName bottom bottomName hsw
  obtain ⟨s1b, hb2, hc1, -⟩ := step_ok pcb s0 l hc0 hps
  rw [hb] at hb2
  have e := Except.ok.inj hb2
  subst e
  obtain ⟨t, hgrow⟩ := loop_grows pcb s1 rest hc1
  obtain ⟨hp1, hp2⟩ := pendingItems_props s0 hc0
  have hfull : stackupAt
      (loadBoardStackup.loop pcb (loadBoardStackup.init board) pcb.stackLayers)
      = stackupAt (loadBoardStackup.loop pcb (loadBoardStackup.init board) pre)
        ++ pendingItems s0
        ++ idleItem pcb l (loadBoardStackup.side s0 T top topName bottom bottomName) :: t := by
    have hcons : pre ++ l :: rest = (pre ++ [l]) ++ rest := by simp
    have hpl : loadBoardStackup.loop pcb (loadBoardStackup.init board) (pre ++ [l])
        = .ok s1 := by
      rw [loop_append_ok pcb pre [l] _ s0 h0, loop_singleton, hb]
    rw [hstack, hcons, loop_append_ok pcb (pre ++ [l]) rest _ s1 hpl, hgrow, hst, h0]
    simp [stackupAt]
  refine ⟨pendingItems s0, idleItem pcb l
    (loadBoardStackup.side s0 T top topName bottom bottomName), t, ?_, hp1, hp2, hfull, ?_, ?_,
    ?_⟩
  · rw [loop_append_ok pcb pre [l] _ s0 h0, loop_singleton, hb, h0]
    exact hst
  · unfold loadBoardStackup.side idleItem
    split <;> rfl
  · unfold loadBoardStackup.side idleItem
    rw [hne]
    split <;> rfl
  · intro b hok hN
    refine final_keeps_item pcb board b hok hN _ t _ hfull ?_
    unfold loadBoardStackup.side idleItem BOARD_STACKUP_ITEM.isCopper
    split <;> simp [hT]

/-- Claim C11, as the code behaves: In a stack whose layers before it contain no
aggregate pseudo-type layer, a NONELEC layer with subtype PASTE, SILKSCREEN or
SOLDERRESIST is committed as exactly one item on being entered (right after the
pending dielectric item, if the layer before it is a construction layer), and
the item stays in that position to the end of the walk. As committed, the item
has the type solder paste, silkscreen or soldermask respectively and the role of
the top side (`F_Paste`, `F_SilkS`, `F_Mask`) if at least one electrical layer
occurs before it in the stack, and of the bottom side (`B_Paste`, `B_SilkS`,
`B_Mask`) otherwise. When the stack has an electrical layer and the translation
succeeds, the item is in that position of the resulting stackup, unchanged. -/
theorem C11_side_of_nonelec_item (pcb : CADSTAR_PCB) (board : BOARD)
    (pre rest : List LAYER) (l : LAYER)
    (hstack : pcb.stackLayers = pre ++ l :: rest)
    (hpre : ∀ x ∈ pre, x.isPseudo = false)
    (hl : l.Type_ = .NONELEC)
    (hsub : l.SubType = .LAYERSUBTYPE_PASTE ∨ l.SubType = .LAYERSUBTYPE_SILKSCREEN
      ∨ l.SubType = .LAYERSUBTYPE_SOLDERRESIST) :
    ∃ pend item t,
      stackupAt (loadBoardStackup.loop pcb (loadBoardStackup.init board) (pre ++ [l]))
        = stackupAt (loadBoardStackup.loop pcb (loadBoardStackup.init board) pre)
            ++ pend ++ [item] ∧
      pend.length ≤ 1 ∧ (∀ x ∈ pend, x.Type_ = .BS_ITEM_TYPE_DIELECTRIC) ∧
      stackupAt (loadBoardStackup.loop pcb (loadBoardStackup.init board) pcb.stackLayers)
        = stackupAt (loadBoardStackup.loop pcb (loadBoardStackup.init board) pre)
            ++ pend ++ item :: t ∧
      (l.SubType = .LAYERSUBTYPE_PASTE → item.Type_ = .BS_ITEM_TYPE_SOLDERPASTE ∧
        item.BrdLayerId = (if 0 < (pre.filter (·.isElec)).length then .F_Paste else .B_Paste)) ∧
      (l.SubType = .LAYERSUBTYPE_SILKSCREEN → item.Type_ = .BS_ITEM_TYPE_SILKSCREEN ∧
        item.BrdLayerId = (if 0 < (pre.filter (·.isElec)).length then .F_SilkS else .B_SilkS)) ∧
      (l.SubType = .LAYERSUBTYPE_SOLDERRESIST → item.Type_ = .BS_ITEM_TYPE_SOLDERMASK ∧
        item.BrdLayerId = (if 0 < (pre.filter (·.isElec)).length then .F_Mask else .B_Mask)) ∧
      (∀ b, loadBoardStackup pcb board = .ok b →
        0 < (pcb.stackLayers.filter (·.isElec)).length →
        b.Stackup[(stackupAt (loadBoardStackup.loop pcb (loadBoardStackup.init board) pre)
          ++ pend).length]? = some item) := by
  have hc : l.Type_ ≠ .CONSTRUCTION := by simp [hl]
  have hps : l.isPseudo = false := by simp [LAYER.isPseudo, hl]
  rcases hsub with h | h | h
  · obtain ⟨pend, item, t, a1, a2, a3, a4, a5, a6, a7⟩ := side_commit pcb board pre rest l
      hstack hpre hc hps .BS_ITEM_TYPE_SOLDERPASTE .F_Paste "Top Solder Paste" .B_Paste
      "Bottom Solder Paste" (fun s1 => by simp [loadBoardStackup.switch_, hl, h]) (by decide)
    exact ⟨pend, item, t, a1, a2, a3, a4, fun _ => ⟨a5, a6⟩, by simp [h], by simp [h], a7⟩
  · obtain ⟨pend, item, t, a1, a2, a3, a4, a5, a6, a7⟩ := side_commit pcb board pre rest l
      hstack hpre hc hps .BS_ITEM_TYPE_SILKSCREEN .F_SilkS "Top Silk Screen" .B_SilkS
      "Bottom Silk Screen" (fun s1 => by simp [loadBoardStackup.switch_, hl, h]) (by decide)
    exact ⟨pend, item, t, a1, a2, a3, a4, by simp [h], fun _ => ⟨a5, a6⟩, by simp [h], a7⟩
  · obtain ⟨pend, item, t, a1, a2, a3, a4, a5, a6, a7⟩ := side_commit pcb board pre rest l
      hstack hpre hc hps .BS_ITEM_TYPE_SOLDERMASK .F_Mask "Top Solder Mask" .B_Mask
      "Bottom Solder Mask" (fun s1 => by simp [loadBoardStackup.switch_, hl, h]) (by decide)
    exact ⟨pend, item, t, a1, a2, a3, a4, by simp [h], by simp [h], fun _ => ⟨a5, a6⟩, a7⟩

theorem setPrms_Type (pcb : CADSTAR_PCB) (l : LAYER) (k : Nat) (t : BOARD_STACKUP_ITEM) :
    (loadBoardStackup.setPrms pcb l k t).Type_ = t.Type_ := by
  unfold loadBoardStackup.setPrms; split <;> rfl

theorem setPrms_BrdLayerId (pcb : CADSTAR_PCB) (l : LAYER) (k : Nat) (t : BOARD_STACKUP_ITEM) :
    (loadBoardStackup.setPrms pcb l k t).BrdLayerId = t.BrdLayerId := by
  unfold loadBoardStackup.setPrms; split <;> rfl

theorem setPrms_length (pcb : CADSTAR_PCB) (l : LAYER) (k : Nat) (t : BOARD_STACKUP_ITEM) :
    (loadBoardStackup.setPrms pcb l k t).DielectricPrms.length = t.DielectricPrms.length := by
  unfold loadBoardStackup.setPrms
  split <;> simp [BOARD_STACKUP_ITEM.SetMaterial, BOARD_STACKUP_ITEM.SetEpsilonR,
    BOARD_STACKUP_ITEM.SetLossTangent, BOARD_STACKUP_ITEM.SetThickness]

theorem setPrms_LayerName (pcb : CADSTAR_PCB) (l : LAYER) (k : Nat) (t : BOARD_STACKUP_ITEM) :
    (loadBoardStackup.setPrms pcb l k t).LayerName = t.LayerName := by
  unfold loadBoardStackup.setPrms; split <;> rfl

/-- The stack signal, construction, construction, signal, silkscreen, solder
resist, evaluated for arbitrary layers of these types. -/
theorem six_layer (pcb : CADSTAR_PCB) (board : BOARD) (l1 l2 l3 l4 l5 l6 : LAYER)
    (hstack : pcb.stackLayers = [l1, l2, l3, l4, l5, l6])
    (h1 : l1.Type_ = .ELEC) (h2 : l2.Type_ = .CONSTRUCTION) (h3 : l3.Type_ = .CONSTRUCTION)
    (h4 : l4.Type_ = .ELEC) (h5 : l5.Type_ = .NONELEC)
    (h5s : l5.SubType = .LAYERSUBTYPE_SILKSCREEN) (h6 : l6.Type_ = .NONELEC)
    (h6s : l6.SubType = .LAYERSUBTYPE_SOLDERRESIST) :
    (stackupAt (loadBoardStackup.loop pcb (loadBoardStackup.init board) pcb.stackLayers)).map
        (·.BrdLayerId) = [.F_Cu, .UNDEFINED_LAYER, .In1_Cu, .F_SilkS, .F_Mask] ∧
    ∃ b, loadBoardStackup pcb board = .ok b ∧
      b.Stackup.map (·.Type_) = [.BS_ITEM_TYPE_COPPER, .BS_ITEM_TYPE_DIELECTRIC,
        .BS_ITEM_TYPE_COPPER, .BS_ITEM_TYPE_SILKSCREEN, .BS_ITEM_TYPE_SOLDERMASK] ∧
      b.Stackup.map (·.BrdLayerId) = [.F_Cu, .UNDEFINED_LAYER, .B_Cu, .F_SilkS, .F_Mask] ∧
      b.Stackup.map (·.LayerName) = [l1.Name, l3.Name, l4.Name, l5.Name, l6.Name] ∧
      b.Stackup.map (·.DielectricPrms.length) = [1, 2, 1, 1, 1] ∧
      b.CopperLayerCount = 2 := by
  simp [loadBoardStackup, hstack, loadBoardStackup.loop, loadBoardStackup.body,
    loadBoardStackup.flush, stackupAt,
    loadBoardStackup.switch_, loadBoardStackup.afterSwitch, loadBoardStackup.init, h1, h2, h3, h4,
    h5, h5s, h6, h6s, loadBoardStackup.side, BOARD_STACKUP_ITEM.new, loadBoardStackup.postPass,
    GetStackupLayer, setPrms_Type, setPrms_LayerName, setPrms_BrdLayerId, setPrms_length,
    BOARD_STACKUP_ITEM.AddDielectricPrms, getKiCadCopperLayerID, setPrms_fresh, List.insertIdx]


/-- Claim C12, counterexample: the six-layer stack yields a stackup of five
items, not four. -/
theorem C12_counterexample :
    Example.sixLayer.stackLayers.map (fun l => (l.Type_, l.SubType))
      = [(.ELEC, .LAYERSUBTYPE_NONE), (.CONSTRUCTION, .LAYERSUBTYPE_NONE),
         (.CONSTRUCTION, .LAYERSUBTYPE_NONE), (.ELEC, .LAYERSUBTYPE_NONE),
         (.NONELEC, .LAYERSUBTYPE_SILKSCREEN), (.NONELEC, .LAYERSUBTYPE_SOLDERRESIST)] ∧
    ∃ b, loadBoardStackup Example.sixLayer Example.board = .ok b ∧ b.Stackup.length = 5 ∧
      b.Stackup.length ≠ 4 :=
  ⟨by decide, _, rfl, by decide, by decide⟩

/-- Claim C12, as the code behaves: Translating a stack signal, construction,
construction, signal, non-electrical silkscreen, non-electrical solder resist
succeeds and yields a stackup of exactly 5 items: copper, dielectric, copper,
silkscreen, soldermask. -/
theorem C12_six_layers_give_five_items (pcb : CADSTAR_PCB) (board : BOARD)
    (l1 l2 l3 l4 l5 l6 : LAYER)
    (hstack : pcb.stackLayers = [l1, l2, l3, l4, l5, l6])
    (h1 : l1.Type_ = .ELEC) (h2 : l2.Type_ = .CONSTRUCTION) (h3 : l3.Type_ = .CONSTRUCTION)
    (h4 : l4.Type_ = .ELEC) (h5 : l5.Type_ = .NONELEC)
    (h5s : l5.SubType = .LAYERSUBTYPE_SILKSCREEN) (h6 : l6.Type_ = .NONELEC)
    (h6s : l6.SubType = .LAYERSUBTYPE_SOLDERRESIST) :
    ∃ b, loadBoardStackup pcb board = .ok b ∧ b.Stackup.length = 5 ∧
      b.Stackup.map (·.Type_) = [.BS_ITEM_TYPE_COPPER, .BS_ITEM_TYPE_DIELECTRIC,
        .BS_ITEM_TYPE_COPPER, .BS_ITEM_TYPE_SILKSCREEN, .BS_ITEM_TYPE_SOLDERMASK] := by
  obtain ⟨-, b, hb, ht, -, -, -, -⟩ :=
    six_layer pcb board l1 l2 l3 l4 l5 l6 hstack h1 h2 h3 h4 h5 h5s h6 h6s
  refine ⟨b, hb, ?_, ht⟩
  have := congrArg List.length ht
  simpa using this

/-- Claim C12, witness: the six-layer stack. -/
theorem C12_witness :
    ∃ b, loadBoardStackup Example.sixLayer Example.board = .ok b ∧ b.Stackup.length = 5 ∧
      b.Stackup.map (·.Type_) = [.BS_ITEM_TYPE_COPPER, .BS_ITEM_TYPE_DIELECTRIC,
        .BS_ITEM_TYPE_COPPER, .BS_ITEM_TYPE_SILKSCREEN, .BS_ITEM_TYPE_SOLDERMASK] :=
  C12_six_layers_give_five_items Example.sixLayer Example.board
    (Example.layer "top" .ELEC .LAYERSUBTYPE_NONE)
    (Example.layer "prepreg" .CONSTRUCTION .LAYERSUBTYPE_NONE)
    (Example.layer "core" .CONSTRUCTION .LAYERSUBTYPE_NONE)
    (Example.layer "bottom" .ELEC .LAYERSUBTYPE_NONE)
    (Example.layer "silk" .NONELEC .LAYERSUBTYPE_SILKSCREEN)
    (Example.layer "mask" .NONELEC .LAYERSUBTYPE_SOLDERRESIST)
    (by decide) rfl rfl rfl rfl rfl rfl rfl rfl

/-- Claim C13: Translating a stack signal, construction, construction, signal,
non-electrical silkscreen, non-electrical solder resist succeeds and yields, in
stack order: a copper item with role `F_Cu`; one dielectric item without role
that holds 2 sub-layers; a second copper item with role `B_Cu`, which the walk
had given the role `In1_Cu` of ordinal 2; a silkscreen item and a soldermask
item on the top side (`F_SilkS`, `F_Mask`); and the copper-layer count 2. -/
theorem C13_six_layer_stackup (pcb : CADSTAR_PCB) (board : BOARD)
    (l1 l2 l3 l4 l5 l6 : LAYER)
    (hstack : pcb.stackLayers = [l1, l2, l3, l4, l5, l6])
    (h1 : l1.Type_ = .ELEC) (h2 : l2.Type_ = .CONSTRUCTION) (h3 : l3.Type_ = .CONSTRUCTION)
    (h4 : l4.Type_ = .ELEC) (h5 : l5.Type_ = .NONELEC)
    (h5s : l5.SubType = .LAYERSUBTYPE_SILKSCREEN) (h6 : l6.Type_ = .NONELEC)
    (h6s : l6.SubType = .LAYERSUBTYPE_SOLDERRESIST) :
    (stackupAt (loadBoardStackup.loop pcb (loadBoardStackup.init board) pcb.stackLayers)).map
        (·.BrdLayerId) = [.F_Cu, .UNDEFINED_LAYER, .In1_Cu, .F_SilkS, .F_Mask] ∧
    getKiCadCopperLayerID 2 = .In1_Cu ∧
    ∃ b, loadBoardStackup pcb board = .ok b ∧
      b.Stackup.map (·.Type_) = [.BS_ITEM_TYPE_COPPER, .BS_ITEM_TYPE_DIELECTRIC,
        .BS_ITEM_TYPE_COPPER, .BS_ITEM_TYPE_SILKSCREEN, .BS_ITEM_TYPE_SOLDERMASK] ∧
      b.Stackup.map (·.BrdLayerId) = [.F_Cu, .UNDEFINED_LAYER, .B_Cu, .F_SilkS, .F_Mask] ∧
      b.Stackup.map (·.LayerName) = [l1.Name, l3.Name, l4.Name, l5.Name, l6.Name] ∧
      b.Stackup.map (·.DielectricPrms.length) = [1, 2, 1, 1, 1] ∧
      b.CopperLayerCount = 2 := by
  obtain ⟨h, hb⟩ := six_layer pcb board l1 l2 l3 l4 l5 l6 hstack h1 h2 h3 h4 h5 h5s h6 h6s
  exact ⟨h, rfl, hb⟩

/-- Claim C13, witness: the six-layer stack. -/
theorem C13_witness :
    (stackupAt (loadBoardStackup.loop Example.sixLayer (loadBoardStackup.init Example.board)
        Example.sixLayer.stackLayers)).map
        (·.BrdLayerId) = [.F_Cu, .UNDEFINED_LAYER, .In1_Cu, .F_SilkS, .F_Mask] ∧
    getKiCadCopperLayerID 2 = .In1_Cu ∧
    ∃ b, loadBoardStackup Example.sixLayer Example.board = .ok b ∧
      b.Stackup.map (·.Type_) = [.BS_ITEM_TYPE_COPPER, .BS_ITEM_TYPE_DIELECTRIC,
        .BS_ITEM_TYPE_COPPER, .BS_ITEM_TYPE_SILKSCREEN, .BS_ITEM_TYPE_SOLDERMASK] ∧
      b.Stackup.map (·.BrdLayerId) = [.F_Cu, .UNDEFINED_LAYER, .B_Cu, .F_SilkS, .F_Mask] ∧
      b.Stackup.map (·.LayerName) = ["top", "core", "bottom", "silk", "mask"] ∧
      b.Stackup.map (·.DielectricPrms.length) = [1, 2, 1, 1, 1] ∧
      b.CopperLayerCount = 2 :=
  C13_six_layer_stackup Example.sixLayer Example.board
    (Example.layer "top" .ELEC .LAYERSUBTYPE_NONE)
    (Example.layer "prepreg" .CONSTRUCTION .LAYERSUBTYPE_NONE)
    (Example.layer "core" .CONSTRUCTION .LAYERSUBTYPE_NONE)
    (Example.layer "bottom" .ELEC .LAYERSUBTYPE_NONE)
    (Example.layer "silk" .NONELEC .LAYERSUBTYPE_SILKSCREEN)
    (Example.layer "mask" .NONELEC .LAYERSUBTYPE_SOLDERRESIST)
    (by decide) rfl rfl rfl rfl rfl rfl rfl rfl

/-- Claim C11, counterexample: in the stack ALLLAYER, silkscreen the translation
aborts on the first layer with an empty stackup: no item is committed for the
silkscreen layer. -/
theorem C11_counterexample :
    Example.abortBeforeSilk.stackLayers.map (fun l => (l.Type_, l.SubType))
      = [(.ALLLAYER, .LAYERSUBTYPE_NONE), (.NONELEC, .LAYERSUBTYPE_SILKSCREEN)] ∧
    ∃ b, loadBoardStackup Example.abortBeforeSilk Example.board
        = .error (.io (.UnexpectedLayer "all"), b) ∧ b.Stackup = [] :=
  ⟨by decide, _, rfl, by decide⟩

/-- Claim C11, witness: the silkscreen layer of the six-layer stack. -/
theorem C11_witness :
    ∃ pend item t,
      stackupAt (loadBoardStackup.loop Example.sixLayer (loadBoardStackup.init Example.board)
          ([Example.layer "top" .ELEC .LAYERSUBTYPE_NONE,
            Example.layer "prepreg" .CONSTRUCTION .LAYERSUBTYPE_NONE,
            Example.layer "core" .CONSTRUCTION .LAYERSUBTYPE_NONE,
            Example.layer "bottom" .ELEC .LAYERSUBTYPE_NONE]
            ++ [Example.layer "silk" .NONELEC .LAYERSUBTYPE_SILKSCREEN]))
        = stackupAt (loadBoardStackup.loop Example.sixLayer
            (loadBoardStackup.init Example.board)
            [Example.layer "top" .ELEC .LAYERSUBTYPE_NONE,
             Example.layer "prepreg" .CONSTRUCTION .LAYERSUBTYPE_NONE,
             Example.layer "core" .CONSTRUCTION .LAYERSUBTYPE_NONE,
             Example.layer "bottom" .ELEC .LAYERSUBTYPE_NONE])
            ++ pend ++ [item] ∧
      pend.length ≤ 1 ∧ (∀ x ∈ pend, x.Type_ = .BS_ITEM_TYPE_DIELECTRIC) ∧
      stackupAt (loadBoardStackup.loop Example.sixLayer (loadBoardStackup.init Example.board)
          Example.sixLayer.stackLayers)
        = stackupAt (loadBoardStackup.loop Example.sixLayer
            (loadBoardStackup.init Example.board)
            [Example.layer "top" .ELEC .LAYERSUBTYPE_NONE,
             Example.layer "prepreg" .CONSTRUCTION .LAYERSUBTYPE_NONE,
             Example.layer "core" .CONSTRUCTION .LAYERSUBTYPE_NONE,
             Example.layer "bottom" .ELEC .LAYERSUBTYPE_NONE])
            ++ pend ++ item :: t ∧
      ((Example.layer "silk" .NONELEC .LAYERSUBTYPE_SILKSCREEN).SubType = .LAYERSUBTYPE_PASTE →
        item.Type_ = .BS_ITEM_TYPE_SOLDERPASTE ∧
        item.BrdLayerId = (if 0 < 2 then .F_Paste else .B_Paste)) ∧
      ((Example.layer "silk" .NONELEC .LAYERSUBTYPE_SILKSCREEN).SubType
          = .LAYERSUBTYPE_SILKSCREEN →
        item.Type_ = .BS_ITEM_TYPE_SILKSCREEN ∧
        item.BrdLayerId = (if 0 < 2 then .F_SilkS else .B_SilkS)) ∧
      ((Example.layer "silk" .NONELEC .LAYERSUBTYPE_SILKSCREEN).SubType
          = .LAYERSUBTYPE_SOLDERRESIST →
        item.Type_ = .BS_ITEM_TYPE_SOLDERMASK ∧
        item.BrdLayerId = (if 0 < 2 then .F_Mask else .B_Mask)) ∧
      (∀ b, loadBoardStackup Example.sixLayer Example.board = .ok b →
        0 < (Example.sixLayer.stackLayers.filter (·.isElec)).length →
        b.Stackup[(stackupAt (loadBoardStackup.loop Example.sixLayer
            (loadBoardStackup.init Example.board)
            [Example.layer "top" .ELEC .LAYERSUBTYPE_NONE,
             Example.layer "prepreg" .CONSTRUCTION .LAYERSUBTYPE_NONE,
             Example.layer "core" .CONSTRUCTION .LAYERSUBTYPE_NONE,
             Example.layer "bottom" .ELEC .LAYERSUBTYPE_NONE])
          ++ pend).length]? = some item) :=
  C11_side_of_nonelec_item Example.sixLayer Example.board
    [Example.layer "top" .ELEC .LAYERSUBTYPE_NONE,
     Example.layer "prepreg" .CONSTRUCTION .LAYERSUBTYPE_NONE,
     Example.layer "core" .CONSTRUCTION .LAYERSUBTYPE_NONE,
     Example.layer "bottom" .ELEC .LAYERSUBTYPE_NONE]
    [Example.layer "mask" .NONELEC .LAYERSUBTYPE_SOLDERRESIST]
    (Example.layer "silk" .NONELEC .LAYERSUBTYPE_SILKSCREEN)
    (by decide) (by decide) rfl (Or.inr (Or.inl rfl))

/-- Claim C14, witness: the six-layer stack has two electrical layers. -/
theorem C14_witness :
    Example.sixLayerBoard.CopperLayerCount
      = (Example.sixLayer.stackLayers.filter (·.isElec)).length :=
  C14_copper_layer_count Example.sixLayer Example.board Example.sixLayerBoard rfl

/-- Claim C15, the code at the failing input: for the stack signal, layer of
unknown type, and for the stack signal, non-electrical layer of unknown
sub-type, `loadBoardStackup` returns normally, and the stackup holds an item of
undefined type with an empty type name for the unknown layer. -/
theorem C15_unknown_layer_is_committed :
    (Example.unknownType.stackLayers.map (·.Type_) = [.ELEC, .UNDEFINED] ∧
      ∃ b, loadBoardStackup Example.unknownType Example.board = .ok b ∧
        b.Stackup.map (·.LayerName) = ["top", "odd"] ∧
        b.Stackup.map (·.Type_) = [.BS_ITEM_TYPE_COPPER, .BS_ITEM_TYPE_UNDEFINED] ∧
        b.Stackup.map (·.TypeName) = ["Copper", ""]) ∧
    (Example.unknownSubType.stackLayers.map (fun l => (l.Type_, l.SubType))
        = [(.ELEC, .LAYERSUBTYPE_NONE), (.NONELEC, .LAYERSUBTYPE_OTHER)] ∧
      ∃ b, loadBoardStackup Example.unknownSubType Example.board = .ok b ∧
        b.Stackup.map (·.LayerName) = ["top", "odd"] ∧
        b.Stackup.map (·.Type_) = [.BS_ITEM_TYPE_COPPER, .BS_ITEM_TYPE_UNDEFINED] ∧
        b.Stackup.map (·.TypeName) = ["Copper", ""]) :=
  ⟨⟨by decide, _, rfl, by decide, by decide, by decide⟩,
    ⟨by decide, _, rfl, by decide, by decide, by decide⟩⟩

/-- Claim C16, the code at the failing input: the material id `ghost` of the
layer is not a key of the material table, and the committed item has its
material name, permittivity and loss tangent written all the same, with the
values of the default material that `cpaMaterials[id]` yields for an absent
key. -/
theorem C16_absent_material_is_written :
    Example.ghostMaterial.stackLayers.map (·.MaterialId) = ["ghost"] ∧
    Example.ghostMaterial.Materials.lookup "ghost" = none ∧
    "ghost" ≠ Example.ghostMaterial.UNDEFINED_MATERIAL_ID ∧
    ∃ b, loadBoardStackup Example.ghostMaterial Example.board = .ok b ∧
      b.Stackup.map (·.DielectricPrms)
        = [[⟨some 50, some "", some ⟨0, 0⟩, some ⟨0, 0⟩⟩]] :=
  ⟨by decide, by decide, by decide, _, rfl, by decide⟩

/-- Claim C17, witness: the design area of `Example.maxSize` fails the size
check. -/
theorem C17_witness :
    Load Example.maxSize Example.layout Example.target
        = .error (.io (.DesignTooLarge 4294967 0 0 0), Example.target) ∧
      ∃ x y mx my, IO_ERROR.DesignTooLarge 4294967 0 0 0 = .DesignTooLarge x y mx my :=
  C17_size_error_leaves_board Example.maxSize Example.layout Example.target
    (.DesignTooLarge 4294967 0 0 0) rfl

/-- Claim C18, witness: a single vertex. -/
theorem C18_witness :
    getDrawSegments Example.zeroSize ⟨0, 0⟩ [Example.point 1 1] = [] ∧
      drawCadstarVerticesAsSegments Example.zeroSize ⟨0, 0⟩ [Example.point 1 1] .Edge_Cuts 7
        Example.target = Example.target :=
  C18_fewer_than_two_vertices Example.zeroSize ⟨0, 0⟩ [Example.point 1 1] .Edge_Cuts 7
    Example.target (by decide)

/-- Claim C19, witness: two POINT vertices give one straight segment between the
converted end points. -/
theorem C19_witness :
    getDrawSegments Example.zeroSize ⟨0, 0⟩ [Example.point 0 0, Example.point 10 0]
      = [straightSegment ⟨0, 0⟩ ⟨100, 0⟩] :=
  (C19_points_give_chained_segments Example.zeroSize ⟨0, 0⟩ (Example.point 0 0)
    [Example.point 10 0] (by decide) (by decide)).1

/-- Claim C20, witness: the point `(5, 7)` with design centre `(1, 2)` and unit
multiplier 10. -/
theorem C20_witness :
    getKiCadPoint Example.zeroSize ⟨1, 2⟩ ⟨5, 7⟩ = ⟨40, -50⟩ :=
  C20_getKiCadPoint_formula Example.zeroSize ⟨1, 2⟩ ⟨5, 7⟩ (by decide) (by decide) (by decide)
    (by decide) (by decide)

theorem getKiCadPoint_exact (pcb : CADSTAR_PCB) (c p : wxPoint) (h : NoOverflow pcb c p) :
    getKiCadPoint pcb c p
      = ⟨(p.x - c.x) * pcb.KiCadUnitMultiplier, -(p.y - c.y) * pcb.KiCadUnitMultiplier⟩ := by
  obtain ⟨hx1, hx2, hy1, hy2, hy3⟩ := h
  unfold getKiCadPoint
  rw [toInt_of_InInt _ hx1, toInt_of_InInt _ hx2, toInt_of_InInt _ hy1, toInt_of_InInt _ hy2,
    toInt_of_InInt _ hy3]

theorem inverse_exact (m : Int) (hm : m ≠ 0) (c p : wxPoint) :
    inverseKiCadPoint m c ⟨(p.x - c.x) * m, -(p.y - c.y) * m⟩ = p := by
  unfold inverseKiCadPoint
  cases p with
  | mk px py =>
    simp only [Int.mul_tdiv_cancel _ hm]
    congr 1 <;> omega

/-- Claim C21: For every point `p`, design centre `c` and non-zero unit
multiplier for which no intermediate value of `getKiCadPoint` leaves the range
of `int`, the inverse transform (divide by the multiplier, un-flip the sign of
Y, add `c`) applied to `getKiCadPoint p` gives `p` back; consequently
`getKiCadPoint` takes `p` and any other such point `q` to different points
unless `p = q`. -/
theorem C21_getKiCadPoint_round_trip (pcb : CADSTAR_PCB) (c p : wxPoint)
    (hm : pcb.KiCadUnitMultiplier ≠ 0) (hp : NoOverflow pcb c p) :
    inverseKiCadPoint pcb.KiCadUnitMultiplier c (getKiCadPoint pcb c p) = p ∧
      ∀ q, NoOverflow pcb c q → getKiCadPoint pcb c p = getKiCadPoint pcb c q → p = q := by
  have h1 : inverseKiCadPoint pcb.KiCadUnitMultiplier c (getKiCadPoint pcb c p) = p := by
    rw [getKiCadPoint_exact pcb c p hp]
    exact inverse_exact _ hm c p
  refine ⟨h1, ?_⟩
  intro q hq heq
  have h2 : inverseKiCadPoint pcb.KiCadUnitMultiplier c (getKiCadPoint pcb c q) = q := by
    rw [getKiCadPoint_exact pcb c q hq]
    exact inverse_exact _ hm c q
  rw [← h1, heq, h2]

/-- Claim C21, witness: the point `(5, 7)` with design centre `(1, 2)` and unit
multiplier 10 is converted to `(40, -50)` and recovered. -/
theorem C21_witness :
    getKiCadPoint Example.zeroSize ⟨1, 2⟩ ⟨5, 7⟩ = ⟨40, -50⟩ ∧
      inverseKiCadPoint 10 ⟨1, 2⟩ (getKiCadPoint Example.zeroSize ⟨1, 2⟩ ⟨5, 7⟩) = ⟨5, 7⟩ :=
  ⟨by decide,
    (C21_getKiCadPoint_round_trip Example.zeroSize ⟨1, 2⟩ ⟨5, 7⟩ (by decide) (by decide)).1⟩

theorem drawCutouts_eq (pcb : CADSTAR_PCB) (c : wxPoint) (layer : PCB_LAYER_ID) (w : Int)
    (ks : List CUTOUT) : ∀ b : TARGET_BOARD,
      drawCadstarCutoutsAsSegments pcb c ks layer w b
        = ⟨b.board, b.EdgeCutsLineThickness,
            b.Drawings ++ ((ks.map (fun k => getDrawSegments pcb c k.Vertices)).flatten).map
              (withWidthAndLayer w layer)⟩ := by
  induction ks with
  | nil => intro b; simp [drawCadstarCutoutsAsSegments]
  | cons k ks ih =>
    intro b
    have := ih (drawCadstarVerticesAsSegments pcb c k.Vertices layer w b)
    simp only [drawCadstarCutoutsAsSegments, List.foldl_cons] at this ⊢
    rw [this, drawVertices_eq]
    simp

/-- Claim C22: For every shape of type OPENSHAPE or OUTLINE, `drawCadstarShape`
leaves the board as it was except that it appends to the drawings exactly the
segments `getDrawSegments` builds from the shape's own vertex list, followed,
for each cutout in order, by the segments `getDrawSegments` builds from that
cutout's vertex list alone; every appended segment has the given layer and the
width `getLineThickness` resolves for the line code. -/
theorem C22_outline_segments (pcb : CADSTAR_PCB) (lay : LAYOUT) (c : wxPoint) (shape : SHAPE)
    (layer : PCB_LAYER_ID) (id : LINECODE_ID) (b : TARGET_BOARD)
    (h : shape.Type_ = .OPENSHAPE ∨ shape.Type_ = .OUTLINE) :
    drawCadstarShape pcb lay c shape layer id b
        = ⟨b.board, b.EdgeCutsLineThickness,
            b.Drawings ++ (shapeSegments pcb c shape).map
              (withWidthAndLayer (getLineThickness pcb lay b id) layer)⟩ ∧
      shapeSegments pcb c shape
        = getDrawSegments pcb c shape.Vertices
          ++ (shape.Cutouts.map (fun k => getDrawSegments pcb c k.Vertices)).flatten ∧
      ∀ ds ∈ (shapeSegments pcb c shape).map
          (withWidthAndLayer (getLineThickness pcb lay b id) layer),
        ds.Width = some (getLineThickness pcb lay b id) ∧ ds.Layer = some layer := by
  refine ⟨?_, rfl, ?_⟩
  · unfold drawCadstarShape
    rcases h with h | h <;> simp only [h] <;>
      rw [drawCutouts_eq, drawVertices_eq] <;> simp [shapeSegments]
  · intro ds hds
    obtain ⟨d0, -, rfl⟩ := List.mem_map.mp hds
    exact ⟨rfl, rfl⟩

/-- Claim C22, witness: a triangle with a cutout of two segments, drawn with the
line code of width 20 and unit multiplier 10: three segments for the outline,
then two for the cutout, none between them. -/
theorem C22_witness :
    (drawCadstarShape Example.zeroSize Example.lineCodes ⟨0, 0⟩ Example.outline .Edge_Cuts
        "thin" Example.target).Drawings
      = [straightSegment ⟨0, 0⟩ ⟨100, 0⟩, straightSegment ⟨100, 0⟩ ⟨100, -100⟩,
          straightSegment ⟨100, -100⟩ ⟨0, 0⟩, straightSegment ⟨20, -20⟩ ⟨40, -20⟩,
          straightSegment ⟨40, -20⟩ ⟨20, -20⟩].map (withWidthAndLayer 200 .Edge_Cuts) :=
  (congrArg TARGET_BOARD.Drawings
    (C22_outline_segments Example.zeroSize Example.lineCodes ⟨0, 0⟩ Example.outline .Edge_Cuts
      "thin" Example.target (Or.inr rfl)).1).trans (by decide)

/-- Claim C23: For every shape of type SOLID or HATCHED, whatever its vertices
and cutouts, `drawCadstarShape` (which has no failure path) returns the board
unchanged: no segment is appended. -/
theorem C23_solid_and_hatched_draw_nothing (pcb : CADSTAR_PCB) (lay : LAYOUT) (c : wxPoint)
    (shape : SHAPE) (layer : PCB_LAYER_ID) (id : LINECODE_ID) (b : TARGET_BOARD)
    (h : shape.Type_ = .SOLID ∨ shape.Type_ = .HATCHED) :
    drawCadstarShape pcb lay c shape layer id b = b := by
  unfold drawCadstarShape
  rcases h with h | h <;> simp only [h]

/-- Claim C23, witness: the solid shape with four vertices and a cutout. -/
theorem C23_witness :
    drawCadstarShape Example.zeroSize Example.lineCodes ⟨0, 0⟩ Example.solid .Edge_Cuts
        "thin" Example.target = Example.target :=
  C23_solid_and_hatched_draw_nothing Example.zeroSize Example.lineCodes ⟨0, 0⟩ Example.solid
    .Edge_Cuts "thin" Example.target (Or.inl rfl)

theorem toInt_InInt (z : Int) : InInt (toInt z) := by
  unfold InInt INT_MIN INT_MAX toInt
  omega

/-- Claim C24, counterexample: the line code `huge` is a key of the table, its
width 300000000 times the unit multiplier 10 is 3000000000, and
`getLineThickness` returns -1294967296, not that product. -/
theorem C24_counterexample :
    Example.lineCodes.LineCodes.lookup "huge" = some ⟨300000000⟩ ∧
      Example.zeroSize.KiCadUnitMultiplier = 10 ∧
      getLineThickness Example.zeroSize Example.lineCodes Example.target "huge"
        ≠ 300000000 * 10 ∧
      getLineThickness Example.zeroSize Example.lineCodes Example.target "huge"
        = -1294967296 := by
  decide

/-- Claim C24, as the code behaves: `getLineThickness` has no failure path; when
the id is not a key of the line-code table it returns the board's default line
thickness for Edge_Cuts; otherwise it returns the line code's width times
`KiCadUnitMultiplier` reduced to the range of `int`, which is that product
whenever the product fits `int`. -/
theorem C24_line_thickness (pcb : CADSTAR_PCB) (lay : LAYOUT) (b : TARGET_BOARD)
    (id : LINECODE_ID) :
    (lay.LineCodes.lookup id = none → getLineThickness pcb lay b id = b.EdgeCutsLineThickness) ∧
      (∀ lineCode, lay.LineCodes.lookup id = some lineCode →
        getLineThickness pcb lay b id = toInt (lineCode.Width * pcb.KiCadUnitMultiplier) ∧
        InInt (getLineThickness pcb lay b id) ∧
        (InInt (lineCode.Width * pcb.KiCadUnitMultiplier) →
          getLineThickness pcb lay b id = lineCode.Width * pcb.KiCadUnitMultiplier)) := by
  constructor
  · intro h
    unfold getLineThickness
    rw [h]
  · intro lc h
    have e : getLineThickness pcb lay b id = toInt (lc.Width * pcb.KiCadUnitMultiplier) := by
      unfold getLineThickness
      rw [h]
    rw [e]
    exact ⟨rfl, toInt_InInt _, fun hi => toInt_of_InInt _ hi⟩

/-- Claim C24, witness: the line code `thin` of width 20 with unit multiplier 10
gives 200, and an id that is not in the table gives the default thickness. -/
theorem C24_witness :
    getLineThickness Example.zeroSize Example.lineCodes Example.target "thin" = 200 ∧
      getLineThickness Example.zeroSize Example.lineCodes Example.target "none" = 100000 :=
  ⟨((C24_line_thickness Example.zeroSize Example.lineCodes Example.target "thin").2 ⟨20⟩
      (by decide)).2.2 (by decide),
    (C24_line_thickness Example.zeroSize Example.lineCodes Example.target "none").1
      (by decide)⟩

/-- Which normaliser `getDrawSegments` applies to the sweep of an arc: the
positive one for the clockwise vertex types, the negative one for the
anticlockwise types. -/
theorem arc_angle_normaliser (pcb : CADSTAR_PCB) (c : wxPoint) (prev cur : VERTEX) :
    (cur.Type_ = .CLOCKWISE_ARC ∨ cur.Type_ = .CLOCKWISE_SEMICIRCLE →
      ∃ a, (getDrawSegments.segment pcb c prev cur).Angle = some (.NormalizeAnglePos a)) ∧
    (cur.Type_ = .ANTICLOCKWISE_ARC ∨ cur.Type_ = .ANTICLOCKWISE_SEMICIRCLE →
      ∃ a, (getDrawSegments.segment pcb c prev cur).Angle = some (.NormalizeAngleNeg a)) := by
  constructor <;> intro h <;> rcases h with h | h <;>
    (unfold getDrawSegments.segment; simp only [h]; exact ⟨_, rfl⟩)

theorem loop_getElem (pcb : CADSTAR_PCB) (c : wxPoint) (rest : List VERTEX) :
    ∀ (prev : VERTEX) (i : Nat) (p q : VERTEX), (prev :: rest)[i]? = some p → rest[i]? = some q →
      (getDrawSegments.loop pcb c prev rest)[i]? = some (getDrawSegments.segment pcb c p q) := by
  induction rest with
  | nil => intro prev i p q _ h; simp at h
  | cons cur rest ih =>
    intro prev i p q hp hq
    cases i with
    | zero =>
      simp at hp hq
      subst hp; subst hq
      simp [getDrawSegments.loop]
    | succ j =>
      simp only [List.getElem?_cons_succ] at hp hq
      simp only [getDrawSegments.loop, List.getElem?_cons_succ]
      exact ih cur j p q hp hq

/-- The segment number `i` of `getDrawSegments` is the one built for the
vertices number `i` and `i + 1`. -/
theorem getDrawSegments_getElem (pcb : CADSTAR_PCB) (c : wxPoint) (vs : List VERTEX) (i : Nat)
    (p q : VERTEX) (hp : vs[i]? = some p) (hq : vs[i + 1]? = some q) :
    (getDrawSegments pcb c vs)[i]? = some (getDrawSegments.segment pcb c p q) := by
  cases vs with
  | nil => simp at hp
  | cons v0 rest =>
    cases rest with
    | nil => simp at hq
    | cons v1 rest =>
      show (getDrawSegments.loop pcb c v0 (v1 :: rest))[i]? = _
      exact loop_getElem pcb c (v1 :: rest) v0 i p q hp (by simpa using hq)

theorem tdiv_two_InInt (z : Int) (h : InInt z) : InInt (z.tdiv 2) := by
  unfold InInt INT_MIN INT_MAX at *
  rcases Int.le_total 0 z with hz | hz
  · rw [Int.tdiv_eq_ediv hz (by decide)]; omega
  · have : z.tdiv 2 = -((-z) / 2) := by
      rw [← Int.tdiv_eq_ediv (by omega) (by decide), Int.neg_tdiv, Int.neg_neg]
    rw [this]; omega

/-- Claim C27: For consecutive vertices `prev`, `cur` of the list, `cur` not of
POINT type, the segment `getDrawSegments` emits for the pair is an arc whose
start is `getKiCadPoint prev.End`; when `cur` is of a semicircle type its centre
is `(start + end) / 2` of the converted start and end points, in the `int`
operations of `wxPoint` with division truncating towards zero (component-wise
`(s + e) / 2` exactly when the sums fit `int`), whatever `cur.Center` is; when
`cur` is CLOCKWISE_ARC or ANTICLOCKWISE_ARC its centre is
`getKiCadPoint cur.Center`. -/
theorem C27_arc_start_and_centre (pcb : CADSTAR_PCB) (c : wxPoint) (vs : List VERTEX) (i : Nat)
    (prev cur : VERTEX) (hprev : vs[i]? = some prev) (hcur : vs[i + 1]? = some cur)
    (harc : cur.Type_ ≠ .POINT) :
    ∃ ds, (getDrawSegments pcb c vs)[i]? = some ds ∧ ds.Shape = some .S_ARC ∧
      ds.ArcStart = some (getKiCadPoint pcb c prev.End) ∧
      (cur.isSemicircle = true →
        ds.Center = some
          (((getKiCadPoint pcb c prev.End).add (getKiCadPoint pcb c cur.End)).div 2) ∧
        (InInt ((getKiCadPoint pcb c prev.End).x + (getKiCadPoint pcb c cur.End).x) →
          InInt ((getKiCadPoint pcb c prev.End).y + (getKiCadPoint pcb c cur.End).y) →
          ds.Center = some
            ⟨((getKiCadPoint pcb c prev.End).x + (getKiCadPoint pcb c cur.End).x).tdiv 2,
              ((getKiCadPoint pcb c prev.End).y + (getKiCadPoint pcb c cur.End).y).tdiv 2⟩)) ∧
      (cur.isArc = true → ds.Center = some (getKiCadPoint pcb c cur.Center)) := by
  refine ⟨_, getDrawSegments_getElem pcb c vs i prev cur hprev hcur, ?_, ?_, ?_, ?_⟩
  · cases h : cur.Type_ <;> simp_all [getDrawSegments.segment]
  · cases h : cur.Type_ <;> simp_all [getDrawSegments.segment]
  · intro hs
    have hc : (getDrawSegments.segment pcb c prev cur).Center = some
        (((getKiCadPoint pcb c prev.End).add (getKiCadPoint pcb c cur.End)).div 2) := by
      cases h : cur.Type_ <;> simp_all [getDrawSegments.segment, VERTEX.isSemicircle]
    refine ⟨hc, fun hx hy => ?_⟩
    rw [hc]
    simp only [wxPoint.add, wxPoint.div]
    rw [toInt_of_InInt _ hx, toInt_of_InInt _ hy, toInt_of_InInt _ (tdiv_two_InInt _ hx),
      toInt_of_InInt _ (tdiv_two_InInt _ hy)]
  · intro ha
    cases h : cur.Type_ <;> simp_all [getDrawSegments.segment, VERTEX.isArc]

/-- Claim C27, witness: the semicircle from `(0, 0)` to `(10, 0)` with stated
centre `(77, 77)` and unit multiplier 10 gets the centre `(50, 0)`, and the arc
that follows it gets its converted stated centre. -/
theorem C27_witness :
    (∃ ds, (getDrawSegments Example.zeroSize ⟨0, 0⟩ Example.arcs)[0]? = some ds ∧
      ds.Shape = some .S_ARC ∧ ds.ArcStart = some ⟨0, 0⟩ ∧ ds.Center = some ⟨50, 0⟩) ∧
    (getDrawSegments Example.zeroSize ⟨0, 0⟩ Example.arcs).map (·.Center)
      = [some ⟨50, 0⟩, some ⟨100, -50⟩] :=
  have h := C27_arc_start_and_centre Example.zeroSize ⟨0, 0⟩ Example.arcs 0
    (Example.point 0 0) (Example.arc .CLOCKWISE_SEMICIRCLE 77 77 10 0) rfl rfl (by decide)
  match h with
  | ⟨ds, h1, h2, h3, h4, _⟩ => ⟨⟨ds, h1, h2, h3, (h4 rfl).1⟩, by decide⟩

/-- Claim C28, the code at the failing input: the stack of one silkscreen layer
has no electrical and no pseudo-type layer; `loadBoardStackup` returns normally
and the post-pass has given the silkscreen item the role `B_Cu`, with `B_Cu`
among the enabled layers and the copper-layer count 0. On the empty stack the
post-pass uses the null pointer that `GetStackupLayer( 0 )` yields. -/
theorem C28_silkscreen_item_gets_B_Cu :
    (∀ l ∈ Example.silkOnly.stackLayers, l.isElec = false ∧ l.isPseudo = false) ∧
      (∃ b, loadBoardStackup Example.silkOnly Example.board = .ok b ∧
        b.Stackup.map (fun it => (it.Type_, it.LayerName, it.BrdLayerId))
          = [(.BS_ITEM_TYPE_SILKSCREEN, "silk", .B_Cu)] ∧
        b.EnabledLayers = [.F_CrtYd, .B_CrtYd, .Margin, .Edge_Cuts, .B_SilkS, .B_Cu] ∧
        b.CopperLayerCount = 0) ∧
      Example.zeroSize.stackLayers = [] ∧
      ∃ b, loadBoardStackup Example.zeroSize Example.board = .error (.invalidPointer, b) :=
  ⟨by decide, ⟨_, rfl, by decide, by decide, by decide⟩, by decide, _, rfl⟩

theorem Ids_init (board : BOARD) : Ids (loadBoardStackup.init board) := by
  constructor <;> simp [loadBoardStackup.init, requiredLayers]

theorem Ids_flushed {s : LoopState} {t : BOARD_STACKUP_ITEM} (h : Ids s)
    (ht : t.Type_ = .BS_ITEM_TYPE_DIELECTRIC) : Ids (flushed s t) := by
  have hnd : t.isNotDielectric = false := by simp [BOARD_STACKUP_ITEM.isNotDielectric, ht]
  constructor
  · simpa [flushed, List.filter_append, hnd] using h.ids
  · intro x hx hc hd
    simp only [flushed, List.mem_append, List.mem_singleton] at hx
    rcases hx with hx | rfl
    · exact h.other x hx hc hd
    · rw [hnd] at hd; cases hd

theorem Ids_idleCommit (pcb : CADSTAR_PCB) (s : LoopState) (l : LAYER) (v : IterLocals)
    (h : Ids s) (hv : v.kicadLayerType ≠ .BS_ITEM_TYPE_DIELECTRIC)
    (hr : v.kicadLayerType ≠ .BS_ITEM_TYPE_COPPER → v.kicadLayerID ∈ nonCopperRoles) :
    Ids (idleCommit pcb s l v) := by
  have hnd : (idleItem pcb l v).isNotDielectric = true := by
    simp [BOARD_STACKUP_ITEM.isNotDielectric, idleItem, hv]
  constructor
  · simp [idleCommit, List.filter_append, hnd, h.ids]
    rfl
  · intro x hx hc hd
    simp only [idleCommit, List.mem_append, List.mem_singleton] at hx
    rcases hx with hx | rfl
    · exact h.other x hx hc hd
    · apply hr
      simpa [isCopper_idleItem] using hc

theorem switch_other_role (s : LoopState) (l : LAYER) (he : l.isElec = false)
    (hc : l.Type_ ≠ .CONSTRUCTION) (s2 : LoopState) (v : IterLocals)
    (h : loadBoardStackup.switch_ s l = .break_ s2 v) :
    s2 = s ∧ v.kicadLayerType ≠ .BS_ITEM_TYPE_DIELECTRIC ∧ v.kicadLayerID ∈ nonCopperRoles := by
  unfold LAYER.isElec at he
  unfold loadBoardStackup.switch_ at h
  cases h1 : l.Type_ <;> cases h2 : l.SubType <;> simp [h1, h2] at h he hc <;>
    obtain ⟨rfl, rfl⟩ := h <;> simp [loadBoardStackup.side, nonCopperRoles] <;>
    split <;> simp

theorem Ids_idle_step (pcb : CADSTAR_PCB) (s s1 : LoopState) (l : LAYER) (h : Core s)
    (hi : Ids s) (hp : s.prevWasDielectric = false) (hl : l.isPseudo = false)
    (hb : loadBoardStackup.body pcb s l = .ok s1) : Ids s1 := by
  have hs := h.idle hp
  by_cases hc : l.Type_ = .CONSTRUCTION
  · rw [body_construction_idle pcb s l hp hs hc] at hb
    cases hb
    exact ⟨hi.ids, hi.other⟩
  · unfold loadBoardStackup.body at hb
    rw [flush_idle s l hp] at hb
    by_cases he : l.isElec = true
    · obtain ⟨ct, hct, hsw⟩ := switch_elec s l he
      simp only [hsw] at hb
      have e := afterSwitch_idle pcb
        { s with numElecAndPowerLayers := s.numElecAndPowerLayers + 1 } l
        { kicadLayerType := .BS_ITEM_TYPE_COPPER, copperType := ct,
          kicadLayerID := getKiCadCopperLayerID (s.numElecAndPowerLayers + 1),
          layerTypeName := KEY_COPPER } hp hs
      have e2 := Except.ok.inj (e.symm.trans hb)
      subst e2
      exact Ids_idleCommit pcb _ l _ ⟨hi.ids, hi.other⟩ (by simp) (by simp)
    · have he2 : l.isElec = false := by simpa using he
      cases hsw : loadBoardStackup.switch_ s l with
      | throw_ e => simp [hsw] at hb
      | continue_ s2 =>
        rcases switch_other s l he2 hl hc with h1 | ⟨v, h1, -⟩
        · rw [hsw] at h1; cases h1
          simp only [hsw] at hb
          cases hb
          exact hi
        · rw [hsw] at h1; cases h1
      | break_ s2 v =>
        obtain ⟨hs2, hv, hr⟩ := switch_other_role s l he2 hc s2 v hsw
        rw [hs2] at hsw
        simp only [hsw] at hb
        have e2 := Except.ok.inj ((afterSwitch_idle pcb s l v hp hs).symm.trans hb)
        subst e2
        exact Ids_idleCommit pcb _ l _ hi hv (fun _ => hr)

theorem Ids_step (pcb : CADSTAR_PCB) (s s1 : LoopState) (l : LAYER) (h : Core s)
    (hi : Ids s) (hl : l.isPseudo = false)
    (hb : loadBoardStackup.body pcb s l = .ok s1) : Ids s1 := by
  cases hp : s.prevWasDielectric with
  | false => exact Ids_idle_step pcb s s1 l h hi hp hl hb
  | true =>
    obtain ⟨t, ht, htype, hlen, hsub⟩ := h.acc hp
    by_cases hc : l.Type_ = .CONSTRUCTION
    · rw [body_construction_acc pcb s l t hp ht hlen hsub hc] at hb
      cases hb
      exact ⟨hi.ids, hi.other⟩
    · rw [body_acc_other pcb s l t hp ht hc] at hb
      exact Ids_idle_step pcb (flushed s t) s1 l (Core_flushed h hp ht) (Ids_flushed hi htype)
        rfl hl hb

theorem Ids_loop (pcb : CADSTAR_PCB) (ls : List LAYER) :
    ∀ s s1, Core s → Ids s → (∀ l ∈ ls, l.isPseudo = false) →
      loadBoardStackup.loop pcb s ls = .ok s1 → Ids s1 := by
  induction ls with
  | nil =>
    intro s s1 _ hi _ h
    cases h
    exact hi
  | cons l ls ih =>
    intro s s1 h hi hall hloop
    have hl := hall l (List.mem_cons_self _ _)
    obtain ⟨s2, hb, hc2, -⟩ := step_ok pcb s l h hl
    simp only [loadBoardStackup.loop, hb] at hloop
    exact ih s2 s1 hc2 (Ids_step pcb s s2 l h hi hl hb)
      (fun x hx => hall x (List.mem_cons_of_mem _ hx)) hloop

theorem mem_std_remove (v : List PCB_LAYER_ID) (value x : PCB_LAYER_ID) (hx : x ∈ v)
    (hne : x ≠ value) : x ∈ std_remove v value := by
  unfold std_remove
  apply List.mem_append_left
  simp [List.mem_filter, hx, hne]

theorem table_fresh : ∀ n, n ≤ 32 → 1 ≤ n →
    getKiCadCopperLayerID n ∉ requiredLayers ∧ getKiCadCopperLayerID n ∉ nonCopperRoles ∧
      getKiCadCopperLayerID n ∉ (List.range' 1 (n - 1)).map getKiCadCopperLayerID := by
  decide

/-- The last copper item of a stackup whose copper roles follow the table has
the role of the last ordinal, and the copper items before it have the roles of
the ordinals before. -/
theorem last_copper_role (pre post : List BOARD_STACKUP_ITEM) (c : BOARD_STACKUP_ITEM)
    (n : Nat) (hn : 0 < n) (hc : c.isCopper = true) (hpost : ∀ x ∈ post, x.isCopper = false)
    (hroles : ((pre ++ c :: post).filter (·.isCopper)).map (·.BrdLayerId)
      = (List.range' 1 n).map getKiCadCopperLayerID) :
    c.BrdLayerId = getKiCadCopperLayerID n ∧
      (pre.filter (·.isCopper)).map (·.BrdLayerId)
        = (List.range' 1 (n - 1)).map getKiCadCopperLayerID := by
  have hp := filter_eq_nil_of_all_false (·.isCopper) post hpost
  simp only [List.filter_append, List.filter_cons, hc, hp, if_true, List.map_append,
    List.map_cons, List.map_nil] at hroles
  obtain ⟨m, rfl⟩ : ∃ m, n = m + 1 := ⟨n - 1, by omega⟩
  rw [List.range'_concat, List.map_append] at hroles
  simp only [List.map_cons, List.map_nil] at hroles
  have h1 := List.append_inj_left' hroles (by simp)
  have h2 := List.append_inj_right' hroles (by simp)
  simp only [List.cons.injEq, and_true] at h2
  have e : 1 + 1 * m = m + 1 := by omega
  rw [e] at h2
  exact ⟨h2, by simpa using h1⟩

/-- Claim C29: After every successful translation of a stack with `N`
electrical layers, `1 ≤ N ≤ 32`, the visible layers written to the board are the
enabled layers, and these contain F_CrtYd, B_CrtYd, Margin, Edge_Cuts and B_Cu
and the final role of every item of the stackup that is not a dielectric; the
removal of the old role of the last electrical layer, `getKiCadCopperLayerID N`,
loses no other entry of the layer-id list of the walk. -/
theorem C29_enabled_layers_keep_roles (pcb : CADSTAR_PCB) (board b : BOARD) (N : Nat)
    (hN : (pcb.stackLayers.filter (·.isElec)).length = N) (h1 : 1 ≤ N) (h32 : N ≤ 32)
    (hok : loadBoardStackup pcb board = .ok b) :
    b.VisibleLayers = b.EnabledLayers ∧
      (∀ x ∈ [PCB_LAYER_ID.F_CrtYd, .B_CrtYd, .Margin, .Edge_Cuts, .B_Cu],
        x ∈ b.EnabledLayers) ∧
      (∀ it ∈ b.Stackup, it.Type_ ≠ .BS_ITEM_TYPE_DIELECTRIC →
        it.BrdLayerId ∈ b.EnabledLayers) ∧
      ∃ sF, loadBoardStackup.loop pcb (loadBoardStackup.init board) pcb.stackLayers = .ok sF ∧
        ∀ x ∈ sF.layerIDs, x ≠ getKiCadCopperLayerID N → x ∈ b.EnabledLayers := by
  have hps := ok_no_pseudo pcb board b hok
  obtain ⟨sF, hl, hc, hr⟩ := loop_ok pcb pcb.stackLayers _ (Core_init board) hps
  have hi := Ids_loop pcb pcb.stackLayers _ sF (Core_init board) (Ids_init board) hps hl
  have hne : sF.numElecAndPowerLayers = N := by
    rw [← hN]; simpa [loadBoardStackup.init] using hr.numElec
  obtain ⟨pre, c, post, hst, hcc, hpost, hpp⟩ := postPass_ok sF hc (by omega)
  simp only [loadBoardStackup, hl] at hok
  rw [hpp] at hok
  have hb := Except.ok.inj hok
  subst hb
  have hroles := hc.roles
  rw [hst, hne] at hroles
  obtain ⟨hcrole, hpre⟩ := last_copper_role pre post c N (by omega) hcc hpost hroles
  obtain ⟨hf1, hf2, hf3⟩ := table_fresh N h32 h1
  have hkeep : ∀ x ∈ sF.layerIDs, x ≠ getKiCadCopperLayerID N →
      x ∈ std_remove sF.layerIDs c.BrdLayerId ++ [PCB_LAYER_ID.B_Cu] := by
    intro x hx hne2
    exact List.mem_append_left _ (mem_std_remove _ _ _ hx (by rw [hcrole]; exact hne2))
  have hreq : ∀ x ∈ requiredLayers, x ∈ sF.layerIDs := by
    intro x hx
    rw [hi.ids]
    exact List.mem_append_left _ hx
  have hitem : ∀ it ∈ sF.board.Stackup, it.isNotDielectric = true →
      it.BrdLayerId ∈ sF.layerIDs := by
    intro it hit hd
    rw [hi.ids]
    apply List.mem_append_right
    exact List.mem_map.mpr ⟨it, List.mem_filter.mpr ⟨hit, hd⟩, rfl⟩
  refine ⟨rfl, ?_, ?_, sF, hl, hkeep⟩
  · intro x hx
    simp only [List.mem_cons, List.mem_singleton, List.not_mem_nil, or_false] at hx
    by_cases hB : x = PCB_LAYER_ID.B_Cu
    · subst hB; simp
    · apply hkeep x (hreq x (by simp only [requiredLayers, List.mem_cons]; tauto))
      intro he
      apply hf1
      rw [← he]
      simp only [requiredLayers, List.mem_cons]; tauto
  · intro it hit hnd
    show it.BrdLayerId ∈ std_remove sF.layerIDs c.BrdLayerId ++ [PCB_LAYER_ID.B_Cu]
    have hit2 : it ∈ pre ++ { c with BrdLayerId := PCB_LAYER_ID.B_Cu } :: post := hit
    have hd : it.isNotDielectric = true := by
      simpa [BOARD_STACKUP_ITEM.isNotDielectric] using hnd
    rcases List.mem_append.mp hit2 with hp | hp
    · have hmem : it ∈ sF.board.Stackup := by rw [hst]; exact List.mem_append_left _ hp
      apply hkeep _ (hitem it hmem hd)
      intro he
      by_cases hcop : it.isCopper = true
      · apply hf3
        rw [← he, ← hpre]
        exact List.mem_map.mpr ⟨it, List.mem_filter.mpr ⟨hp, hcop⟩, rfl⟩
      · apply hf2
        rw [← he]
        exact hi.other it hmem (by simpa using hcop) hd
    · rcases List.mem_cons.mp hp with rfl | hp
      · simp
      · have hmem : it ∈ sF.board.Stackup := by
          rw [hst]; exact List.mem_append_right _ (List.mem_cons_of_mem _ hp)
        apply hkeep _ (hitem it hmem hd)
        intro he
        apply hf2
        rw [← he]
        exact hi.other it hmem (hpost it hp) hd

/-- Claim C29, witness: the stack signal, construction, construction, signal,
silkscreen, solder resist. -/
theorem C29_witness :
    Example.sixLayerBoard.VisibleLayers = Example.sixLayerBoard.EnabledLayers ∧
      (∀ x ∈ [PCB_LAYER_ID.F_CrtYd, .B_CrtYd, .Margin, .Edge_Cuts, .B_Cu],
        x ∈ Example.sixLayerBoard.EnabledLayers) ∧
      (∀ it ∈ Example.sixLayerBoard.Stackup, it.Type_ ≠ .BS_ITEM_TYPE_DIELECTRIC →
        it.BrdLayerId ∈ Example.sixLayerBoard.EnabledLayers) :=
  have h := C29_enabled_layers_keep_roles Example.sixLayer Example.board Example.sixLayerBoard 2
    (by decide) (by decide) (by decide) rfl
  ⟨h.1, h.2.1, h.2.2.1⟩

theorem Printf_fieldCharError (v : SCH_FIELD_VALIDATOR) (args : List String) :
    (Printf (SCH_FIELD_VALIDATOR.Validate.fieldCharError v) args).data.isEmpty = false := by
  unfold SCH_FIELD_VALIDATOR.Validate.fieldCharError
  split <;> rfl

theorem new_HasFlag (lib : Bool) (id : FIELD_ID) :
    (SCH_FIELD_VALIDATOR.new lib id).HasFlag .wxFILTER_EXCLUDE_CHAR_LIST = true := by
  unfold SCH_FIELD_VALIDATOR.new SCH_FIELD_VALIDATOR.HasFlag
  simp only
  split <;> decide

theorem ContainsExcluded_nonempty (v : SCH_FIELD_VALIDATOR) (val : String)
    (h : v.ContainsExcludedCharacters val = true) : val.data.isEmpty = false := by
  unfold SCH_FIELD_VALIDATOR.ContainsExcludedCharacters at h
  cases hd : val.data with
  | nil => simp [hd] at h
  | cons a t => rfl

/-- On an enabled and shown text control whose value contains an excluded
character, `Validate` returns `false` exactly when it finds a white space
character to name in the message. -/
theorem Validate_excluded (lib : Bool) (id : FIELD_ID) (val : String)
    (h : (SCH_FIELD_VALIDATOR.new lib id).ContainsExcludedCharacters val = true) :
    (SCH_FIELD_VALIDATOR.new lib id).Validate ⟨true, true, some val⟩
      = (SCH_FIELD_VALIDATOR.Validate.whiteSpace (SCH_FIELD_VALIDATOR.new lib id) val).isEmpty := by
  have hne := ContainsExcluded_nonempty _ val h
  have hw : ∃ A B C D : List String,
      SCH_FIELD_VALIDATOR.Validate.whiteSpace (SCH_FIELD_VALIDATOR.new lib id) val
        = A ++ B ++ C ++ D ∧ A.length ≤ 1 ∧ B.length ≤ 1 ∧ C.length ≤ 1 ∧ D.length ≤ 1 := by
    refine ⟨_, _, _, _, rfl, ?_, ?_, ?_, ?_⟩ <;> split <;> simp
  obtain ⟨A, B, C, D, hw, hA, hB, hC, hD⟩ := hw
  unfold SCH_FIELD_VALIDATOR.Validate SCH_FIELD_VALIDATOR.Validate.msg
  simp only [hne, h, new_HasFlag, Bool.and_false, Bool.and_true, Bool.not_true, Bool.or_self,
    if_true, if_false, Bool.false_eq_true]
  rw [hw]
  match A, hA, B, hB, C, hC, D, hD with
  | [], _, [], _, [], _, [], _ => rfl
  | [], _, [], _, [], _, [d], _ => simp [Printf_fieldCharError]
  | [], _, [], _, [c], _, [], _ => simp [Printf_fieldCharError]
  | [], _, [], _, [c], _, [d], _ => simp [Printf_fieldCharError]
  | [], _, [b], _, [], _, [], _ => simp [Printf_fieldCharError]
  | [], _, [b], _, [], _, [d], _ => simp [Printf_fieldCharError]
  | [], _, [b], _, [c], _, [], _ => simp [Printf_fieldCharError]
  | [], _, [b], _, [c], _, [d], _ => simp [Printf_fieldCharError]
  | [a], _, [], _, [], _, [], _ => simp [Printf_fieldCharError]
  | [a], _, [], _, [], _, [d], _ => simp [Printf_fieldCharError]
  | [a], _, [], _, [c], _, [], _ => simp [Printf_fieldCharError]
  | [a], _, [], _, [c], _, [d], _ => simp [Printf_fieldCharError]
  | [a], _, [b], _, [], _, [], _ => simp [Printf_fieldCharError]
  | [a], _, [b], _, [], _, [d], _ => simp [Printf_fieldCharError]
  | [a], _, [b], _, [c], _, [], _ => simp [Printf_fieldCharError]
  | [a], _, [b], _, [c], _, [d], _ => simp [Printf_fieldCharError]

/-- Claim C30, the code at the failing input: for the VALUE field in the
library editor the constructor excludes CR, LF, TAB, space, `:`, `/` and the
backslash, and for SHEETFILENAME_V it excludes CR, LF, TAB, `:`, `/` and the
backslash; the texts `a:b` and `a/b.sch` contain an excluded character; the
array `whiteSpace` stays empty for them, and `Validate` on an enabled and shown
text control returns `true`. -/
theorem C30_excluded_character_passes :
    ((SCH_FIELD_VALIDATOR.new true .VALUE).charExcludes = "\r\n\t :/\\" ∧
      (SCH_FIELD_VALIDATOR.new true .VALUE).ContainsExcludedCharacters "a:b" = true ∧
      SCH_FIELD_VALIDATOR.Validate.whiteSpace (SCH_FIELD_VALIDATOR.new true .VALUE) "a:b" = [] ∧
      (SCH_FIELD_VALIDATOR.new true .VALUE).Validate ⟨true, true, some "a:b"⟩ = true) ∧
    ((SCH_FIELD_VALIDATOR.new false .SHEETFILENAME_V).charExcludes = "\r\n\t:/\\" ∧
      (SCH_FIELD_VALIDATOR.new false .SHEETFILENAME_V).ContainsExcludedCharacters "a/b.sch"
        = true ∧
      SCH_FIELD_VALIDATOR.Validate.whiteSpace (SCH_FIELD_VALIDATOR.new false .SHEETFILENAME_V)
        "a/b.sch" = [] ∧
      (SCH_FIELD_VALIDATOR.new false .SHEETFILENAME_V).Validate ⟨true, true, some "a/b.sch"⟩
        = true) := by
  decide

end CADSTAR
